import Mathlib

/-!
# akvcam ioctl layer

A shallow embedding of `src/ioctl.c` of the akvcam virtual camera driver: the
command table `akvcam_ioctls_private`, the dispatcher `akvcam_ioctl_do`, and the
protocol handlers `akvcam_ioctl_*`.

Conventions of the embedding.

* C integers are `Nat`/`Int`; a cast `(__u32) e` is `e % 2 ^ 32`, `(__u8) e` is `e % 2 ^ 8`.
* Handlers are state-passing functions: they take the payload structure and the
  driver state (`World`) and return the C return value, the payload structure as
  left behind, and the new driver state.
* Code that lives outside `ioctl.c` (Formats, Buffers, the kernel's user-memory
  copies, the numeric values of the `VIDIOC_*` macros) is a parameter of the
  definitions, so every theorem holds for all of its behaviours.
-/

namespace Akvcam

set_option autoImplicit false

/-! ## Result codes -/

/-- errno value `EIO` of the kernel (errno-base.h). -/
def EIO : Int := 5

/-- errno value `EFAULT` of the kernel (errno-base.h). -/
def EFAULT : Int := 14

/-- errno value `EBUSY` of the kernel (errno-base.h). -/
def EBUSY : Int := 16

/-- errno value `EINVAL` of the kernel (errno-base.h). -/
def EINVAL : Int := 22

/-- errno value `ENOTTY` of the kernel (errno-base.h). -/
def ENOTTY : Int := 25

/-! ## Command table -/

/-- The command macros the table names (`VIDIOC_*` of videodev2.h and
`UVCIOC_CTRL_MAP` of uvcvideo.h). -/
inductive Ioctl
  | VIDIOC_QUERYCAP | VIDIOC_QUERY_EXT_CTRL | VIDIOC_G_EXT_CTRLS | VIDIOC_S_EXT_CTRLS
  | VIDIOC_TRY_EXT_CTRLS | VIDIOC_QUERYCTRL | VIDIOC_QUERYMENU | VIDIOC_G_CTRL
  | VIDIOC_S_CTRL | VIDIOC_ENUMINPUT | VIDIOC_G_INPUT | VIDIOC_S_INPUT
  | VIDIOC_ENUMOUTPUT | VIDIOC_G_OUTPUT | VIDIOC_S_OUTPUT | VIDIOC_ENUM_FMT
  | VIDIOC_G_FMT | VIDIOC_S_FMT | VIDIOC_TRY_FMT | VIDIOC_G_PARM | VIDIOC_S_PARM
  | VIDIOC_ENUM_FRAMESIZES | VIDIOC_ENUM_FRAMEINTERVALS | VIDIOC_G_PRIORITY
  | VIDIOC_S_PRIORITY | VIDIOC_SUBSCRIBE_EVENT | VIDIOC_UNSUBSCRIBE_EVENT
  | VIDIOC_DQEVENT | VIDIOC_REQBUFS | VIDIOC_QUERYBUF | VIDIOC_CREATE_BUFS
  | VIDIOC_QBUF | VIDIOC_DQBUF | VIDIOC_STREAMON | VIDIOC_STREAMOFF
  | VIDIOC_CROPCAP | VIDIOC_DBG_G_REGISTER | VIDIOC_DECODER_CMD
  | VIDIOC_DV_TIMINGS_CAP | VIDIOC_ENCODER_CMD | VIDIOC_ENUMAUDIO
  | VIDIOC_ENUMAUDOUT | VIDIOC_ENUMSTD | VIDIOC_ENUM_DV_TIMINGS | VIDIOC_EXPBUF
  | VIDIOC_G_AUDIO | VIDIOC_G_AUDOUT | VIDIOC_G_CROP | VIDIOC_G_DV_TIMINGS
  | VIDIOC_G_EDID | VIDIOC_G_ENC_INDEX | VIDIOC_G_FBUF | VIDIOC_G_FREQUENCY
  | VIDIOC_G_JPEGCOMP | VIDIOC_G_MODULATOR | VIDIOC_G_SELECTION
  | VIDIOC_G_SLICED_VBI_CAP | VIDIOC_G_STD | VIDIOC_G_TUNER | VIDIOC_LOG_STATUS
  | VIDIOC_QUERYSTD | VIDIOC_QUERY_DV_TIMINGS | VIDIOC_S_AUDIO | VIDIOC_S_AUDOUT
  | VIDIOC_S_EDID | VIDIOC_S_FREQUENCY | VIDIOC_S_HW_FREQ_SEEK | VIDIOC_S_JPEGCOMP
  | VIDIOC_S_SELECTION | VIDIOC_S_STD | VIDIOC_S_TUNER | UVCIOC_CTRL_MAP
  deriving DecidableEq, Repr

/-- The argument types whose `sizeof` the table records. -/
inductive CType
  | v4l2_capability | v4l2_query_ext_ctrl | v4l2_ext_controls | v4l2_queryctrl
  | v4l2_querymenu | v4l2_control | v4l2_input | c_int | v4l2_output | v4l2_fmtdesc
  | v4l2_format | v4l2_streamparm | v4l2_frmsizeenum | v4l2_frmivalenum
  | v4l2_priority | v4l2_event_subscription | v4l2_event | v4l2_requestbuffers
  | v4l2_buffer | v4l2_create_buffers | c_const_int
  deriving DecidableEq, Repr

/-- The handler functions a table entry can point to (`akvcam_proc_t` values);
`querycap` stands for `akvcam_ioctl_querycap`, and so on. -/
inductive akvcam_proc_t
  | querycap | query_ext_ctrl | g_ext_ctrls | s_ext_ctrls | try_ext_ctrls
  | queryctrl | querymenu | g_ctrl | s_ctrl | enuminput | g_input | s_input
  | enumoutput | g_output | s_output | enum_fmt | g_fmt | s_fmt | try_fmt
  | g_parm | s_parm | enum_framesizes | enum_frameintervals | g_priority
  | s_priority | subscribe_event | unsubscribe_event | dqevent | reqbufs
  | querybuf | create_bufs | qbuf | dqbuf | streamon | streamoff
  deriving DecidableEq, Repr

/-- What the kernel headers fix and `ioctl.c` only names: the numeric value of
each command macro, the size of each argument type, and whether the headers
define `VIDIOC_QUERY_EXT_CTRL` (the `#ifdef` of the table). -/
structure Uapi where
  code : Ioctl → Nat
  sizeof : CType → Nat
  has_query_ext_ctrl : Bool

/-- One row of the table: `struct akvcam_ioctl_handler`; a NULL `proc` is `none`. -/
structure akvcam_ioctl_handler where
  cmd : Nat
  proc : Option akvcam_proc_t
  data_size : Nat
  deriving DecidableEq, Repr

/-- The C macro `AKVCAM_HANDLER(cmd, proc, arg_type)`. -/
def AKVCAM_HANDLER (u : Uapi) (cmd : Ioctl) (proc : akvcam_proc_t) (arg_type : CType) :
    akvcam_ioctl_handler :=
  ⟨u.code cmd, some proc, u.sizeof arg_type⟩

/-- The C macro `AKVCAM_HANDLER_IGNORE(cmd)`. -/
def AKVCAM_HANDLER_IGNORE (u : Uapi) (cmd : Ioctl) : akvcam_ioctl_handler :=
  ⟨u.code cmd, none, 0⟩

/-- The C macro `AKVCAM_HANDLER_END`. -/
def AKVCAM_HANDLER_END : akvcam_ioctl_handler :=
  ⟨0, none, 0⟩

/-- The handler rows of `akvcam_ioctls_private`, in table order. -/
def akvcam_ioctls_handlers (u : Uapi) : List akvcam_ioctl_handler :=
  [AKVCAM_HANDLER u .VIDIOC_QUERYCAP .querycap .v4l2_capability] ++
  (if u.has_query_ext_ctrl then
    [AKVCAM_HANDLER u .VIDIOC_QUERY_EXT_CTRL .query_ext_ctrl .v4l2_query_ext_ctrl]
   else []) ++
  [ AKVCAM_HANDLER u .VIDIOC_G_EXT_CTRLS .g_ext_ctrls .v4l2_ext_controls,
    AKVCAM_HANDLER u .VIDIOC_S_EXT_CTRLS .s_ext_ctrls .v4l2_ext_controls,
    AKVCAM_HANDLER u .VIDIOC_TRY_EXT_CTRLS .try_ext_ctrls .v4l2_ext_controls,
    AKVCAM_HANDLER u .VIDIOC_QUERYCTRL .queryctrl .v4l2_queryctrl,
    AKVCAM_HANDLER u .VIDIOC_QUERYMENU .querymenu .v4l2_querymenu,
    AKVCAM_HANDLER u .VIDIOC_G_CTRL .g_ctrl .v4l2_control,
    AKVCAM_HANDLER u .VIDIOC_S_CTRL .s_ctrl .v4l2_control,
    AKVCAM_HANDLER u .VIDIOC_ENUMINPUT .enuminput .v4l2_input,
    AKVCAM_HANDLER u .VIDIOC_G_INPUT .g_input .c_int,
    AKVCAM_HANDLER u .VIDIOC_S_INPUT .s_input .c_int,
    AKVCAM_HANDLER u .VIDIOC_ENUMOUTPUT .enumoutput .v4l2_output,
    AKVCAM_HANDLER u .VIDIOC_G_OUTPUT .g_output .c_int,
    AKVCAM_HANDLER u .VIDIOC_S_OUTPUT .s_output .c_int,
    AKVCAM_HANDLER u .VIDIOC_ENUM_FMT .enum_fmt .v4l2_fmtdesc,
    AKVCAM_HANDLER u .VIDIOC_G_FMT .g_fmt .v4l2_format,
    AKVCAM_HANDLER u .VIDIOC_S_FMT .s_fmt .v4l2_format,
    AKVCAM_HANDLER u .VIDIOC_TRY_FMT .try_fmt .v4l2_format,
    AKVCAM_HANDLER u .VIDIOC_G_PARM .g_parm .v4l2_streamparm,
    AKVCAM_HANDLER u .VIDIOC_S_PARM .s_parm .v4l2_streamparm,
    AKVCAM_HANDLER u .VIDIOC_ENUM_FRAMESIZES .enum_framesizes .v4l2_frmsizeenum,
    AKVCAM_HANDLER u .VIDIOC_ENUM_FRAMEINTERVALS .enum_frameintervals .v4l2_frmivalenum,
    AKVCAM_HANDLER u .VIDIOC_G_PRIORITY .g_priority .v4l2_priority,
    AKVCAM_HANDLER u .VIDIOC_S_PRIORITY .s_priority .v4l2_priority,
    AKVCAM_HANDLER u .VIDIOC_SUBSCRIBE_EVENT .subscribe_event .v4l2_event_subscription,
    AKVCAM_HANDLER u .VIDIOC_UNSUBSCRIBE_EVENT .unsubscribe_event .v4l2_event_subscription,
    AKVCAM_HANDLER u .VIDIOC_DQEVENT .dqevent .v4l2_event,
    AKVCAM_HANDLER u .VIDIOC_REQBUFS .reqbufs .v4l2_requestbuffers,
    AKVCAM_HANDLER u .VIDIOC_QUERYBUF .querybuf .v4l2_buffer,
    AKVCAM_HANDLER u .VIDIOC_CREATE_BUFS .create_bufs .v4l2_create_buffers,
    AKVCAM_HANDLER u .VIDIOC_QBUF .qbuf .v4l2_buffer,
    AKVCAM_HANDLER u .VIDIOC_DQBUF .dqbuf .v4l2_buffer,
    AKVCAM_HANDLER u .VIDIOC_STREAMON .streamon .c_const_int,
    AKVCAM_HANDLER u .VIDIOC_STREAMOFF .streamoff .c_const_int ]

/-- The `AKVCAM_HANDLER_IGNORE` rows of `akvcam_ioctls_private`, in table order. -/
def akvcam_ioctls_ignored (u : Uapi) : List akvcam_ioctl_handler :=
  [ AKVCAM_HANDLER_IGNORE u .VIDIOC_CROPCAP,
    AKVCAM_HANDLER_IGNORE u .VIDIOC_DBG_G_REGISTER,
    AKVCAM_HANDLER_IGNORE u .VIDIOC_DECODER_CMD,
    AKVCAM_HANDLER_IGNORE u .VIDIOC_DV_TIMINGS_CAP,
    AKVCAM_HANDLER_IGNORE u .VIDIOC_ENCODER_CMD,
    AKVCAM_HANDLER_IGNORE u Ioctl.VIDIOC_ENUMAUDIO,
    AKVCAM_HANDLER_IGNORE u .VIDIOC_ENUMAUDOUT,
    AKVCAM_HANDLER_IGNORE u .VIDIOC_ENUMOUTPUT,
    AKVCAM_HANDLER_IGNORE u .VIDIOC_ENUMSTD,
    AKVCAM_HANDLER_IGNORE u .VIDIOC_ENUM_DV_TIMINGS,
    AKVCAM_HANDLER_IGNORE u .VIDIOC_EXPBUF,
    AKVCAM_HANDLER_IGNORE u Ioctl.VIDIOC_G_AUDIO,
    AKVCAM_HANDLER_IGNORE u .VIDIOC_G_AUDOUT,
    AKVCAM_HANDLER_IGNORE u .VIDIOC_G_CROP,
    AKVCAM_HANDLER_IGNORE u .VIDIOC_G_DV_TIMINGS,
    AKVCAM_HANDLER_IGNORE u .VIDIOC_G_EDID,
    AKVCAM_HANDLER_IGNORE u .VIDIOC_G_ENC_INDEX,
    AKVCAM_HANDLER_IGNORE u .VIDIOC_G_FBUF,
    AKVCAM_HANDLER_IGNORE u .VIDIOC_G_FREQUENCY,
    AKVCAM_HANDLER_IGNORE u .VIDIOC_G_JPEGCOMP,
    AKVCAM_HANDLER_IGNORE u .VIDIOC_G_MODULATOR,
    AKVCAM_HANDLER_IGNORE u .VIDIOC_G_OUTPUT,
    AKVCAM_HANDLER_IGNORE u .VIDIOC_G_SELECTION,
    AKVCAM_HANDLER_IGNORE u .VIDIOC_G_SLICED_VBI_CAP,
    AKVCAM_HANDLER_IGNORE u .VIDIOC_G_STD,
    AKVCAM_HANDLER_IGNORE u .VIDIOC_G_TUNER,
    AKVCAM_HANDLER_IGNORE u .VIDIOC_LOG_STATUS,
    AKVCAM_HANDLER_IGNORE u .VIDIOC_QUERYSTD,
    AKVCAM_HANDLER_IGNORE u .VIDIOC_QUERY_DV_TIMINGS,
    AKVCAM_HANDLER_IGNORE u Ioctl.VIDIOC_S_AUDIO,
    AKVCAM_HANDLER_IGNORE u .VIDIOC_S_AUDOUT,
    AKVCAM_HANDLER_IGNORE u .VIDIOC_S_EDID,
    AKVCAM_HANDLER_IGNORE u .VIDIOC_S_FREQUENCY,
    AKVCAM_HANDLER_IGNORE u .VIDIOC_S_HW_FREQ_SEEK,
    AKVCAM_HANDLER_IGNORE u .VIDIOC_S_JPEGCOMP,
    AKVCAM_HANDLER_IGNORE u .VIDIOC_S_OUTPUT,
    AKVCAM_HANDLER_IGNORE u .VIDIOC_S_SELECTION,
    AKVCAM_HANDLER_IGNORE u .VIDIOC_S_STD,
    AKVCAM_HANDLER_IGNORE u .VIDIOC_S_TUNER,
    AKVCAM_HANDLER_IGNORE u .UVCIOC_CTRL_MAP ]

/-- The static table `akvcam_ioctls_private`: the handler rows, the ignored
rows, and the end marker. -/
def akvcam_ioctls_private (u : Uapi) : List akvcam_ioctl_handler :=
  akvcam_ioctls_handlers u ++ akvcam_ioctls_ignored u ++ [AKVCAM_HANDLER_END]

/-- The object `struct akvcam_ioctl` (its reference count left out). -/
structure akvcam_ioctl where
  n_ioctls : Nat
  deriving DecidableEq, Repr

/-- The constructor `akvcam_ioctl_new`: counts the rows before the first row whose
`cmd` is zero. -/
def akvcam_ioctl_new (u : Uapi) : akvcam_ioctl :=
  ⟨((akvcam_ioctls_private u).takeWhile (fun e => e.cmd != 0)).length⟩

/-! ## Dispatcher -/

/-- The kernel's user-memory copies over a user address space `U`. Both return
the number of bytes left uncopied (zero is success); `copy_from_user` also gives
the kernel buffer as filled, `copy_to_user` the user memory as left behind. -/
structure Uaccess (U : Type) where
  copy_from_user : U → (arg : Nat) → (size : Nat) → Nat × List Nat
  copy_to_user : U → (arg : Nat) → (data : List Nat) → (size : Nat) → Nat × U

/-- What a call of `akvcam_ioctl_do` did, in order. -/
inductive IoctlEvent
  | copy_from_user (arg size : Nat)
  | proc (p : akvcam_proc_t) (data : List Nat)
  | copy_to_user (arg : Nat) (data : List Nat) (size : Nat)
  deriving DecidableEq, Repr

/-- The result of `akvcam_ioctl_do`: the C return value, the driver state and the
user memory it leaves, and the trace of copies and handler calls it made. -/
structure IoctlOutcome (W U : Type) where
  result : Int
  world : W
  user : U
  trace : List IoctlEvent

/-- The `for` loop of `akvcam_ioctl_do` over the rows it may visit. `invoke` is
the machine-level meaning of the function pointers: handler, node, kernel buffer
and driver state to return value, buffer and driver state. A NULL `arg` is `0`. -/
def akvcam_ioctl_do_loop {N W U : Type} (ua : Uaccess U)
    (invoke : akvcam_proc_t → N → List Nat → W → Int × List Nat × W)
    (node : N) (cmd : Nat) (arg : Nat) (w : W) (us : U) :
    List akvcam_ioctl_handler → IoctlOutcome W U
  | [] => ⟨-ENOTTY, w, us, []⟩
  | e :: rest =>
    if e.cmd = cmd then
      match e.proc with
      | some proc =>
        if arg ≠ 0 then
          let size := e.data_size
          let cf := ua.copy_from_user us arg size
          if cf.1 = 0 then
            let r := invoke proc node cf.2 w
            let ct := ua.copy_to_user us arg r.2.1 size
            ⟨if ct.1 ≠ 0 then - EIO else r.1, r.2.2, ct.2,
              [.copy_from_user arg size, .proc proc cf.2, .copy_to_user arg r.2.1 size]⟩
          else
            ⟨- EIO, w, us, [.copy_from_user arg size]⟩
        else
          ⟨-EFAULT, w, us, []⟩
      | none => ⟨-ENOTTY, w, us, []⟩
    else
      akvcam_ioctl_do_loop ua invoke node cmd arg w us rest

/-- The dispatcher `akvcam_ioctl_do`: visits the first `self->n_ioctls` rows of
`akvcam_ioctls_private`. -/
def akvcam_ioctl_do {N W U : Type} (u : Uapi) (ua : Uaccess U)
    (invoke : akvcam_proc_t → N → List Nat → W → Int × List Nat × W)
    (self : akvcam_ioctl) (node : N) (cmd : Nat) (arg : Nat) (w : W) (us : U) :
    IoctlOutcome W U :=
  akvcam_ioctl_do_loop ua invoke node cmd arg w us
    ((akvcam_ioctls_private u).take self.n_ioctls)

/-! ## Data model of the handlers -/

/-- The cast `(__u32) e`. -/
def u32 (e : Nat) : Nat := e % 2 ^ 32

/-- The cast `(__u8) e`. -/
def u8 (e : Nat) : Nat := e % 2 ^ 8

/-- Buffer type `V4L2_BUF_TYPE_VIDEO_CAPTURE` (videodev2.h). -/
def V4L2_BUF_TYPE_VIDEO_CAPTURE : Nat := 1

/-- Buffer type `V4L2_BUF_TYPE_VIDEO_OUTPUT` (videodev2.h). -/
def V4L2_BUF_TYPE_VIDEO_OUTPUT : Nat := 2

/-- Buffer type `V4L2_BUF_TYPE_VIDEO_CAPTURE_MPLANE` (videodev2.h). -/
def V4L2_BUF_TYPE_VIDEO_CAPTURE_MPLANE : Nat := 9

/-- Buffer type `V4L2_BUF_TYPE_VIDEO_OUTPUT_MPLANE` (videodev2.h). -/
def V4L2_BUF_TYPE_VIDEO_OUTPUT_MPLANE : Nat := 10

/-- Field order `V4L2_FIELD_NONE` (videodev2.h). -/
def V4L2_FIELD_NONE : Nat := 1

/-- Colorspace `V4L2_COLORSPACE_RAW` (videodev2.h). -/
def V4L2_COLORSPACE_RAW : Nat := 11

/-- The macro `DEFAULT_COLORSPACE` of `ioctl.c`. -/
def DEFAULT_COLORSPACE : Nat := V4L2_COLORSPACE_RAW

/-- Capability flag `V4L2_CAP_TIMEPERFRAME` (videodev2.h). -/
def V4L2_CAP_TIMEPERFRAME : Nat := 0x1000

/-- Modelled from the spec: the read/write-mode flag of a Device
(`AKVCAM_RW_MODE_READWRITE` of the absent device_types.h), one bit of the
device's mode set. -/
def AKVCAM_RW_MODE_READWRITE : Nat := 1

/-- The kernel's `struct v4l2_fract`. -/
structure v4l2_fract where
  numerator : Nat
  denominator : Nat
  deriving DecidableEq, Repr

/-- Modelled from the spec: the Format value of the Formats collaborator (format.c
is absent): pixel encoding tag, width, height and frame-rate fraction. Per-plane
stride and size are computed by Formats (`akvcam_format_bypl` and the like). -/
structure akvcam_format where
  fourcc : Nat
  width : Nat
  height : Nat
  frame_rate : v4l2_fract
  deriving DecidableEq, Repr

/-- Modelled from the spec: the constructor `akvcam_format_new` of the absent format.c. -/
def akvcam_format_new (fourcc width height : Nat) (frame_rate : v4l2_fract) : akvcam_format :=
  ⟨fourcc, width, height, frame_rate⟩

/-- Modelled from the spec: the accessor `akvcam_format_fourcc` of the absent format.c. -/
def akvcam_format_fourcc (self : akvcam_format) : Nat := self.fourcc

/-- Modelled from the spec: the accessor `akvcam_format_width` of the absent format.c. -/
def akvcam_format_width (self : akvcam_format) : Nat := self.width

/-- Modelled from the spec: the accessor `akvcam_format_height` of the absent format.c. -/
def akvcam_format_height (self : akvcam_format) : Nat := self.height

/-- Modelled from the spec: the accessor `akvcam_format_frame_rate` of the absent format.c. -/
def akvcam_format_frame_rate (self : akvcam_format) : v4l2_fract := self.frame_rate

/-- Modelled from the spec: the setter `akvcam_format_set_fourcc` of the absent format.c. -/
def akvcam_format_set_fourcc (self : akvcam_format) (fourcc : Nat) : akvcam_format :=
  { self with fourcc := fourcc }

/-- Modelled from the spec: the setter `akvcam_format_set_width` of the absent format.c. -/
def akvcam_format_set_width (self : akvcam_format) (width : Nat) : akvcam_format :=
  { self with width := width }

/-- Modelled from the spec: the setter `akvcam_format_set_height` of the absent format.c. -/
def akvcam_format_set_height (self : akvcam_format) (height : Nat) : akvcam_format :=
  { self with height := height }

/-- The kernel's `struct v4l2_plane_pix_format` (its reserved words left out). -/
structure v4l2_plane_pix_format where
  sizeimage : Nat
  bytesperline : Nat
  deriving DecidableEq, Repr

/-- What lies behind the first four words of the union `fmt` of `struct
v4l2_format`: bytes the caller supplied that no handler reads (`raw`), or, after
`memset(&format->fmt, 0, 200)`, the members written through the `pix` view or
through the `pix_mp` view (every other member is zero). -/
inductive v4l2_format_rest
  | raw (bytes : List Nat)
  | pix (bytesperline sizeimage colorspace : Nat)
  | pix_mp (colorspace : Nat) (plane_fmt : List v4l2_plane_pix_format) (num_planes : Nat)
  deriving DecidableEq, Repr

/-- The union `fmt` of `struct v4l2_format`. `width`, `height`, `pixelformat` and
`field` are the first four words of both `fmt.pix` and `fmt.pix_mp`. -/
structure v4l2_format_fmt where
  width : Nat
  height : Nat
  pixelformat : Nat
  field : Nat
  rest : v4l2_format_rest
  deriving DecidableEq, Repr

/-- The kernel's `struct v4l2_format`. -/
structure v4l2_format where
  type : Nat
  fmt : v4l2_format_fmt
  deriving DecidableEq, Repr

/-- The union `parm` of `struct v4l2_streamparm`. Its views `capture` and `output`
have the same members in the same places: `capability`, `capturemode` or
`outputmode`, `timeperframe`, `extendedmode`, `readbuffers` or `writebuffers`. -/
structure v4l2_streamparm_parm where
  capability : Nat
  mode : Nat
  timeperframe : v4l2_fract
  extendedmode : Nat
  buffers : Nat
  deriving DecidableEq, Repr

/-- The kernel's `struct v4l2_streamparm`. -/
structure v4l2_streamparm where
  type : Nat
  parm : v4l2_streamparm_parm
  deriving DecidableEq, Repr

/-- The kernel's `struct v4l2_requestbuffers` (its reserved words left out). -/
structure v4l2_requestbuffers where
  count : Nat
  type : Nat
  memory : Nat
  deriving DecidableEq, Repr

/-- The kernel's `struct v4l2_create_buffers` (its reserved words left out). -/
structure v4l2_create_buffers where
  index : Nat
  count : Nat
  memory : Nat
  format : v4l2_format
  deriving DecidableEq, Repr

/-- Modelled from the spec: a Node, one open client session (node.c is absent):
session id, device number, blocking flag. Its Events queue is kept in the
`World`, by node id. Two node pointers are equal when the records are. -/
structure akvcam_node where
  id : Int
  device_num : Int
  blocking : Bool
  deriving DecidableEq, Repr

/-- Modelled from the spec: the accessor `akvcam_node_id` of the absent node.c. -/
def akvcam_node_id (self : akvcam_node) : Int := self.id

/-- Modelled from the spec: the accessor `akvcam_node_device_num` of the absent node.c. -/
def akvcam_node_device_num (self : akvcam_node) : Int := self.device_num

/-- Modelled from the spec: the accessor `akvcam_node_blocking` of the absent node.c. -/
def akvcam_node_blocking (self : akvcam_node) : Bool := self.blocking

/-- Modelled from the spec: the device class (`AKVCAM_DEVICE_TYPE` of the absent
device_types.h). -/
inductive AKVCAM_DEVICE_TYPE
  | AKVCAM_DEVICE_TYPE_CAPTURE
  | AKVCAM_DEVICE_TYPE_OUTPUT
  deriving DecidableEq, Repr

/-- Modelled from the spec: a Device (device.c is absent) with the attributes the
handlers read and write. `B` is the state of its buffer pool, `C` of its
controls; a NULL node is `none`. -/
structure akvcam_device (B C : Type) where
  num : Int
  description : String
  type : AKVCAM_DEVICE_TYPE
  v4l2_type : Nat
  caps : Nat
  rw_mode : Nat
  formats : List akvcam_format
  format : akvcam_format
  streaming : Bool
  priority : Nat
  priority_node : Option akvcam_node
  controlling_node : Option akvcam_node
  broadcasting_node : Int
  buffers : B
  controls : C

/-- The driver state the handlers work on: the device registry behind
`akvcam_driver_device_from_num_nr`, and the Events queue of every node. -/
structure World (B C E : Type) where
  devices : Int → Option (akvcam_device B C)
  events : Int → E

/-- Modelled from the spec: the registry lookup `akvcam_driver_device_from_num_nr`
of the absent driver.c; a NULL result is `none`. -/
def akvcam_driver_device_from_num_nr {B C E : Type} (w : World B C E) (num : Int) :
    Option (akvcam_device B C) :=
  w.devices num

/-- The driver state after the device found under `num` has been changed to `device`. -/
def World.store {B C E : Type} (w : World B C E) (num : Int) (device : akvcam_device B C) :
    World B C E :=
  { w with devices := fun n => if n = num then some device else w.devices n }

section Device

variable {B C : Type}

/-- Modelled from the spec: the accessor `akvcam_device_v4l2_type` of the absent device.c. -/
def akvcam_device_v4l2_type (self : akvcam_device B C) : Nat := self.v4l2_type

/-- Modelled from the spec: the accessor `akvcam_device_streaming` of the absent device.c. -/
def akvcam_device_streaming (self : akvcam_device B C) : Bool := self.streaming

/-- Modelled from the spec: the accessor `akvcam_device_rw_mode` of the absent device.c. -/
def akvcam_device_rw_mode (self : akvcam_device B C) : Nat := self.rw_mode

/-- Modelled from the spec: the accessor `akvcam_device_formats` of the absent
device.c, the supported-format list. -/
def akvcam_device_formats (self : akvcam_device B C) : List akvcam_format := self.formats

/-- Modelled from the spec: the accessor `akvcam_device_format` of the absent
device.c, a copy of the current format. -/
def akvcam_device_format (self : akvcam_device B C) : akvcam_format := self.format

/-- Modelled from the spec: the setter `akvcam_device_set_format` of the absent device.c. -/
def akvcam_device_set_format (self : akvcam_device B C) (format : akvcam_format) :
    akvcam_device B C :=
  { self with format := format }

/-- Modelled from the spec: the accessor `akvcam_device_buffers_nr` of the absent device.c. -/
def akvcam_device_buffers_nr (self : akvcam_device B C) : B := self.buffers

/-- Modelled from the spec: the accessor `akvcam_device_controlling_node` of the
absent device.c. -/
def akvcam_device_controlling_node (self : akvcam_device B C) : Option akvcam_node :=
  self.controlling_node

/-- Modelled from the spec: the setter `akvcam_device_set_controlling_node` of the
absent device.c. -/
def akvcam_device_set_controlling_node (self : akvcam_device B C)
    (node : Option akvcam_node) : akvcam_device B C :=
  { self with controlling_node := node }

end Device

/-! ## Collaborators -/

/-- The Formats collaborator (format.c, absent) as the handlers use it; a NULL
result is `none`. -/
structure Formats where
  akvcam_format_nearest : List akvcam_format → akvcam_format → Option akvcam_format
  akvcam_format_from_v4l2 : List akvcam_format → v4l2_format → Option akvcam_format
  akvcam_format_bypl : akvcam_format → Nat → Nat
  akvcam_format_size : akvcam_format → Nat
  akvcam_format_planes : akvcam_format → Nat
  akvcam_format_plane_size : akvcam_format → Nat → Nat

/-- The Buffers collaborator (buffers.c, absent) over a pool state `B`, as
`s_fmt`, `g_parm`, `s_parm`, `reqbufs` and `create_bufs` use it. An operation
gives its C return value, the pool it leaves and the structure it was handed. -/
structure Buffers (B : Type) where
  akvcam_buffers_allocate : B → v4l2_requestbuffers → Int × B × v4l2_requestbuffers
  akvcam_buffers_create : B → v4l2_create_buffers → akvcam_format →
    Int × B × v4l2_create_buffers
  akvcam_buffers_resize_rw : B → Nat → Bool × B
  akvcam_buffers_size_rw : B → Nat
  akvcam_buffers_set_blocking : B → Bool → B

/-! ## Format negotiation -/

section Handlers

variable {B C E : Type}

/-- The block that `akvcam_ioctl_g_fmt` and `akvcam_ioctl_try_fmt` share: after
`memset(&format->fmt, 0, 200)`, write format `f` through the view that the
buffer type `type` selects. -/
def v4l2_format_fill (fo : Formats) (type : Nat) (f : akvcam_format) : v4l2_format_fmt :=
  if type = V4L2_BUF_TYPE_VIDEO_CAPTURE ∨ type = V4L2_BUF_TYPE_VIDEO_OUTPUT then
    { width := u32 (akvcam_format_width f),
      height := u32 (akvcam_format_height f),
      pixelformat := akvcam_format_fourcc f,
      field := V4L2_FIELD_NONE,
      rest := .pix (u32 (fo.akvcam_format_bypl f 0)) (u32 (fo.akvcam_format_size f))
        DEFAULT_COLORSPACE }
  else
    let num_planes := u8 (fo.akvcam_format_planes f)
    { width := u32 (akvcam_format_width f),
      height := u32 (akvcam_format_height f),
      pixelformat := akvcam_format_fourcc f,
      field := V4L2_FIELD_NONE,
      rest := .pix_mp DEFAULT_COLORSPACE
        ((List.range num_planes).map fun i =>
          { bytesperline := u32 (fo.akvcam_format_bypl f i),
            sizeimage := u32 (fo.akvcam_format_plane_size f i) })
        num_planes }

/-- The handler `akvcam_ioctl_try_fmt`. -/
def akvcam_ioctl_try_fmt (fo : Formats) (node : akvcam_node) (format : v4l2_format)
    (w : World B C E) : Int × v4l2_format × World B C E :=
  let device_num := akvcam_node_device_num node
  match akvcam_driver_device_from_num_nr w device_num with
  | none => (- EIO, format, w)
  | some device =>
    if format.type ≠ akvcam_device_v4l2_type device then
      (-EINVAL, format, w)
    else if akvcam_device_streaming device then
      (-EBUSY, format, w)
    else
      let frame_rate : v4l2_fract := ⟨0, 0⟩
      let temp_format := akvcam_format_new format.fmt.pixelformat format.fmt.width
        format.fmt.height frame_rate
      let formats := akvcam_device_formats device
      match fo.akvcam_format_nearest formats temp_format with
      | none => (-EINVAL, format, w)
      | some nearest_format =>
        (0, { format with fmt := v4l2_format_fill fo format.type nearest_format }, w)

/-- The handler `akvcam_ioctl_s_fmt`. The pointer `device` is read in the state
that `akvcam_ioctl_try_fmt` left. -/
def akvcam_ioctl_s_fmt (fo : Formats) (bo : Buffers B) (node : akvcam_node)
    (format : v4l2_format) (w : World B C E) : Int × v4l2_format × World B C E :=
  let device_num := akvcam_node_device_num node
  match akvcam_driver_device_from_num_nr w device_num with
  | none => (- EIO, format, w)
  | some _ =>
    let r := akvcam_ioctl_try_fmt fo node format w
    let result := r.1
    let format := r.2.1
    let w := r.2.2
    if result = 0 then
      match akvcam_driver_device_from_num_nr w device_num with
      | none => (result, format, w)
      | some device =>
        let current_format := akvcam_device_format device
        let current_format := akvcam_format_set_fourcc current_format format.fmt.pixelformat
        let current_format := akvcam_format_set_width current_format format.fmt.width
        let current_format := akvcam_format_set_height current_format format.fmt.height
        let device := akvcam_device_set_format device current_format
        let buffers := akvcam_device_buffers_nr device
        let resized := bo.akvcam_buffers_resize_rw buffers (bo.akvcam_buffers_size_rw buffers)
        (result, format, w.store device_num { device with buffers := resized.2 })
    else
      (result, format, w)

/-! ## Streaming parameters -/

/-- The handler `akvcam_ioctl_s_parm`. -/
def akvcam_ioctl_s_parm (fo : Formats) (bo : Buffers B) (node : akvcam_node)
    (param : v4l2_streamparm) (w : World B C E) : Int × v4l2_streamparm × World B C E :=
  let device_num := akvcam_node_device_num node
  match akvcam_driver_device_from_num_nr w device_num with
  | none => (- EIO, param, w)
  | some device =>
    if param.type ≠ akvcam_device_v4l2_type device then
      (-EINVAL, param, w)
    else
      let format := akvcam_device_format device
      let is_output : Bool := param.type = V4L2_BUF_TYPE_VIDEO_OUTPUT
        ∨ param.type = V4L2_BUF_TYPE_VIDEO_OUTPUT_MPLANE
      let format : akvcam_format :=
        if is_output then
          { format with frame_rate :=
              ⟨param.parm.timeperframe.denominator, param.parm.timeperframe.numerator⟩ }
        else
          { format with frame_rate :=
              ⟨param.parm.timeperframe.denominator, param.parm.timeperframe.numerator⟩ }
      let total_buffers : Nat := if is_output then 0 else param.parm.buffers
      let formats := akvcam_device_formats device
      match fo.akvcam_format_nearest formats format with
      | none => (-EINVAL, param, w)
      | some nearest_format =>
        let device := akvcam_device_set_format device nearest_format
        let parm : v4l2_streamparm_parm :=
          if is_output then
            { capability := V4L2_CAP_TIMEPERFRAME, mode := 0,
              timeperframe := ⟨(akvcam_format_frame_rate nearest_format).denominator,
                (akvcam_format_frame_rate nearest_format).numerator⟩,
              extendedmode := 0, buffers := 0 }
          else
            { capability := V4L2_CAP_TIMEPERFRAME, mode := 0,
              timeperframe := ⟨(akvcam_format_frame_rate nearest_format).denominator,
                (akvcam_format_frame_rate nearest_format).numerator⟩,
              extendedmode := 0, buffers := 0 }
        if akvcam_device_rw_mode device &&& AKVCAM_RW_MODE_READWRITE ≠ 0 then
          let buffers := akvcam_device_buffers_nr device
          if total_buffers ≠ 0 then
            let resized := bo.akvcam_buffers_resize_rw buffers total_buffers
            let parm := if resized.1 then { parm with buffers := total_buffers } else parm
            (0, { param with parm := parm },
              w.store device_num { device with buffers := resized.2 })
          else
            (0, { param with parm := { parm with buffers := u32 (bo.akvcam_buffers_size_rw buffers) } },
              w.store device_num device)
        else
          (0, { param with parm := parm }, w.store device_num device)

/-! ## Buffer allocation -/

/-- The handler `akvcam_ioctl_reqbufs`. -/
def akvcam_ioctl_reqbufs (bo : Buffers B) (node : akvcam_node)
    (request : v4l2_requestbuffers) (w : World B C E) :
    Int × v4l2_requestbuffers × World B C E :=
  let device_num := akvcam_node_device_num node
  match akvcam_driver_device_from_num_nr w device_num with
  | none => (- EIO, request, w)
  | some device =>
    let controlling_node := akvcam_device_controlling_node device
    if (match controlling_node with
        | some cn => decide (akvcam_node_id node ≠ akvcam_node_id cn)
        | none => false) then
      (-EBUSY, request, w)
    else
      let buffers := akvcam_device_buffers_nr device
      let r := bo.akvcam_buffers_allocate buffers request
      let result := r.1
      let buffers := r.2.1
      let request := r.2.2
      if result ≥ 0 then
        if request.count ≠ 0 then
          let buffers := bo.akvcam_buffers_set_blocking buffers (akvcam_node_blocking node)
          let device := akvcam_device_set_controlling_node { device with buffers := buffers }
            (some node)
          (result, request, w.store device_num device)
        else
          let device := akvcam_device_set_controlling_node { device with buffers := buffers } none
          let buffers := bo.akvcam_buffers_set_blocking buffers false
          (result, request, w.store device_num { device with buffers := buffers })
      else
        (result, request, w.store device_num { device with buffers := buffers })

/-- The handler `akvcam_ioctl_create_bufs`. -/
def akvcam_ioctl_create_bufs (fo : Formats) (bo : Buffers B) (node : akvcam_node)
    (buffers : v4l2_create_buffers) (w : World B C E) :
    Int × v4l2_create_buffers × World B C E :=
  let device_num := akvcam_node_device_num node
  match akvcam_driver_device_from_num_nr w device_num with
  | none => (- EIO, buffers, w)
  | some device =>
    let controlling_node := akvcam_device_controlling_node device
    if (match controlling_node with
        | some cn => decide (akvcam_node_id node ≠ akvcam_node_id cn)
        | none => false) then
      (-EBUSY, buffers, w)
    else
      let buffs := akvcam_device_buffers_nr device
      let formats := akvcam_device_formats device
      match fo.akvcam_format_from_v4l2 formats buffers.format with
      | none => (-EINVAL, buffers, w)
      | some format =>
        let r := bo.akvcam_buffers_create buffs buffers format
        let result := r.1
        let buffs := r.2.1
        let buffers := r.2.2
        if result ≥ 0 then
          if buffers.count ≠ 0 then
            let buffs := bo.akvcam_buffers_set_blocking buffs (akvcam_node_blocking node)
            let device := akvcam_device_set_controlling_node { device with buffers := buffs }
              (some node)
            (result, buffers, w.store device_num device)
          else
            let device := akvcam_device_set_controlling_node { device with buffers := buffs }
              none
            let buffs := bo.akvcam_buffers_set_blocking buffs false
            (result, buffers, w.store device_num { device with buffers := buffs })
        else
          (result, buffers, w.store device_num { device with buffers := buffs })

end Handlers


/-! ## Data model of the remaining handlers -/

/-- Capability flag `V4L2_CAP_DEVICE_CAPS` (videodev2.h). -/
def V4L2_CAP_DEVICE_CAPS : Nat := 0x80000000

/-- Input type `V4L2_INPUT_TYPE_CAMERA` (videodev2.h). -/
def V4L2_INPUT_TYPE_CAMERA : Nat := 2

/-- Output type `V4L2_OUTPUT_TYPE_ANALOG` (videodev2.h). -/
def V4L2_OUTPUT_TYPE_ANALOG : Nat := 2

/-- Frame size type `V4L2_FRMSIZE_TYPE_DISCRETE` (videodev2.h). -/
def V4L2_FRMSIZE_TYPE_DISCRETE : Nat := 1

/-- Frame interval type `V4L2_FRMIVAL_TYPE_DISCRETE` (videodev2.h). -/
def V4L2_FRMIVAL_TYPE_DISCRETE : Nat := 1

/-- Priority `V4L2_PRIORITY_DEFAULT` of `enum v4l2_priority` (videodev2.h). -/
def V4L2_PRIORITY_DEFAULT : Nat := 2

/-- Event class `V4L2_EVENT_ALL` (videodev2.h). -/
def V4L2_EVENT_ALL : Nat := 0

/-- Event class `V4L2_EVENT_CTRL`, a control change (videodev2.h). -/
def V4L2_EVENT_CTRL : Nat := 3

/-- Event class `V4L2_EVENT_FRAME_SYNC` (videodev2.h). -/
def V4L2_EVENT_FRAME_SYNC : Nat := 4

/-- Subscription flag `V4L2_EVENT_SUB_FL_SEND_INITIAL` (videodev2.h). -/
def V4L2_EVENT_SUB_FL_SEND_INITIAL : Nat := 1

/-- The call `snprintf(dst, size, "%s", s)` as far as `dst` is concerned: the first
`size - 1` characters of `s`, one byte a character. -/
def snprintf (size : Nat) (s : String) : String :=
  String.mk (s.toList.take (size - 1))

/-- The conversion `%d` of `snprintf`. -/
def c_decimal (n : Int) : String :=
  if n < 0 then String.mk ('-' :: Nat.toDigits 10 n.natAbs)
  else String.mk (Nat.toDigits 10 n.toNat)

/-- The cast of an `int` to `enum v4l2_buf_type`, an unsigned 32-bit value. -/
def v4l2_buf_type_of_int (type : Int) : Nat := (type % 2 ^ 32).toNat

/-- The kernel's `struct v4l2_capability` (its reserved words left out). -/
structure v4l2_capability where
  driver : String
  card : String
  bus_info : String
  version : Nat
  capabilities : Nat
  device_caps : Nat
  deriving DecidableEq, Repr

/-- The kernel's `struct v4l2_query_ext_ctrl` (its reserved words left out). -/
structure v4l2_query_ext_ctrl where
  id : Nat
  type : Nat
  name : String
  minimum : Int
  maximum : Int
  step : Nat
  default_value : Int
  flags : Nat
  elem_size : Nat
  elems : Nat
  nr_of_dims : Nat
  dims : List Nat
  deriving DecidableEq, Repr

/-- The kernel's `struct v4l2_ext_controls`; `controls` is the user pointer to the
array of controls, whose memory is the business of Controls. -/
structure v4l2_ext_controls where
  which : Nat
  count : Nat
  error_idx : Nat
  controls : Nat
  deriving DecidableEq, Repr

/-- The kernel's `struct v4l2_queryctrl` (its reserved words left out). -/
structure v4l2_queryctrl where
  id : Nat
  type : Nat
  name : String
  minimum : Int
  maximum : Int
  step : Int
  default_value : Int
  flags : Nat
  deriving DecidableEq, Repr

/-- The kernel's `struct v4l2_querymenu` (its reserved word left out). -/
structure v4l2_querymenu where
  id : Nat
  index : Nat
  name : String
  value : Int
  deriving DecidableEq, Repr

/-- The kernel's `struct v4l2_control`. -/
structure v4l2_control where
  id : Nat
  value : Int
  deriving DecidableEq, Repr

/-- The kernel's `struct v4l2_input` (its reserved words left out). -/
structure v4l2_input where
  index : Nat
  name : String
  type : Nat
  audioset : Nat
  tuner : Nat
  std : Nat
  status : Nat
  capabilities : Nat
  deriving DecidableEq, Repr

/-- The kernel's `struct v4l2_output` (its reserved words left out). -/
structure v4l2_output where
  index : Nat
  name : String
  type : Nat
  audioset : Nat
  modulator : Nat
  std : Nat
  capabilities : Nat
  deriving DecidableEq, Repr

/-- The kernel's `struct v4l2_fmtdesc` (its reserved words, which
`akvcam_init_reserved` zeroes, left out). -/
structure v4l2_fmtdesc where
  index : Nat
  type : Nat
  flags : Nat
  description : String
  pixelformat : Nat
  deriving DecidableEq, Repr

/-- The kernel's `struct v4l2_frmsize_discrete`. -/
structure v4l2_frmsize_discrete where
  width : Nat
  height : Nat
  deriving DecidableEq, Repr

/-- The kernel's `struct v4l2_frmsizeenum`, its union seen as `discrete` (its
reserved words left out). -/
structure v4l2_frmsizeenum where
  index : Nat
  pixel_format : Nat
  type : Nat
  discrete : v4l2_frmsize_discrete
  deriving DecidableEq, Repr

/-- The kernel's `struct v4l2_frmivalenum`, its union seen as `discrete` (its
reserved words left out). -/
structure v4l2_frmivalenum where
  index : Nat
  pixel_format : Nat
  width : Nat
  height : Nat
  type : Nat
  discrete : v4l2_fract
  deriving DecidableEq, Repr

/-- The kernel's `struct v4l2_event_subscription` (its reserved words left out). -/
structure v4l2_event_subscription where
  type : Nat
  id : Nat
  flags : Nat
  deriving DecidableEq, Repr

/-- The kernel's `struct v4l2_event`; `u` is its 64-byte union, `timestamp` in
nanoseconds (its reserved words left out). -/
structure v4l2_event where
  type : Nat
  u : List Nat
  pending : Nat
  sequence : Nat
  timestamp : Nat
  id : Nat
  deriving DecidableEq, Repr

/-- The kernel's `struct v4l2_buffer`; `m` is its union of offset, user pointer,
planes pointer and file descriptor (time stamps and reserved words left out). -/
structure v4l2_buffer where
  index : Nat
  type : Nat
  bytesused : Nat
  flags : Nat
  field : Nat
  sequence : Nat
  memory : Nat
  m : Nat
  length : Nat
  deriving DecidableEq, Repr

section DeviceMore

variable {B C E : Type}

/-- Modelled from the spec: the accessor `akvcam_device_num` of the absent device.c. -/
def akvcam_device_num (self : akvcam_device B C) : Int := self.num

/-- Modelled from the spec: the accessor `akvcam_device_description` of the absent device.c. -/
def akvcam_device_description (self : akvcam_device B C) : String := self.description

/-- Modelled from the spec: the accessor `akvcam_device_type` of the absent
device.c, the device class. -/
def akvcam_device_type (self : akvcam_device B C) : AKVCAM_DEVICE_TYPE := self.type

/-- Modelled from the spec: the accessor `akvcam_device_caps` of the absent
device.c, the advertised capability bit-set. -/
def akvcam_device_caps (self : akvcam_device B C) : Nat := self.caps

/-- Modelled from the spec: the accessor `akvcam_device_controls_nr` of the absent device.c. -/
def akvcam_device_controls_nr (self : akvcam_device B C) : C := self.controls

/-- Modelled from the spec: the accessor `akvcam_device_priority` of the absent device.c. -/
def akvcam_device_priority (self : akvcam_device B C) : Nat := self.priority

/-- Modelled from the spec: the accessor `akvcam_device_priority_node` of the
absent device.c, the node that holds priority. -/
def akvcam_device_priority_node (self : akvcam_device B C) : Option akvcam_node :=
  self.priority_node

/-- Modelled from the spec: the setter `akvcam_device_set_priority` of the absent
device.c: level and holder together. -/
def akvcam_device_set_priority (self : akvcam_device B C) (priority : Nat)
    (node : Option akvcam_node) : akvcam_device B C :=
  { self with priority := priority, priority_node := node }

/-- Modelled from the spec: the setter `akvcam_device_set_broadcasting_node` of the
absent device.c. -/
def akvcam_device_set_broadcasting_node (self : akvcam_device B C) (broadcasting_node : Int) :
    akvcam_device B C :=
  { self with broadcasting_node := broadcasting_node }

/-- Modelled from the spec: the accessor `akvcam_node_events_nr` of the absent
node.c, the Events queue of a node. -/
def akvcam_node_events_nr (w : World B C E) (node : akvcam_node) : E :=
  w.events (akvcam_node_id node)

/-- The driver state after the Events queue of `node` has been changed to `events`. -/
def World.store_events (w : World B C E) (node : akvcam_node) (events : E) : World B C E :=
  { w with events := fun i => if i = akvcam_node_id node then events else w.events i }

/-- The six attributes of a Device that the handlers commit: current format,
priority level, priority holder, controlling node, broadcasting node and
streaming flag. -/
def akvcam_device.committed (self : akvcam_device B C) :
    akvcam_format × Nat × Option akvcam_node × Option akvcam_node × Int × Bool :=
  (self.format, self.priority, self.priority_node, self.controlling_node,
    self.broadcasting_node, self.streaming)

/-- The driver state `w'` has the same devices as `w`, each with the same
committed attributes. -/
def same_committed (w w' : World B C E) : Prop :=
  ∀ n : Int, (w'.devices n).map akvcam_device.committed
    = (w.devices n).map akvcam_device.committed

end DeviceMore

/-! ## More collaborators -/

/-- The driver's identity (driver.c, absent): `akvcam_driver_name` and
`akvcam_driver_version`. -/
structure Driver where
  akvcam_driver_name : String
  akvcam_driver_version : Nat

/-- The lists of the Formats collaborator (format.c, absent) that the enumeration
handlers index: pixel formats, resolutions of a pixel format, frame rates of a
pixel format and resolution, and the description of a pixel format. -/
structure FormatLists where
  akvcam_format_pixel_formats : List akvcam_format → List Nat
  akvcam_format_string_from_fourcc : Nat → String
  akvcam_format_resolutions : List akvcam_format → Nat → List v4l2_frmsize_discrete
  akvcam_format_frame_rates : List akvcam_format → Nat → Nat → Nat → List v4l2_fract

/-- The queue operations of the Buffers collaborator (buffers.c, absent) over a
pool state `B`: C return value, pool left, buffer descriptor left. -/
structure BufferQueue (B : Type) where
  akvcam_buffers_query : B → v4l2_buffer → Int × B × v4l2_buffer
  akvcam_buffers_queue : B → v4l2_buffer → Int × B × v4l2_buffer
  akvcam_buffers_dequeue : B → v4l2_buffer → Int × B × v4l2_buffer

/-- The Controls collaborator (controls.c, absent) over a controls state `C`. An
operation gives its C return value, the controls it leaves and the structure it
was handed; the last argument of the extended operations is the mode flag that
`ioctl.c` passes as 0. -/
structure Controls (C : Type) where
  akvcam_controls_fill_ext : C → v4l2_query_ext_ctrl → Int × C × v4l2_query_ext_ctrl
  akvcam_controls_get_ext : C → v4l2_ext_controls → Nat → Int × C × v4l2_ext_controls
  akvcam_controls_set_ext : C → v4l2_ext_controls → Nat → Int × C × v4l2_ext_controls
  akvcam_controls_try_ext : C → v4l2_ext_controls → Nat → Int × C × v4l2_ext_controls
  akvcam_controls_fill : C → v4l2_queryctrl → Int × C × v4l2_queryctrl
  akvcam_controls_fill_menu : C → v4l2_querymenu → Int × C × v4l2_querymenu
  akvcam_controls_get : C → v4l2_control → Int × C × v4l2_control
  akvcam_controls_set : C → v4l2_control → Int × C × v4l2_control
  akvcam_controls_contains : C → Nat → Bool
  akvcam_controls_generate_event : C → Nat → Bool × v4l2_event

/-- The Events collaborator (events.c, absent) over a queue state `E`. -/
structure Events (E : Type) where
  akvcam_events_subscribe : E → v4l2_event_subscription → E
  akvcam_events_unsubscribe : E → v4l2_event_subscription → E
  akvcam_events_unsubscribe_all : E → E
  akvcam_events_enqueue : E → v4l2_event → E
  akvcam_events_dequeue : E → v4l2_event → Int × E × v4l2_event

/-- The streaming operations of a Device (device.c, absent): start gives whether
it succeeded and the device it leaves, stop the device it leaves. -/
structure Streaming (B C : Type) where
  akvcam_device_start_streaming : akvcam_device B C → Bool × akvcam_device B C
  akvcam_device_stop_streaming : akvcam_device B C → akvcam_device B C

/-! ## Capability query and controls -/

section MoreHandlers

variable {B C E : Type}

/-- Modelled from the spec: the lookup `akvcam_list_at` of the absent list.c; a
NULL result, for an index past the end, is `none`. -/
def akvcam_list_at {α : Type} (self : List α) (index : Nat) : Option α := self[index]?

/-- The handler `akvcam_ioctl_querycap`. -/
def akvcam_ioctl_querycap (dr : Driver) (node : akvcam_node) (capability : v4l2_capability)
    (w : World B C E) : Int × v4l2_capability × World B C E :=
  let device_num := akvcam_node_device_num node
  match akvcam_driver_device_from_num_nr w device_num with
  | none => (- EIO, capability, w)
  | some device =>
    let caps := akvcam_device_caps device
    (0,
      { driver := snprintf 16 dr.akvcam_driver_name,
        card := snprintf 32 (akvcam_device_description device),
        bus_info := snprintf 32 ("platform:akvcam-" ++ c_decimal (akvcam_device_num device)),
        version := dr.akvcam_driver_version,
        capabilities := caps ||| V4L2_CAP_DEVICE_CAPS,
        device_caps := caps },
      w)

/-- The handler `akvcam_ioctl_query_ext_ctrl`. -/
def akvcam_ioctl_query_ext_ctrl (co : Controls C) (node : akvcam_node) (control : v4l2_query_ext_ctrl)
    (w : World B C E) : Int × v4l2_query_ext_ctrl × World B C E :=
  let device_num := akvcam_node_device_num node
  match akvcam_driver_device_from_num_nr w device_num with
  | none => (- EIO, control, w)
  | some device =>
    if akvcam_device_rw_mode device &&& AKVCAM_RW_MODE_READWRITE ≠ 0 then
      (-ENOTTY, control, w)
    else
      let controls := akvcam_device_controls_nr device
      let r := co.akvcam_controls_fill_ext controls control
      (r.1, r.2.2, w.store device_num { device with controls := r.2.1 })

/-- The handler `akvcam_ioctl_g_ext_ctrls`. -/
def akvcam_ioctl_g_ext_ctrls (co : Controls C) (node : akvcam_node) (control : v4l2_ext_controls)
    (w : World B C E) : Int × v4l2_ext_controls × World B C E :=
  let device_num := akvcam_node_device_num node
  match akvcam_driver_device_from_num_nr w device_num with
  | none => (- EIO, control, w)
  | some device =>
    if akvcam_device_rw_mode device &&& AKVCAM_RW_MODE_READWRITE ≠ 0 then
      (-ENOTTY, control, w)
    else
      let controls := akvcam_device_controls_nr device
      let r := co.akvcam_controls_get_ext controls control 0
      (r.1, r.2.2, w.store device_num { device with controls := r.2.1 })

/-- The handler `akvcam_ioctl_s_ext_ctrls`. -/
def akvcam_ioctl_s_ext_ctrls (co : Controls C) (node : akvcam_node) (control : v4l2_ext_controls)
    (w : World B C E) : Int × v4l2_ext_controls × World B C E :=
  let device_num := akvcam_node_device_num node
  match akvcam_driver_device_from_num_nr w device_num with
  | none => (- EIO, control, w)
  | some device =>
    if akvcam_device_rw_mode device &&& AKVCAM_RW_MODE_READWRITE ≠ 0 then
      (-ENOTTY, control, w)
    else
      let controls := akvcam_device_controls_nr device
      let r := co.akvcam_controls_set_ext controls control 0
      (r.1, r.2.2, w.store device_num { device with controls := r.2.1 })

/-- The handler `akvcam_ioctl_try_ext_ctrls`. -/
def akvcam_ioctl_try_ext_ctrls (co : Controls C) (node : akvcam_node) (control : v4l2_ext_controls)
    (w : World B C E) : Int × v4l2_ext_controls × World B C E :=
  let device_num := akvcam_node_device_num node
  match akvcam_driver_device_from_num_nr w device_num with
  | none => (- EIO, control, w)
  | some device =>
    if akvcam_device_rw_mode device &&& AKVCAM_RW_MODE_READWRITE ≠ 0 then
      (-ENOTTY, control, w)
    else
      let controls := akvcam_device_controls_nr device
      let r := co.akvcam_controls_try_ext controls control 0
      (r.1, r.2.2, w.store device_num { device with controls := r.2.1 })

/-- The handler `akvcam_ioctl_queryctrl`. -/
def akvcam_ioctl_queryctrl (co : Controls C) (node : akvcam_node) (control : v4l2_queryctrl)
    (w : World B C E) : Int × v4l2_queryctrl × World B C E :=
  let device_num := akvcam_node_device_num node
  match akvcam_driver_device_from_num_nr w device_num with
  | none => (- EIO, control, w)
  | some device =>
    if akvcam_device_rw_mode device &&& AKVCAM_RW_MODE_READWRITE ≠ 0 then
      (-ENOTTY, control, w)
    else
      let controls := akvcam_device_controls_nr device
      let r := co.akvcam_controls_fill controls control
      (r.1, r.2.2, w.store device_num { device with controls := r.2.1 })

/-- The handler `akvcam_ioctl_querymenu`. -/
def akvcam_ioctl_querymenu (co : Controls C) (node : akvcam_node) (control : v4l2_querymenu)
    (w : World B C E) : Int × v4l2_querymenu × World B C E :=
  let device_num := akvcam_node_device_num node
  match akvcam_driver_device_from_num_nr w device_num with
  | none => (- EIO, control, w)
  | some device =>
    if akvcam_device_rw_mode device &&& AKVCAM_RW_MODE_READWRITE ≠ 0 then
      (-ENOTTY, control, w)
    else
      let controls := akvcam_device_controls_nr device
      let r := co.akvcam_controls_fill_menu controls control
      (r.1, r.2.2, w.store device_num { device with controls := r.2.1 })

/-- The handler `akvcam_ioctl_g_ctrl`. -/
def akvcam_ioctl_g_ctrl (co : Controls C) (node : akvcam_node) (control : v4l2_control)
    (w : World B C E) : Int × v4l2_control × World B C E :=
  let device_num := akvcam_node_device_num node
  match akvcam_driver_device_from_num_nr w device_num with
  | none => (- EIO, control, w)
  | some device =>
    if akvcam_device_rw_mode device &&& AKVCAM_RW_MODE_READWRITE ≠ 0 then
      (-ENOTTY, control, w)
    else
      let controls := akvcam_device_controls_nr device
      let r := co.akvcam_controls_get controls control
      (r.1, r.2.2, w.store device_num { device with controls := r.2.1 })

/-- The handler `akvcam_ioctl_s_ctrl`. -/
def akvcam_ioctl_s_ctrl (co : Controls C) (node : akvcam_node) (control : v4l2_control)
    (w : World B C E) : Int × v4l2_control × World B C E :=
  let device_num := akvcam_node_device_num node
  match akvcam_driver_device_from_num_nr w device_num with
  | none => (- EIO, control, w)
  | some device =>
    if akvcam_device_rw_mode device &&& AKVCAM_RW_MODE_READWRITE ≠ 0 then
      (-ENOTTY, control, w)
    else
      let controls := akvcam_device_controls_nr device
      let r := co.akvcam_controls_set controls control
      (r.1, r.2.2, w.store device_num { device with controls := r.2.1 })

/-! ## Inputs and outputs -/

/-- The handler `akvcam_ioctl_enuminput`. -/
def akvcam_ioctl_enuminput (node : akvcam_node) (input : v4l2_input) (w : World B C E) :
    Int × v4l2_input × World B C E :=
  let device_num := akvcam_node_device_num node
  match akvcam_driver_device_from_num_nr w device_num with
  | none => (- EIO, input, w)
  | some device =>
    if akvcam_device_type device = .AKVCAM_DEVICE_TYPE_OUTPUT then
      (-ENOTTY, input, w)
    else if input.index > 0 then
      (-EINVAL, input, w)
    else
      (0,
        { index := 0, name := snprintf 32 "akvcam-input", type := V4L2_INPUT_TYPE_CAMERA,
          audioset := 0, tuner := 0, std := 0, status := 0, capabilities := 0 },
        w)

/-- The handler `akvcam_ioctl_g_input`. -/
def akvcam_ioctl_g_input (node : akvcam_node) (input : Int) (w : World B C E) :
    Int × Int × World B C E :=
  let device_num := akvcam_node_device_num node
  match akvcam_driver_device_from_num_nr w device_num with
  | none => (- EIO, input, w)
  | some device =>
    if akvcam_device_type device = .AKVCAM_DEVICE_TYPE_OUTPUT then
      (-ENOTTY, input, w)
    else
      (0, 0, w)

/-- The handler `akvcam_ioctl_s_input`. -/
def akvcam_ioctl_s_input (node : akvcam_node) (input : Int) (w : World B C E) :
    Int × Int × World B C E :=
  let device_num := akvcam_node_device_num node
  match akvcam_driver_device_from_num_nr w device_num with
  | none => (- EIO, input, w)
  | some device =>
    if akvcam_device_type device = .AKVCAM_DEVICE_TYPE_OUTPUT then
      (-ENOTTY, input, w)
    else
      (if input = 0 then 0 else -EINVAL, input, w)

/-- The handler `akvcam_ioctl_enumoutput`. -/
def akvcam_ioctl_enumoutput (node : akvcam_node) (output : v4l2_output) (w : World B C E) :
    Int × v4l2_output × World B C E :=
  let device_num := akvcam_node_device_num node
  match akvcam_driver_device_from_num_nr w device_num with
  | none => (- EIO, output, w)
  | some device =>
    if akvcam_device_type device = .AKVCAM_DEVICE_TYPE_CAPTURE then
      (-ENOTTY, output, w)
    else if output.index > 0 then
      (-EINVAL, output, w)
    else
      (0,
        { index := 0, name := snprintf 32 "akvcam-output", type := V4L2_OUTPUT_TYPE_ANALOG,
          audioset := 0, modulator := 0, std := 0, capabilities := 0 },
        w)

/-- The handler `akvcam_ioctl_g_output`; a NULL `output` is `none`. -/
def akvcam_ioctl_g_output (node : akvcam_node) (output : Option Int) (w : World B C E) :
    Int × Option Int × World B C E :=
  let device_num := akvcam_node_device_num node
  match akvcam_driver_device_from_num_nr w device_num with
  | none => (- EIO, output, w)
  | some device =>
    match output with
    | none => (-EINVAL, output, w)
    | some _ =>
      if akvcam_device_type device = .AKVCAM_DEVICE_TYPE_CAPTURE then
        (-ENOTTY, output, w)
      else
        (0, some 0, w)

/-- The handler `akvcam_ioctl_s_output`; a NULL `output` is `none`. -/
def akvcam_ioctl_s_output (node : akvcam_node) (output : Option Int) (w : World B C E) :
    Int × Option Int × World B C E :=
  let device_num := akvcam_node_device_num node
  match akvcam_driver_device_from_num_nr w device_num with
  | none => (- EIO, output, w)
  | some device =>
    match output with
    | none => (-EINVAL, output, w)
    | some value =>
      if akvcam_device_type device = .AKVCAM_DEVICE_TYPE_CAPTURE then
        (-ENOTTY, output, w)
      else
        (if value = 0 then 0 else -EINVAL, output, w)

/-! ## Format and frame enumeration -/

/-- The handler `akvcam_ioctl_enum_fmt`. -/
def akvcam_ioctl_enum_fmt (fl : FormatLists) (node : akvcam_node) (format : v4l2_fmtdesc)
    (w : World B C E) : Int × v4l2_fmtdesc × World B C E :=
  let device_num := akvcam_node_device_num node
  match akvcam_driver_device_from_num_nr w device_num with
  | none => (- EIO, format, w)
  | some device =>
    if format.type ≠ akvcam_device_v4l2_type device then
      (-EINVAL, format, w)
    else
      let formats := akvcam_device_formats device
      let pixel_formats := fl.akvcam_format_pixel_formats formats
      match akvcam_list_at pixel_formats format.index with
      | some fourcc =>
        let description := fl.akvcam_format_string_from_fourcc fourcc
        (0,
          { format with flags := 0, pixelformat := fourcc,
                        description := snprintf 32 description },
          w)
      | none => (-EINVAL, format, w)

/-- The handler `akvcam_ioctl_g_fmt`. -/
def akvcam_ioctl_g_fmt (fo : Formats) (node : akvcam_node) (format : v4l2_format)
    (w : World B C E) : Int × v4l2_format × World B C E :=
  let device_num := akvcam_node_device_num node
  match akvcam_driver_device_from_num_nr w device_num with
  | none => (- EIO, format, w)
  | some device =>
    if format.type ≠ akvcam_device_v4l2_type device then
      (-EINVAL, format, w)
    else
      let current_format := akvcam_device_format device
      (0, { format with fmt := v4l2_format_fill fo format.type current_format }, w)

/-- The handler `akvcam_ioctl_g_parm`. -/
def akvcam_ioctl_g_parm (bo : Buffers B) (node : akvcam_node) (param : v4l2_streamparm)
    (w : World B C E) : Int × v4l2_streamparm × World B C E :=
  let device_num := akvcam_node_device_num node
  match akvcam_driver_device_from_num_nr w device_num with
  | none => (- EIO, param, w)
  | some device =>
    if param.type ≠ akvcam_device_v4l2_type device then
      (-EINVAL, param, w)
    else
      let format := akvcam_device_format device
      let parm : v4l2_streamparm_parm :=
        if param.type = V4L2_BUF_TYPE_VIDEO_OUTPUT
            ∨ param.type = V4L2_BUF_TYPE_VIDEO_OUTPUT_MPLANE then
          { capability := V4L2_CAP_TIMEPERFRAME, mode := 0,
            timeperframe := ⟨(akvcam_format_frame_rate format).denominator,
              (akvcam_format_frame_rate format).numerator⟩,
            extendedmode := 0, buffers := 0 }
        else
          { capability := V4L2_CAP_TIMEPERFRAME, mode := 0,
            timeperframe := ⟨(akvcam_format_frame_rate format).denominator,
              (akvcam_format_frame_rate format).numerator⟩,
            extendedmode := 0, buffers := 0 }
      if akvcam_device_rw_mode device &&& AKVCAM_RW_MODE_READWRITE ≠ 0 then
        let buffers := akvcam_device_buffers_nr device
        (0, { param with parm := { parm with buffers := u32 (bo.akvcam_buffers_size_rw buffers) } },
          w)
      else
        (0, { param with parm := parm }, w)

/-- The handler `akvcam_ioctl_enum_framesizes`. -/
def akvcam_ioctl_enum_framesizes (fl : FormatLists) (node : akvcam_node)
    (frame_sizes : v4l2_frmsizeenum) (w : World B C E) :
    Int × v4l2_frmsizeenum × World B C E :=
  let device_num := akvcam_node_device_num node
  match akvcam_driver_device_from_num_nr w device_num with
  | none => (- EIO, frame_sizes, w)
  | some device =>
    let formats := akvcam_device_formats device
    let resolutions := fl.akvcam_format_resolutions formats frame_sizes.pixel_format
    match akvcam_list_at resolutions frame_sizes.index with
    | some resolution =>
      (0,
        { frame_sizes with type := V4L2_FRMSIZE_TYPE_DISCRETE,
                           discrete := ⟨resolution.width, resolution.height⟩ },
        w)
    | none => (-EINVAL, frame_sizes, w)

/-- The handler `akvcam_ioctl_enum_frameintervals`. -/
def akvcam_ioctl_enum_frameintervals (fl : FormatLists) (node : akvcam_node)
    (frame_intervals : v4l2_frmivalenum) (w : World B C E) :
    Int × v4l2_frmivalenum × World B C E :=
  let device_num := akvcam_node_device_num node
  match akvcam_driver_device_from_num_nr w device_num with
  | none => (- EIO, frame_intervals, w)
  | some device =>
    let formats := akvcam_device_formats device
    let frame_rates := fl.akvcam_format_frame_rates formats frame_intervals.pixel_format
      frame_intervals.width frame_intervals.height
    match akvcam_list_at frame_rates frame_intervals.index with
    | some frame_rate =>
      (0,
        { frame_intervals with type := V4L2_FRMIVAL_TYPE_DISCRETE,
                               discrete := ⟨frame_rate.denominator, frame_rate.numerator⟩ },
        w)
    | none => (-EINVAL, frame_intervals, w)

/-! ## Priority -/

/-- The handler `akvcam_ioctl_g_priority`. -/
def akvcam_ioctl_g_priority (node : akvcam_node) (priority : Nat) (w : World B C E) :
    Int × Nat × World B C E :=
  let device_num := akvcam_node_device_num node
  match akvcam_driver_device_from_num_nr w device_num with
  | none => (- EIO, priority, w)
  | some device => (0, akvcam_device_priority device, w)

/-- The handler `akvcam_ioctl_s_priority`. -/
def akvcam_ioctl_s_priority (node : akvcam_node) (priority : Nat) (w : World B C E) :
    Int × Nat × World B C E :=
  let device_num := akvcam_node_device_num node
  match akvcam_driver_device_from_num_nr w device_num with
  | none => (- EIO, priority, w)
  | some device =>
    let priority_node := akvcam_device_priority_node device
    if (match priority_node with
        | some pn => decide (pn ≠ node)
        | none => false) then
      (-EINVAL, priority, w)
    else if priority = V4L2_PRIORITY_DEFAULT then
      (0, priority, w.store device_num (akvcam_device_set_priority device priority none))
    else
      (0, priority, w.store device_num (akvcam_device_set_priority device priority (some node)))

/-! ## Events -/

/-- The handler `akvcam_ioctl_subscribe_event`. -/
def akvcam_ioctl_subscribe_event (co : Controls C) (eo : Events E) (node : akvcam_node)
    (event : v4l2_event_subscription) (w : World B C E) :
    Int × v4l2_event_subscription × World B C E :=
  let device_num := akvcam_node_device_num node
  match akvcam_driver_device_from_num_nr w device_num with
  | none => (- EIO, event, w)
  | some device =>
    if akvcam_device_rw_mode device &&& AKVCAM_RW_MODE_READWRITE ≠ 0 then
      (-ENOTTY, event, w)
    else if event.type ≠ V4L2_EVENT_CTRL ∧ event.type ≠ V4L2_EVENT_FRAME_SYNC then
      (-EINVAL, event, w)
    else
      let controls := akvcam_device_controls_nr device
      if co.akvcam_controls_contains controls event.id = false then
        (-EINVAL, event, w)
      else
        let events := akvcam_node_events_nr w node
        let events := eo.akvcam_events_subscribe events event
        if event.type = V4L2_EVENT_CTRL
            ∧ event.flags &&& V4L2_EVENT_SUB_FL_SEND_INITIAL ≠ 0 then
          let generated := co.akvcam_controls_generate_event controls event.id
          if generated.1 then
            (0, event, w.store_events node (eo.akvcam_events_enqueue events generated.2))
          else
            (0, event, w.store_events node events)
        else
          (0, event, w.store_events node events)

/-- The handler `akvcam_ioctl_unsubscribe_event`. -/
def akvcam_ioctl_unsubscribe_event (eo : Events E) (node : akvcam_node)
    (event : v4l2_event_subscription) (w : World B C E) :
    Int × v4l2_event_subscription × World B C E :=
  let device_num := akvcam_node_device_num node
  match akvcam_driver_device_from_num_nr w device_num with
  | none => (- EIO, event, w)
  | some device =>
    if akvcam_device_rw_mode device &&& AKVCAM_RW_MODE_READWRITE ≠ 0 then
      (-ENOTTY, event, w)
    else
      let events := akvcam_node_events_nr w node
      if event.type = V4L2_EVENT_ALL then
        (0, event, w.store_events node (eo.akvcam_events_unsubscribe_all events))
      else
        (0, event, w.store_events node (eo.akvcam_events_unsubscribe events event))

/-- The handler `akvcam_ioctl_dqevent`. -/
def akvcam_ioctl_dqevent (eo : Events E) (node : akvcam_node) (event : v4l2_event)
    (w : World B C E) : Int × v4l2_event × World B C E :=
  let device_num := akvcam_node_device_num node
  match akvcam_driver_device_from_num_nr w device_num with
  | none => (- EIO, event, w)
  | some _ =>
    let events := akvcam_node_events_nr w node
    let r := eo.akvcam_events_dequeue events event
    (r.1, r.2.2, w.store_events node r.2.1)

/-! ## Buffer queue and streaming -/

/-- The handler `akvcam_ioctl_querybuf`. -/
def akvcam_ioctl_querybuf (bq : BufferQueue B) (node : akvcam_node) (buffer : v4l2_buffer)
    (w : World B C E) : Int × v4l2_buffer × World B C E :=
  let device_num := akvcam_node_device_num node
  match akvcam_driver_device_from_num_nr w device_num with
  | none => (- EIO, buffer, w)
  | some device =>
    let buffers := akvcam_device_buffers_nr device
    let r := bq.akvcam_buffers_query buffers buffer
    (r.1, r.2.2, w.store device_num { device with buffers := r.2.1 })

/-- The handler `akvcam_ioctl_qbuf`. -/
def akvcam_ioctl_qbuf (bq : BufferQueue B) (node : akvcam_node) (buffer : v4l2_buffer)
    (w : World B C E) : Int × v4l2_buffer × World B C E :=
  let device_num := akvcam_node_device_num node
  match akvcam_driver_device_from_num_nr w device_num with
  | none => (- EIO, buffer, w)
  | some device =>
    let buffers := akvcam_device_buffers_nr device
    let r := bq.akvcam_buffers_queue buffers buffer
    (r.1, r.2.2, w.store device_num { device with buffers := r.2.1 })

/-- The handler `akvcam_ioctl_dqbuf`. -/
def akvcam_ioctl_dqbuf (bq : BufferQueue B) (node : akvcam_node) (buffer : v4l2_buffer)
    (w : World B C E) : Int × v4l2_buffer × World B C E :=
  let device_num := akvcam_node_device_num node
  match akvcam_driver_device_from_num_nr w device_num with
  | none => (- EIO, buffer, w)
  | some device =>
    let buffers := akvcam_device_buffers_nr device
    let r := bq.akvcam_buffers_dequeue buffers buffer
    (r.1, r.2.2, w.store device_num { device with buffers := r.2.1 })

/-- The handler `akvcam_ioctl_streamon`. -/
def akvcam_ioctl_streamon (so : Streaming B C) (node : akvcam_node) (type : Int)
    (w : World B C E) : Int × Int × World B C E :=
  let device_num := akvcam_node_device_num node
  match akvcam_driver_device_from_num_nr w device_num with
  | none => (- EIO, type, w)
  | some device =>
    if v4l2_buf_type_of_int type ≠ akvcam_device_v4l2_type device then
      (-EINVAL, type, w)
    else
      let device := akvcam_device_set_broadcasting_node device (akvcam_node_id node)
      let started := so.akvcam_device_start_streaming device
      if started.1 = false then
        (- EIO, type, w.store device_num started.2)
      else
        (0, type, w.store device_num started.2)

/-- The handler `akvcam_ioctl_streamoff`. -/
def akvcam_ioctl_streamoff (so : Streaming B C) (node : akvcam_node) (type : Int)
    (w : World B C E) : Int × Int × World B C E :=
  let device_num := akvcam_node_device_num node
  match akvcam_driver_device_from_num_nr w device_num with
  | none => (- EIO, type, w)
  | some device =>
    if v4l2_buf_type_of_int type ≠ akvcam_device_v4l2_type device then
      (-EINVAL, type, w)
    else
      (0, type, w.store device_num (so.akvcam_device_stop_streaming device))

/-! ## Calling a handler -/

/-- The collaborators of the handlers, all together. -/
structure Env (B C E : Type) where
  driver : Driver
  formats : Formats
  lists : FormatLists
  buffers : Buffers B
  queue : BufferQueue B
  controls : Controls C
  events : Events E
  streaming : Streaming B C

/-- A handler of the table together with the argument structure it is called on:
the pair `proc`, `data` of the call `akvcam_ioctls_private[i].proc(node, data)`
with `data` read at the handler's argument type. -/
inductive akvcam_call
  | querycap (arg : v4l2_capability)
  | query_ext_ctrl (arg : v4l2_query_ext_ctrl)
  | g_ext_ctrls (arg : v4l2_ext_controls)
  | s_ext_ctrls (arg : v4l2_ext_controls)
  | try_ext_ctrls (arg : v4l2_ext_controls)
  | queryctrl (arg : v4l2_queryctrl)
  | querymenu (arg : v4l2_querymenu)
  | g_ctrl (arg : v4l2_control)
  | s_ctrl (arg : v4l2_control)
  | enuminput (arg : v4l2_input)
  | g_input (arg : Int)
  | s_input (arg : Int)
  | enumoutput (arg : v4l2_output)
  | g_output (arg : Option Int)
  | s_output (arg : Option Int)
  | enum_fmt (arg : v4l2_fmtdesc)
  | g_fmt (arg : v4l2_format)
  | s_fmt (arg : v4l2_format)
  | try_fmt (arg : v4l2_format)
  | g_parm (arg : v4l2_streamparm)
  | s_parm (arg : v4l2_streamparm)
  | enum_framesizes (arg : v4l2_frmsizeenum)
  | enum_frameintervals (arg : v4l2_frmivalenum)
  | g_priority (arg : Nat)
  | s_priority (arg : Nat)
  | subscribe_event (arg : v4l2_event_subscription)
  | unsubscribe_event (arg : v4l2_event_subscription)
  | dqevent (arg : v4l2_event)
  | reqbufs (arg : v4l2_requestbuffers)
  | querybuf (arg : v4l2_buffer)
  | create_bufs (arg : v4l2_create_buffers)
  | qbuf (arg : v4l2_buffer)
  | dqbuf (arg : v4l2_buffer)
  | streamon (arg : Int)
  | streamoff (arg : Int)

/-- The table handler that a call names. -/
def akvcam_call.proc : akvcam_call → akvcam_proc_t
  | .querycap _ => .querycap
  | .query_ext_ctrl _ => .query_ext_ctrl
  | .g_ext_ctrls _ => .g_ext_ctrls
  | .s_ext_ctrls _ => .s_ext_ctrls
  | .try_ext_ctrls _ => .try_ext_ctrls
  | .queryctrl _ => .queryctrl
  | .querymenu _ => .querymenu
  | .g_ctrl _ => .g_ctrl
  | .s_ctrl _ => .s_ctrl
  | .enuminput _ => .enuminput
  | .g_input _ => .g_input
  | .s_input _ => .s_input
  | .enumoutput _ => .enumoutput
  | .g_output _ => .g_output
  | .s_output _ => .s_output
  | .enum_fmt _ => .enum_fmt
  | .g_fmt _ => .g_fmt
  | .s_fmt _ => .s_fmt
  | .try_fmt _ => .try_fmt
  | .g_parm _ => .g_parm
  | .s_parm _ => .s_parm
  | .enum_framesizes _ => .enum_framesizes
  | .enum_frameintervals _ => .enum_frameintervals
  | .g_priority _ => .g_priority
  | .s_priority _ => .s_priority
  | .subscribe_event _ => .subscribe_event
  | .unsubscribe_event _ => .unsubscribe_event
  | .dqevent _ => .dqevent
  | .reqbufs _ => .reqbufs
  | .querybuf _ => .querybuf
  | .create_bufs _ => .create_bufs
  | .qbuf _ => .qbuf
  | .dqbuf _ => .dqbuf
  | .streamon _ => .streamon
  | .streamoff _ => .streamoff

/-- The call `proc(node, data)` of `akvcam_ioctl_do` at the handler's argument
type: the handler's return value, the argument structure and the driver state it
leaves. -/
def akvcam_ioctl_proc (env : Env B C E) (node : akvcam_node) (w : World B C E) :
    akvcam_call → Int × akvcam_call × World B C E
  | .querycap arg =>
    let r := akvcam_ioctl_querycap env.driver node arg w
    (r.1, .querycap r.2.1, r.2.2)
  | .query_ext_ctrl arg =>
    let r := akvcam_ioctl_query_ext_ctrl env.controls node arg w
    (r.1, .query_ext_ctrl r.2.1, r.2.2)
  | .g_ext_ctrls arg =>
    let r := akvcam_ioctl_g_ext_ctrls env.controls node arg w
    (r.1, .g_ext_ctrls r.2.1, r.2.2)
  | .s_ext_ctrls arg =>
    let r := akvcam_ioctl_s_ext_ctrls env.controls node arg w
    (r.1, .s_ext_ctrls r.2.1, r.2.2)
  | .try_ext_ctrls arg =>
    let r := akvcam_ioctl_try_ext_ctrls env.controls node arg w
    (r.1, .try_ext_ctrls r.2.1, r.2.2)
  | .queryctrl arg =>
    let r := akvcam_ioctl_queryctrl env.controls node arg w
    (r.1, .queryctrl r.2.1, r.2.2)
  | .querymenu arg =>
    let r := akvcam_ioctl_querymenu env.controls node arg w
    (r.1, .querymenu r.2.1, r.2.2)
  | .g_ctrl arg =>
    let r := akvcam_ioctl_g_ctrl env.controls node arg w
    (r.1, .g_ctrl r.2.1, r.2.2)
  | .s_ctrl arg =>
    let r := akvcam_ioctl_s_ctrl env.controls node arg w
    (r.1, .s_ctrl r.2.1, r.2.2)
  | .enuminput arg =>
    let r := akvcam_ioctl_enuminput node arg w
    (r.1, .enuminput r.2.1, r.2.2)
  | .g_input arg =>
    let r := akvcam_ioctl_g_input node arg w
    (r.1, .g_input r.2.1, r.2.2)
  | .s_input arg =>
    let r := akvcam_ioctl_s_input node arg w
    (r.1, .s_input r.2.1, r.2.2)
  | .enumoutput arg =>
    let r := akvcam_ioctl_enumoutput node arg w
    (r.1, .enumoutput r.2.1, r.2.2)
  | .g_output arg =>
    let r := akvcam_ioctl_g_output node arg w
    (r.1, .g_output r.2.1, r.2.2)
  | .s_output arg =>
    let r := akvcam_ioctl_s_output node arg w
    (r.1, .s_output r.2.1, r.2.2)
  | .enum_fmt arg =>
    let r := akvcam_ioctl_enum_fmt env.lists node arg w
    (r.1, .enum_fmt r.2.1, r.2.2)
  | .g_fmt arg =>
    let r := akvcam_ioctl_g_fmt env.formats node arg w
    (r.1, .g_fmt r.2.1, r.2.2)
  | .s_fmt arg =>
    let r := akvcam_ioctl_s_fmt env.formats env.buffers node arg w
    (r.1, .s_fmt r.2.1, r.2.2)
  | .try_fmt arg =>
    let r := akvcam_ioctl_try_fmt env.formats node arg w
    (r.1, .try_fmt r.2.1, r.2.2)
  | .g_parm arg =>
    let r := akvcam_ioctl_g_parm env.buffers node arg w
    (r.1, .g_parm r.2.1, r.2.2)
  | .s_parm arg =>
    let r := akvcam_ioctl_s_parm env.formats env.buffers node arg w
    (r.1, .s_parm r.2.1, r.2.2)
  | .enum_framesizes arg =>
    let r := akvcam_ioctl_enum_framesizes env.lists node arg w
    (r.1, .enum_framesizes r.2.1, r.2.2)
  | .enum_frameintervals arg =>
    let r := akvcam_ioctl_enum_frameintervals env.lists node arg w
    (r.1, .enum_frameintervals r.2.1, r.2.2)
  | .g_priority arg =>
    let r := akvcam_ioctl_g_priority node arg w
    (r.1, .g_priority r.2.1, r.2.2)
  | .s_priority arg =>
    let r := akvcam_ioctl_s_priority node arg w
    (r.1, .s_priority r.2.1, r.2.2)
  | .subscribe_event arg =>
    let r := akvcam_ioctl_subscribe_event env.controls env.events node arg w
    (r.1, .subscribe_event r.2.1, r.2.2)
  | .unsubscribe_event arg =>
    let r := akvcam_ioctl_unsubscribe_event env.events node arg w
    (r.1, .unsubscribe_event r.2.1, r.2.2)
  | .dqevent arg =>
    let r := akvcam_ioctl_dqevent env.events node arg w
    (r.1, .dqevent r.2.1, r.2.2)
  | .reqbufs arg =>
    let r := akvcam_ioctl_reqbufs env.buffers node arg w
    (r.1, .reqbufs r.2.1, r.2.2)
  | .querybuf arg =>
    let r := akvcam_ioctl_querybuf env.queue node arg w
    (r.1, .querybuf r.2.1, r.2.2)
  | .create_bufs arg =>
    let r := akvcam_ioctl_create_bufs env.formats env.buffers node arg w
    (r.1, .create_bufs r.2.1, r.2.2)
  | .qbuf arg =>
    let r := akvcam_ioctl_qbuf env.queue node arg w
    (r.1, .qbuf r.2.1, r.2.2)
  | .dqbuf arg =>
    let r := akvcam_ioctl_dqbuf env.queue node arg w
    (r.1, .dqbuf r.2.1, r.2.2)
  | .streamon arg =>
    let r := akvcam_ioctl_streamon env.streaming node arg w
    (r.1, .streamon r.2.1, r.2.2)
  | .streamoff arg =>
    let r := akvcam_ioctl_streamoff env.streaming node arg w
    (r.1, .streamoff r.2.1, r.2.2)

/-- A sequence of `akvcam_ioctl_s_priority` calls, each given by the calling node
and the level it asks for, run in order from the driver state `w`. -/
def akvcam_ioctl_s_priority_run : List (akvcam_node × Nat) → World B C E → World B C E
  | [], w => w
  | call :: rest, w =>
    akvcam_ioctl_s_priority_run rest (akvcam_ioctl_s_priority call.1 call.2 w).2.2

end MoreHandlers

/-! ## Sample environments -/

/-- A sample assignment of the header values: command macro number `k` of the
enumeration gets the value `k + 1`, every argument type has size 4. -/
def sample_uapi : Uapi :=
  ⟨fun c => c.toCtorIdx + 1, fun _ => 4, true⟩

/-- A sample user memory, a byte at every address, in which no copy faults. -/
def sample_uaccess : Uaccess (Nat → Nat) where
  copy_from_user us arg size := (0, (List.range size).map fun i => us (arg + i))
  copy_to_user us arg data size :=
    (0, fun a => if arg ≤ a ∧ a < arg + size then data.getD (a - arg) 0 else us a)

/-- A sample meaning of the handler pointers: every handler returns 0 and leaves
the buffer and the driver state (here without content) as they are. -/
def sample_invoke : akvcam_proc_t → Unit → List Nat → Unit → Int × List Nat × Unit :=
  fun _ _ data w => (0, data, w)

/-- The command macros of the handler rows of `akvcam_ioctls_private`, in table
order; `q` tells whether `VIDIOC_QUERY_EXT_CTRL` is defined. -/
def akvcam_ioctls_handlers_cmds (q : Bool) : List Ioctl :=
  [.VIDIOC_QUERYCAP] ++ (if q then [.VIDIOC_QUERY_EXT_CTRL] else []) ++
  [ .VIDIOC_G_EXT_CTRLS, .VIDIOC_S_EXT_CTRLS, .VIDIOC_TRY_EXT_CTRLS, .VIDIOC_QUERYCTRL,
    .VIDIOC_QUERYMENU, .VIDIOC_G_CTRL, .VIDIOC_S_CTRL, .VIDIOC_ENUMINPUT, .VIDIOC_G_INPUT,
    .VIDIOC_S_INPUT, .VIDIOC_ENUMOUTPUT, .VIDIOC_G_OUTPUT, .VIDIOC_S_OUTPUT, .VIDIOC_ENUM_FMT,
    .VIDIOC_G_FMT, .VIDIOC_S_FMT, .VIDIOC_TRY_FMT, .VIDIOC_G_PARM, .VIDIOC_S_PARM,
    .VIDIOC_ENUM_FRAMESIZES, .VIDIOC_ENUM_FRAMEINTERVALS, .VIDIOC_G_PRIORITY,
    .VIDIOC_S_PRIORITY, .VIDIOC_SUBSCRIBE_EVENT, .VIDIOC_UNSUBSCRIBE_EVENT, .VIDIOC_DQEVENT,
    .VIDIOC_REQBUFS, .VIDIOC_QUERYBUF, .VIDIOC_CREATE_BUFS, .VIDIOC_QBUF, .VIDIOC_DQBUF,
    .VIDIOC_STREAMON, .VIDIOC_STREAMOFF ]

/-- The command macros of the ignored rows of `akvcam_ioctls_private`, in table order. -/
def akvcam_ioctls_ignored_cmds : List Ioctl :=
  [ .VIDIOC_CROPCAP, .VIDIOC_DBG_G_REGISTER, .VIDIOC_DECODER_CMD, .VIDIOC_DV_TIMINGS_CAP,
    .VIDIOC_ENCODER_CMD, Ioctl.VIDIOC_ENUMAUDIO, .VIDIOC_ENUMAUDOUT, .VIDIOC_ENUMOUTPUT,
    .VIDIOC_ENUMSTD, .VIDIOC_ENUM_DV_TIMINGS, .VIDIOC_EXPBUF, Ioctl.VIDIOC_G_AUDIO,
    .VIDIOC_G_AUDOUT, .VIDIOC_G_CROP, .VIDIOC_G_DV_TIMINGS, .VIDIOC_G_EDID,
    .VIDIOC_G_ENC_INDEX, .VIDIOC_G_FBUF, .VIDIOC_G_FREQUENCY, .VIDIOC_G_JPEGCOMP,
    .VIDIOC_G_MODULATOR, .VIDIOC_G_OUTPUT, .VIDIOC_G_SELECTION, .VIDIOC_G_SLICED_VBI_CAP,
    .VIDIOC_G_STD, .VIDIOC_G_TUNER, .VIDIOC_LOG_STATUS, .VIDIOC_QUERYSTD,
    .VIDIOC_QUERY_DV_TIMINGS, Ioctl.VIDIOC_S_AUDIO, .VIDIOC_S_AUDOUT, .VIDIOC_S_EDID,
    .VIDIOC_S_FREQUENCY, .VIDIOC_S_HW_FREQ_SEEK, .VIDIOC_S_JPEGCOMP, .VIDIOC_S_OUTPUT,
    .VIDIOC_S_SELECTION, .VIDIOC_S_STD, .VIDIOC_S_TUNER, .UVCIOC_CTRL_MAP ]

/-- Modelled from the spec: a nearest-format search for the Formats collaborator
(format.c is absent), used in the examples: the first listed format at the
least squared distance in pixel code (0 or 1), width, height and frame rate. -/
def sample_format_distance (a b : akvcam_format) : Int :=
  let diff_fourcc : Int := if a.fourcc = b.fourcc then 0 else 1
  let diff_width : Int := (a.width : Int) - b.width
  let diff_height : Int := (a.height : Int) - b.height
  let diff_fps : Int := (a.frame_rate.numerator : Int) * b.frame_rate.denominator
    - (b.frame_rate.numerator : Int) * a.frame_rate.denominator
  diff_fourcc * diff_fourcc + diff_width * diff_width + diff_height * diff_height
    + diff_fps * diff_fps

/-- The search of `sample_format_distance` over a list, `best` being the nearest so far. -/
def sample_format_nearest_from (format : akvcam_format) (best : akvcam_format) :
    List akvcam_format → akvcam_format
  | [] => best
  | f :: rest =>
    if sample_format_distance f format < sample_format_distance best format then
      sample_format_nearest_from format f rest
    else
      sample_format_nearest_from format best rest

/-- The sample nearest-format search; `none` for an empty list. -/
def sample_format_nearest (formats : List akvcam_format) (format : akvcam_format) :
    Option akvcam_format :=
  match formats with
  | [] => none
  | f :: rest => some (sample_format_nearest_from format f rest)

/-- A sample Formats collaborator: packed formats of two bytes a pixel in one plane. -/
def sample_formats : Formats where
  akvcam_format_nearest := sample_format_nearest
  akvcam_format_from_v4l2 formats format :=
    sample_format_nearest formats
      (akvcam_format_new format.fmt.pixelformat format.fmt.width format.fmt.height ⟨0, 0⟩)
  akvcam_format_bypl f _ := 2 * f.width
  akvcam_format_size f := 2 * f.width * f.height
  akvcam_format_planes _ := 1
  akvcam_format_plane_size f _ := 2 * f.width * f.height

/-- The state of the sample buffer pool. -/
structure sample_pool where
  count : Nat
  blocking : Bool
  size_rw : Nat
  deriving DecidableEq, Repr

/-- A sample Buffers collaborator: every request is granted as asked. -/
def sample_buffers : Buffers sample_pool where
  akvcam_buffers_allocate b request := (0, { b with count := request.count }, request)
  akvcam_buffers_create b buffers _ :=
    (0, { b with count := b.count + buffers.count }, { buffers with index := b.count })
  akvcam_buffers_resize_rw b n := (true, { b with size_rw := n })
  akvcam_buffers_size_rw b := b.size_rw
  akvcam_buffers_set_blocking b blocking := { b with blocking := blocking }

/-- The pixel code `V4L2_PIX_FMT_YUYV` (videodev2.h). -/
def V4L2_PIX_FMT_YUYV : Nat := 0x56595559

/-- A sample capture device, number 0: it supports YUYV 640x480 at 30 frames a
second and YUYV 320x240 at 15, its current format is the second, it is not
streaming, and no node controls it. -/
def sample_device : akvcam_device sample_pool Unit where
  num := 0
  description := "akvcam"
  type := .AKVCAM_DEVICE_TYPE_CAPTURE
  v4l2_type := V4L2_BUF_TYPE_VIDEO_CAPTURE
  caps := 0
  rw_mode := 2
  formats := [⟨V4L2_PIX_FMT_YUYV, 640, 480, ⟨30, 1⟩⟩, ⟨V4L2_PIX_FMT_YUYV, 320, 240, ⟨15, 1⟩⟩]
  format := ⟨V4L2_PIX_FMT_YUYV, 320, 240, ⟨15, 1⟩⟩
  streaming := false
  priority := 2
  priority_node := none
  controlling_node := none
  broadcasting_node := -1
  buffers := ⟨0, false, 2⟩
  controls := ()

/-- A sample driver state: `sample_device` is the only device. -/
def sample_world : World sample_pool Unit Unit where
  devices n := if n = 0 then some sample_device else none
  events _ := ()

/-- Two sample nodes on device 0. -/
def sample_node_a : akvcam_node := ⟨1, 0, true⟩

/-- The second sample node on device 0. -/
def sample_node_b : akvcam_node := ⟨2, 0, false⟩

/-- A sample request: YUYV 800x600 on the capture buffer type. -/
def sample_request_800x600 : v4l2_format :=
  ⟨V4L2_BUF_TYPE_VIDEO_CAPTURE, ⟨800, 600, V4L2_PIX_FMT_YUYV, 0, .raw []⟩⟩

/-! ## Sample environments of the later handlers -/

/-- A sample read/write-mode output device, number 0, with a read/write pool of
two buffers. -/
def sample_device_output_rw : akvcam_device sample_pool Unit :=
  { sample_device with
    type := .AKVCAM_DEVICE_TYPE_OUTPUT, v4l2_type := V4L2_BUF_TYPE_VIDEO_OUTPUT, rw_mode := 1 }

/-- A sample driver state whose only device is `sample_device_output_rw`. -/
def sample_world_output_rw : World sample_pool Unit Unit where
  devices n := if n = 0 then some sample_device_output_rw else none
  events _ := ()

/-- A sample read/write-mode capture device, number 0, with a read/write pool of
two buffers. -/
def sample_device_capture_rw : akvcam_device sample_pool Unit :=
  { sample_device with rw_mode := 1 }

/-- A sample driver state whose only device is `sample_device_capture_rw`. -/
def sample_world_capture_rw : World sample_pool Unit Unit where
  devices n := if n = 0 then some sample_device_capture_rw else none
  events _ := ()

/-- A sample capture device that supports YUYV 320x240 at 15 and at 30 frames a
second and is set to 15. -/
def sample_device_rates : akvcam_device sample_pool Unit :=
  { sample_device with
    formats := [⟨V4L2_PIX_FMT_YUYV, 320, 240, ⟨15, 1⟩⟩, ⟨V4L2_PIX_FMT_YUYV, 320, 240, ⟨30, 1⟩⟩] }

/-- A sample driver state whose only device is `sample_device_rates`. -/
def sample_world_rates : World sample_pool Unit Unit where
  devices n := if n = 0 then some sample_device_rates else none
  events _ := ()

/-- The device `sample_device_rates` while it is streaming. -/
def sample_device_streaming : akvcam_device sample_pool Unit :=
  { sample_device_rates with streaming := true }

/-- A sample driver state whose only device is `sample_device_streaming`. -/
def sample_world_streaming : World sample_pool Unit Unit where
  devices n := if n = 0 then some sample_device_streaming else none
  events _ := ()

/-- A sample Device whose start of streaming always fails and changes nothing. -/
def sample_streaming_fails : Streaming sample_pool (List Nat) where
  akvcam_device_start_streaming device := (false, device)
  akvcam_device_stop_streaming device := { device with streaming := false }

/-- The state of the sample Events queue of a node: its subscriptions and the
events waiting. -/
structure sample_queue where
  subscriptions : List v4l2_event_subscription
  pending : List v4l2_event
  deriving DecidableEq, Repr

/-- errno value `ENOENT` of the kernel (errno-base.h). -/
def ENOENT : Int := 2

/-- A sample Events collaborator: a list of subscriptions and a first-in
first-out list of events; dequeueing from an empty list gives `-ENOENT`. -/
def sample_events : Events sample_queue where
  akvcam_events_subscribe e event := { e with subscriptions := e.subscriptions ++ [event] }
  akvcam_events_unsubscribe e event :=
    { e with subscriptions := e.subscriptions.filter fun x => x.type != event.type
        || x.id != event.id }
  akvcam_events_unsubscribe_all e := { e with subscriptions := [] }
  akvcam_events_enqueue e event := { e with pending := e.pending ++ [event] }
  akvcam_events_dequeue e event :=
    match e.pending with
    | [] => (-ENOENT, e, event)
    | first :: rest => (0, { e with pending := rest }, first)

/-- The result of the sample Controls operations on the control `id`: 0 when it is
in the list `c` of the controls that exist, `-EINVAL` otherwise. -/
def sample_controls_result (c : List Nat) (id : Nat) : Int :=
  if c.contains id then 0 else -EINVAL

/-- A sample Controls collaborator over the list of the control ids that exist:
queries and reads succeed for an id of the list and give `-EINVAL` otherwise. -/
def sample_controls : Controls (List Nat) where
  akvcam_controls_fill_ext c control := (sample_controls_result c control.id, c, control)
  akvcam_controls_get_ext c controls _ := (0, c, controls)
  akvcam_controls_set_ext c controls _ := (0, c, controls)
  akvcam_controls_try_ext c controls _ := (0, c, controls)
  akvcam_controls_fill c control := (sample_controls_result c control.id, c, control)
  akvcam_controls_fill_menu c menu := (sample_controls_result c menu.id, c, menu)
  akvcam_controls_get c control := (sample_controls_result c control.id, c, control)
  akvcam_controls_set c control := (sample_controls_result c control.id, c, control)
  akvcam_controls_contains c id := c.contains id
  akvcam_controls_generate_event c id := (c.contains id, ⟨V4L2_EVENT_CTRL, [], 0, 0, 0, id⟩)

/-- The control id `V4L2_CID_BRIGHTNESS` (v4l2-controls.h). -/
def V4L2_CID_BRIGHTNESS : Nat := 0x00980900

/-- A sample capture device with one control, brightness; `rw_mode` is its mode set. -/
def sample_device_controls (rw_mode : Nat) : akvcam_device sample_pool (List Nat) where
  num := 0
  description := "akvcam"
  type := .AKVCAM_DEVICE_TYPE_CAPTURE
  v4l2_type := V4L2_BUF_TYPE_VIDEO_CAPTURE
  caps := 0
  rw_mode := rw_mode
  formats := [⟨V4L2_PIX_FMT_YUYV, 640, 480, ⟨30, 1⟩⟩, ⟨V4L2_PIX_FMT_YUYV, 320, 240, ⟨15, 1⟩⟩]
  format := ⟨V4L2_PIX_FMT_YUYV, 320, 240, ⟨15, 1⟩⟩
  streaming := false
  priority := V4L2_PRIORITY_DEFAULT
  priority_node := none
  controlling_node := none
  broadcasting_node := -1
  buffers := ⟨0, false, 2⟩
  controls := [V4L2_CID_BRIGHTNESS]

/-- A sample driver state whose only device is `sample_device_controls rw_mode`;
every node has no subscription and no event waiting. -/
def sample_world_controls (rw_mode : Nat) : World sample_pool (List Nat) sample_queue where
  devices n := if n = 0 then some (sample_device_controls rw_mode) else none
  events _ := ⟨[], []⟩

/-- A sample Buffers queue: every descriptor is accepted as it is. -/
def sample_buffer_queue : BufferQueue sample_pool where
  akvcam_buffers_query b buffer := (0, b, buffer)
  akvcam_buffers_queue b buffer := (0, b, buffer)
  akvcam_buffers_dequeue b buffer := (0, b, buffer)

/-- Sample lists of the Formats collaborator: the pixel codes, resolutions and
frame rates of the listed formats, in list order. -/
def sample_format_lists : FormatLists where
  akvcam_format_pixel_formats formats := (formats.map fun f => f.fourcc).eraseDups
  akvcam_format_string_from_fourcc _ := "YUYV"
  akvcam_format_resolutions formats fourcc :=
    ((formats.filter fun f => f.fourcc == fourcc).map fun f =>
      (⟨f.width, f.height⟩ : v4l2_frmsize_discrete)).eraseDups
  akvcam_format_frame_rates formats fourcc width height :=
    ((formats.filter fun f => f.fourcc == fourcc && f.width == width
      && f.height == height).map fun f => f.frame_rate).eraseDups

/-- A sample environment: the sample collaborators, with a Device whose start of
streaming fails. -/
def sample_env : Env sample_pool (List Nat) sample_queue where
  driver := ⟨"akvcam", 0x010000⟩
  formats := sample_formats
  lists := sample_format_lists
  buffers := sample_buffers
  queue := sample_buffer_queue
  controls := sample_controls
  events := sample_events
  streaming := sample_streaming_fails

/-- A sample capture device, number 0, whose description is 40 characters long and
whose capability bit-set is video capture with streaming. -/
def sample_device_described : akvcam_device sample_pool (List Nat) :=
  { sample_device_controls 0 with
    description := "Virtual camera of the conference room 12",
    caps := 0x04000001 }

/-- A sample driver state whose only device is `sample_device_described`. -/
def sample_world_described : World sample_pool (List Nat) sample_queue where
  devices n := if n = 0 then some sample_device_described else none
  events _ := ⟨[], []⟩

/-- A sample Device whose start of streaming always succeeds and sets the
streaming flag. -/
def sample_streaming_starts : Streaming sample_pool (List Nat) where
  akvcam_device_start_streaming device := (true, { device with streaming := true })
  akvcam_device_stop_streaming device := { device with streaming := false }

/-- A sample node, number 3, of device 7, which the sample driver states do not
have. -/
def sample_node_gone : akvcam_node := ⟨3, 7, false⟩

/-! ## Theorems: dispatcher -/

section Dispatcher

variable {N W U : Type}

theorem akvcam_ioctl_do_loop_no_match (ua : Uaccess U)
    (invoke : akvcam_proc_t → N → List Nat → W → Int × List Nat × W)
    (node : N) (cmd arg : Nat) (w : W) (us : U) (l : List akvcam_ioctl_handler)
    (h : ∀ e ∈ l, e.cmd = cmd → e.proc = none) :
    akvcam_ioctl_do_loop ua invoke node cmd arg w us l = ⟨-ENOTTY, w, us, []⟩ := by
  induction l with
  | nil => rfl
  | cons e rest ih =>
    by_cases hc : e.cmd = cmd
    · have hp := h e (List.mem_cons_self _ _) hc
      simp [akvcam_ioctl_do_loop, hc, hp]
    · simp only [akvcam_ioctl_do_loop, hc, if_false]
      exact ih fun e' he' => h e' (List.mem_cons_of_mem _ he')

theorem akvcam_ioctl_do_loop_find (ua : Uaccess U)
    (invoke : akvcam_proc_t → N → List Nat → W → Int × List Nat × W)
    (node : N) (cmd arg : Nat) (w : W) (us : U) (l : List akvcam_ioctl_handler)
    (e : akvcam_ioctl_handler) (h : l.find? (fun e => e.cmd == cmd) = some e) :
    akvcam_ioctl_do_loop ua invoke node cmd arg w us l
      = akvcam_ioctl_do_loop ua invoke node cmd arg w us [e] := by
  induction l with
  | nil => simp at h
  | cons a rest ih =>
    by_cases hc : a.cmd = cmd
    · have h' : a = e := by simpa [List.find?_cons, hc] using h
      subst h'
      simp [akvcam_ioctl_do_loop, hc]
    · have h' : rest.find? (fun e => e.cmd == cmd) = some e := by
        simpa [List.find?_cons, hc] using h
      simp only [akvcam_ioctl_do_loop, hc, if_false]
      exact ih h'

/-- C1: a command code that matches none of the rows the dispatcher visits gets
`-ENOTTY`; driver state and user memory are as before and the trace is empty (no
copy-in, no handler call, no copy-out). -/
theorem akvcam_ioctl_do_unknown (u : Uapi) (ua : Uaccess U)
    (invoke : akvcam_proc_t → N → List Nat → W → Int × List Nat × W)
    (node : N) (cmd arg : Nat) (w : W) (us : U)
    (h : ∀ e ∈ (akvcam_ioctls_private u).take (akvcam_ioctl_new u).n_ioctls, e.cmd ≠ cmd) :
    akvcam_ioctl_do u ua invoke (akvcam_ioctl_new u) node cmd arg w us
      = ⟨-ENOTTY, w, us, []⟩ :=
  akvcam_ioctl_do_loop_no_match ua invoke node cmd arg w us _
    (fun e he hc => absurd hc (h e he))

theorem akvcam_ioctl_do_unknown_witness :
    (∀ e ∈ (akvcam_ioctls_private sample_uapi).take (akvcam_ioctl_new sample_uapi).n_ioctls,
        e.cmd ≠ 1000) ∧
    akvcam_ioctl_do sample_uapi sample_uaccess sample_invoke (akvcam_ioctl_new sample_uapi)
        () 1000 64 () (fun _ => 7)
      = ⟨-ENOTTY, (), fun _ => 7, []⟩ :=
  ⟨by decide, akvcam_ioctl_do_unknown sample_uapi sample_uaccess sample_invoke () 1000 64 ()
    (fun _ => 7) (by decide)⟩

/-- C2: when the first row that matches the command code has a handler, a NULL
`arg` gets `-EFAULT`; driver state and user memory are as before and the trace is
empty (the handler is not called, nothing is copied). -/
theorem akvcam_ioctl_do_null_arg (u : Uapi) (ua : Uaccess U)
    (invoke : akvcam_proc_t → N → List Nat → W → Int × List Nat × W)
    (node : N) (cmd : Nat) (w : W) (us : U) (e : akvcam_ioctl_handler) (p : akvcam_proc_t)
    (hfind : ((akvcam_ioctls_private u).take (akvcam_ioctl_new u).n_ioctls).find?
      (fun e => e.cmd == cmd) = some e)
    (hproc : e.proc = some p) :
    akvcam_ioctl_do u ua invoke (akvcam_ioctl_new u) node cmd 0 w us
      = ⟨-EFAULT, w, us, []⟩ := by
  have hcmd : e.cmd = cmd := by simpa using List.find?_some hfind
  unfold akvcam_ioctl_do
  rw [akvcam_ioctl_do_loop_find ua invoke node cmd 0 w us _ e hfind]
  simp [akvcam_ioctl_do_loop, hcmd, hproc]

theorem akvcam_ioctl_do_null_arg_witness :
    ((akvcam_ioctls_private sample_uapi).take (akvcam_ioctl_new sample_uapi).n_ioctls).find?
        (fun e => e.cmd == sample_uapi.code .VIDIOC_S_FMT)
      = some (AKVCAM_HANDLER sample_uapi .VIDIOC_S_FMT .s_fmt .v4l2_format) ∧
    akvcam_ioctl_do sample_uapi sample_uaccess sample_invoke (akvcam_ioctl_new sample_uapi)
        () (sample_uapi.code .VIDIOC_S_FMT) 0 () (fun _ => 7)
      = ⟨-EFAULT, (), fun _ => 7, []⟩ :=
  ⟨by decide, akvcam_ioctl_do_null_arg sample_uapi sample_uaccess sample_invoke ()
    (sample_uapi.code .VIDIOC_S_FMT) () (fun _ => 7)
    (AKVCAM_HANDLER sample_uapi .VIDIOC_S_FMT .s_fmt .v4l2_format) .s_fmt (by decide) rfl⟩

/-- C3: when the first row `e` that matches the command code has handler `p` and
`arg` is not NULL, the dispatcher copies `e.data_size` bytes in. If that copy
fails the result is `-EIO` and the handler is not called. Otherwise the handler
is called once on the kernel buffer, `e.data_size` bytes of the buffer it leaves
are copied out whatever it returned, and the result is `-EIO` if that copy fails
and the handler's return value if it does not. -/
theorem akvcam_ioctl_do_transfer (u : Uapi) (ua : Uaccess U)
    (invoke : akvcam_proc_t → N → List Nat → W → Int × List Nat × W)
    (node : N) (cmd arg : Nat) (w : W) (us : U) (e : akvcam_ioctl_handler)
    (p : akvcam_proc_t)
    (hfind : ((akvcam_ioctls_private u).take (akvcam_ioctl_new u).n_ioctls).find?
      (fun e => e.cmd == cmd) = some e)
    (hproc : e.proc = some p) (harg : arg ≠ 0) :
    ((ua.copy_from_user us arg e.data_size).1 ≠ 0 →
      akvcam_ioctl_do u ua invoke (akvcam_ioctl_new u) node cmd arg w us
        = ⟨- EIO, w, us, [.copy_from_user arg e.data_size]⟩) ∧
    ((ua.copy_from_user us arg e.data_size).1 = 0 →
      (akvcam_ioctl_do u ua invoke (akvcam_ioctl_new u) node cmd arg w us).trace
        = [.copy_from_user arg e.data_size,
           .proc p (ua.copy_from_user us arg e.data_size).2,
           .copy_to_user arg (invoke p node (ua.copy_from_user us arg e.data_size).2 w).2.1
             e.data_size] ∧
      (akvcam_ioctl_do u ua invoke (akvcam_ioctl_new u) node cmd arg w us).world
        = (invoke p node (ua.copy_from_user us arg e.data_size).2 w).2.2 ∧
      (akvcam_ioctl_do u ua invoke (akvcam_ioctl_new u) node cmd arg w us).user
        = (ua.copy_to_user us arg
            (invoke p node (ua.copy_from_user us arg e.data_size).2 w).2.1 e.data_size).2 ∧
      ((ua.copy_to_user us arg
            (invoke p node (ua.copy_from_user us arg e.data_size).2 w).2.1 e.data_size).1 ≠ 0 →
        (akvcam_ioctl_do u ua invoke (akvcam_ioctl_new u) node cmd arg w us).result = - EIO) ∧
      ((ua.copy_to_user us arg
            (invoke p node (ua.copy_from_user us arg e.data_size).2 w).2.1 e.data_size).1 = 0 →
        (akvcam_ioctl_do u ua invoke (akvcam_ioctl_new u) node cmd arg w us).result
          = (invoke p node (ua.copy_from_user us arg e.data_size).2 w).1)) := by
  have hcmd : e.cmd = cmd := by simpa using List.find?_some hfind
  unfold akvcam_ioctl_do
  rw [akvcam_ioctl_do_loop_find ua invoke node cmd arg w us _ e hfind]
  constructor
  · intro hcf
    simp [akvcam_ioctl_do_loop, hcmd, hproc, harg, hcf]
  · intro hcf
    simp only [akvcam_ioctl_do_loop, hcmd, hproc, harg, hcf, if_true, ne_eq, not_false_eq_true,
      true_and]
    refine ⟨?_, ?_⟩
    · intro hct
      simp [hct]
    · intro hct
      simp [hct]

theorem akvcam_ioctl_do_transfer_witness :
    ((akvcam_ioctls_private sample_uapi).take (akvcam_ioctl_new sample_uapi).n_ioctls).find?
        (fun e => e.cmd == sample_uapi.code .VIDIOC_S_FMT)
      = some (AKVCAM_HANDLER sample_uapi .VIDIOC_S_FMT .s_fmt .v4l2_format) ∧
    (akvcam_ioctl_do sample_uapi sample_uaccess sample_invoke (akvcam_ioctl_new sample_uapi)
        () (sample_uapi.code .VIDIOC_S_FMT) 64 () (fun _ => 7)).trace
      = [.copy_from_user 64 4, .proc .s_fmt [7, 7, 7, 7], .copy_to_user 64 [7, 7, 7, 7] 4] ∧
    (akvcam_ioctl_do sample_uapi sample_uaccess sample_invoke (akvcam_ioctl_new sample_uapi)
        () (sample_uapi.code .VIDIOC_S_FMT) 64 () (fun _ => 7)).result = 0 :=
  ⟨by decide,
   ((akvcam_ioctl_do_transfer sample_uapi sample_uaccess sample_invoke ()
      (sample_uapi.code .VIDIOC_S_FMT) 64 () (fun _ => 7)
      (AKVCAM_HANDLER sample_uapi .VIDIOC_S_FMT .s_fmt .v4l2_format) .s_fmt
      (by decide) rfl (by decide)).2 rfl).1,
   ((akvcam_ioctl_do_transfer sample_uapi sample_uaccess sample_invoke ()
      (sample_uapi.code .VIDIOC_S_FMT) 64 () (fun _ => 7)
      (AKVCAM_HANDLER sample_uapi .VIDIOC_S_FMT .s_fmt .v4l2_format) .s_fmt
      (by decide) rfl (by decide)).2 rfl).2.2.2.2 rfl⟩

theorem sample_uapi_code_injective : Function.Injective sample_uapi.code := by
  intro a b h
  have h' : a.toCtorIdx = b.toCtorIdx := by simpa [sample_uapi] using h
  have := congrArg Ioctl.ofNat h'
  simpa [Ioctl.ofNat_toCtorIdx] using this

theorem akvcam_ioctls_handlers_cmd (u : Uapi) :
    (akvcam_ioctls_handlers u).map (fun e => e.cmd)
      = (akvcam_ioctls_handlers_cmds u.has_query_ext_ctrl).map u.code := by
  cases hq : u.has_query_ext_ctrl <;> simp only [akvcam_ioctls_handlers, hq] <;> rfl

theorem akvcam_ioctls_ignored_eq (u : Uapi) :
    akvcam_ioctls_ignored u = akvcam_ioctls_ignored_cmds.map (AKVCAM_HANDLER_IGNORE u) :=
  rfl

theorem akvcam_ioctls_cmds_overlap (q : Bool) (c : Ioctl)
    (hh : c ∈ akvcam_ioctls_handlers_cmds q) (hi : c ∈ akvcam_ioctls_ignored_cmds) :
    c = .VIDIOC_ENUMOUTPUT ∨ c = .VIDIOC_G_OUTPUT ∨ c = .VIDIOC_S_OUTPUT := by
  revert hh hi
  cases q <;> cases c <;> decide

theorem akvcam_ioctls_handlers_proc (u : Uapi) (hinj : Function.Injective u.code) (c : Ioctl)
    (hc : AKVCAM_HANDLER_IGNORE u c ∈ akvcam_ioctls_ignored u)
    (h1 : c ≠ .VIDIOC_ENUMOUTPUT) (h2 : c ≠ .VIDIOC_G_OUTPUT) (h3 : c ≠ .VIDIOC_S_OUTPUT) :
    ∀ e ∈ akvcam_ioctls_private u, e.cmd = u.code c → e.proc = none := by
  intro e he hcmd
  have hci : c ∈ akvcam_ioctls_ignored_cmds := by
    rw [akvcam_ioctls_ignored_eq, List.mem_map] at hc
    obtain ⟨c', hc', heq⟩ := hc
    have : u.code c' = u.code c := congrArg akvcam_ioctl_handler.cmd heq
    exact hinj this ▸ hc'
  simp only [akvcam_ioctls_private, List.mem_append, List.mem_singleton] at he
  rcases he with (he | he) | he
  · exfalso
    have hm : e.cmd ∈ (akvcam_ioctls_handlers u).map (fun e => e.cmd) :=
      List.mem_map_of_mem _ he
    rw [akvcam_ioctls_handlers_cmd, hcmd, List.mem_map] at hm
    obtain ⟨c', hc', heq⟩ := hm
    have hcc : c' = c := hinj heq
    subst hcc
    rcases akvcam_ioctls_cmds_overlap _ _ hc' hci with h | h | h
    · exact h1 h
    · exact h2 h
    · exact h3 h
  · rw [akvcam_ioctls_ignored_eq, List.mem_map] at he
    obtain ⟨c', _, heq⟩ := he
    rw [← heq]
    rfl
  · rw [he]
    rfl

/-- C4 (as amended): a command code that the table lists without a handler, other
than `VIDIOC_ENUMOUTPUT`, `VIDIOC_G_OUTPUT` and `VIDIOC_S_OUTPUT` (which an earlier
row lists with a handler), gets `-ENOTTY` for every node and payload; driver
state and user memory are as before and the trace is empty. Distinct command
macros are taken to have distinct values. -/
theorem akvcam_ioctl_do_ignored (u : Uapi) (hinj : Function.Injective u.code) (ua : Uaccess U)
    (invoke : akvcam_proc_t → N → List Nat → W → Int × List Nat × W)
    (node : N) (arg : Nat) (w : W) (us : U) (c : Ioctl)
    (hc : AKVCAM_HANDLER_IGNORE u c ∈ akvcam_ioctls_ignored u)
    (h1 : c ≠ .VIDIOC_ENUMOUTPUT) (h2 : c ≠ .VIDIOC_G_OUTPUT) (h3 : c ≠ .VIDIOC_S_OUTPUT) :
    akvcam_ioctl_do u ua invoke (akvcam_ioctl_new u) node (u.code c) arg w us
      = ⟨-ENOTTY, w, us, []⟩ :=
  akvcam_ioctl_do_loop_no_match ua invoke node (u.code c) arg w us _
    (fun e he hcmd =>
      akvcam_ioctls_handlers_proc u hinj c hc h1 h2 h3 e (List.mem_of_mem_take he) hcmd)

theorem akvcam_ioctl_do_ignored_witness :
    (Function.Injective sample_uapi.code ∧
      AKVCAM_HANDLER_IGNORE sample_uapi .VIDIOC_CROPCAP ∈ akvcam_ioctls_ignored sample_uapi) ∧
    akvcam_ioctl_do sample_uapi sample_uaccess sample_invoke (akvcam_ioctl_new sample_uapi)
        () (sample_uapi.code .VIDIOC_CROPCAP) 64 () (fun _ => 7)
      = ⟨-ENOTTY, (), fun _ => 7, []⟩ :=
  ⟨⟨sample_uapi_code_injective, by decide⟩,
   akvcam_ioctl_do_ignored sample_uapi sample_uapi_code_injective sample_uaccess sample_invoke
     () 64 () (fun _ => 7) .VIDIOC_CROPCAP (by decide) (by decide) (by decide) (by decide)⟩

/-- C4 (counterexample): `VIDIOC_ENUMOUTPUT` is listed without a handler, yet a
call with this code and a payload runs the handler `akvcam_ioctl_enumoutput` and
returns what it returns (here 0), and a call with a NULL payload gets `-EFAULT`. -/
theorem akvcam_ioctl_do_ignored_enumoutput :
    AKVCAM_HANDLER_IGNORE sample_uapi .VIDIOC_ENUMOUTPUT ∈ akvcam_ioctls_ignored sample_uapi ∧
    (akvcam_ioctl_do sample_uapi sample_uaccess sample_invoke (akvcam_ioctl_new sample_uapi)
        () (sample_uapi.code .VIDIOC_ENUMOUTPUT) 64 () (fun _ => 7)).trace
      = [.copy_from_user 64 4, .proc .enumoutput [7, 7, 7, 7],
         .copy_to_user 64 [7, 7, 7, 7] 4] ∧
    (akvcam_ioctl_do sample_uapi sample_uaccess sample_invoke (akvcam_ioctl_new sample_uapi)
        () (sample_uapi.code .VIDIOC_ENUMOUTPUT) 64 () (fun _ => 7)).result = 0 ∧
    (akvcam_ioctl_do sample_uapi sample_uaccess sample_invoke (akvcam_ioctl_new sample_uapi)
        () (sample_uapi.code .VIDIOC_ENUMOUTPUT) 0 () (fun _ => 7)).result = -EFAULT ∧
    (0 : Int) ≠ -ENOTTY ∧ -EFAULT ≠ -ENOTTY := by
  refine ⟨by decide, by decide, by decide, by decide, by decide, by decide⟩

theorem akvcam_ioctls_ignored_cmd (u : Uapi) :
    (akvcam_ioctls_ignored u).map (fun e => e.cmd) = akvcam_ioctls_ignored_cmds.map u.code :=
  rfl

end Dispatcher

/-! ## Theorems: format negotiation -/

section Negotiation

variable {B C E : Type}

theorem v4l2_format_fill_pixelformat (fo : Formats) (type : Nat) (f : akvcam_format) :
    (v4l2_format_fill fo type f).pixelformat = akvcam_format_fourcc f := by
  unfold v4l2_format_fill
  split <;> rfl

theorem v4l2_format_fill_width (fo : Formats) (type : Nat) (f : akvcam_format) :
    (v4l2_format_fill fo type f).width = u32 (akvcam_format_width f) := by
  unfold v4l2_format_fill
  split <;> rfl

theorem v4l2_format_fill_height (fo : Formats) (type : Nat) (f : akvcam_format) :
    (v4l2_format_fill fo type f).height = u32 (akvcam_format_height f) := by
  unfold v4l2_format_fill
  split <;> rfl

theorem akvcam_ioctl_try_fmt_ok (fo : Formats) (node : akvcam_node) (format : v4l2_format)
    (w : World B C E) (device : akvcam_device B C) (nf : akvcam_format)
    (hdev : akvcam_driver_device_from_num_nr w (akvcam_node_device_num node) = some device)
    (ht : format.type = akvcam_device_v4l2_type device)
    (hs : akvcam_device_streaming device = false)
    (hn : fo.akvcam_format_nearest (akvcam_device_formats device)
      (akvcam_format_new format.fmt.pixelformat format.fmt.width format.fmt.height ⟨0, 0⟩)
      = some nf) :
    akvcam_ioctl_try_fmt fo node format w
      = (0, { format with fmt := v4l2_format_fill fo format.type nf }, w) := by
  simp [akvcam_ioctl_try_fmt, hdev, ht, hs, hn]

/-- C8: on an existing device `akvcam_ioctl_try_fmt` returns `-EINVAL` when the
buffer type differs from the device's; otherwise `-EBUSY` when the device is
streaming; otherwise `-EINVAL` when Formats finds no nearest format for the
requested pixel code, width and height; otherwise 0, and the response carries the
pixel code of the nearest format and its width and height (each of which the
32-bit response field holds unchanged when it is below `2 ^ 32`). -/
theorem akvcam_ioctl_try_fmt_result (fo : Formats) (node : akvcam_node) (format : v4l2_format)
    (w : World B C E) (device : akvcam_device B C)
    (hdev : akvcam_driver_device_from_num_nr w (akvcam_node_device_num node) = some device) :
    (format.type ≠ akvcam_device_v4l2_type device →
      (akvcam_ioctl_try_fmt fo node format w).1 = -EINVAL) ∧
    (format.type = akvcam_device_v4l2_type device → akvcam_device_streaming device = true →
      (akvcam_ioctl_try_fmt fo node format w).1 = -EBUSY) ∧
    (format.type = akvcam_device_v4l2_type device → akvcam_device_streaming device = false →
      fo.akvcam_format_nearest (akvcam_device_formats device)
        (akvcam_format_new format.fmt.pixelformat format.fmt.width format.fmt.height ⟨0, 0⟩)
        = none →
      (akvcam_ioctl_try_fmt fo node format w).1 = -EINVAL) ∧
    (∀ nearest_format : akvcam_format,
      format.type = akvcam_device_v4l2_type device → akvcam_device_streaming device = false →
      fo.akvcam_format_nearest (akvcam_device_formats device)
        (akvcam_format_new format.fmt.pixelformat format.fmt.width format.fmt.height ⟨0, 0⟩)
        = some nearest_format →
      (akvcam_ioctl_try_fmt fo node format w).1 = 0 ∧
      (akvcam_ioctl_try_fmt fo node format w).2.1.fmt.pixelformat
        = akvcam_format_fourcc nearest_format ∧
      (akvcam_format_width nearest_format < 2 ^ 32 →
        (akvcam_ioctl_try_fmt fo node format w).2.1.fmt.width
          = akvcam_format_width nearest_format) ∧
      (akvcam_format_height nearest_format < 2 ^ 32 →
        (akvcam_ioctl_try_fmt fo node format w).2.1.fmt.height
          = akvcam_format_height nearest_format)) := by
  refine ⟨?_, ?_, ?_, ?_⟩
  · intro ht
    simp [akvcam_ioctl_try_fmt, hdev, ht]
  · intro ht hs
    simp [akvcam_ioctl_try_fmt, hdev, ht, hs]
  · intro ht hs hn
    simp [akvcam_ioctl_try_fmt, hdev, ht, hs, hn]
  · intro nf ht hs hn
    rw [akvcam_ioctl_try_fmt_ok fo node format w device nf hdev ht hs hn]
    refine ⟨rfl, v4l2_format_fill_pixelformat _ _ _, ?_, ?_⟩
    · intro hw
      simp only [v4l2_format_fill_width, u32]
      exact Nat.mod_eq_of_lt hw
    · intro hh
      simp only [v4l2_format_fill_height, u32]
      exact Nat.mod_eq_of_lt hh

theorem akvcam_ioctl_try_fmt_result_witness :
    akvcam_driver_device_from_num_nr sample_world (akvcam_node_device_num sample_node_a)
      = some sample_device ∧
    (akvcam_ioctl_try_fmt sample_formats sample_node_a sample_request_800x600 sample_world).1
      = 0 ∧
    (akvcam_ioctl_try_fmt sample_formats sample_node_a sample_request_800x600
      sample_world).2.1.fmt.width = 640 :=
  ⟨rfl,
   ((akvcam_ioctl_try_fmt_result sample_formats sample_node_a sample_request_800x600
      sample_world sample_device rfl).2.2.2 ⟨V4L2_PIX_FMT_YUYV, 640, 480, ⟨30, 1⟩⟩
      rfl rfl (by decide)).1,
   ((akvcam_ioctl_try_fmt_result sample_formats sample_node_a sample_request_800x600
      sample_world sample_device rfl).2.2.2 ⟨V4L2_PIX_FMT_YUYV, 640, 480, ⟨30, 1⟩⟩
      rfl rfl (by decide)).2.2.1 (by decide)⟩

theorem akvcam_ioctl_try_fmt_world (fo : Formats) (node : akvcam_node) (format : v4l2_format)
    (w : World B C E) : (akvcam_ioctl_try_fmt fo node format w).2.2 = w := by
  unfold akvcam_ioctl_try_fmt
  simp only
  split
  · rfl
  · split
    · rfl
    · split
      · rfl
      · split <;> rfl

/-- C9: `akvcam_ioctl_try_fmt` never commits: whatever it returns, the driver
state it leaves is the one it was given (every attribute of every device is as
before). In the sample state, whose device supports YUYV 640x480 and YUYV 320x240
and is set to 320x240, a request for YUYV 800x600 gets 0 and the response
YUYV 640x480, and the device is still set to 320x240. -/
theorem akvcam_ioctl_try_fmt_no_commit :
    (∀ (B C E : Type) (fo : Formats) (node : akvcam_node) (format : v4l2_format)
        (w : World B C E), (akvcam_ioctl_try_fmt fo node format w).2.2 = w) ∧
    ((akvcam_ioctl_try_fmt sample_formats sample_node_a sample_request_800x600 sample_world).1
        = 0 ∧
      (akvcam_ioctl_try_fmt sample_formats sample_node_a sample_request_800x600
        sample_world).2.1
        = ⟨V4L2_BUF_TYPE_VIDEO_CAPTURE, ⟨640, 480, V4L2_PIX_FMT_YUYV, V4L2_FIELD_NONE,
            .pix 1280 614400 DEFAULT_COLORSPACE⟩⟩ ∧
      ((akvcam_ioctl_try_fmt sample_formats sample_node_a sample_request_800x600
        sample_world).2.2.devices 0).map (fun d => d.format)
        = some ⟨V4L2_PIX_FMT_YUYV, 320, 240, ⟨15, 1⟩⟩) := by
  refine ⟨?_, by decide, by decide, by decide⟩
  intro B C E fo node format w
  exact akvcam_ioctl_try_fmt_world fo node format w

theorem akvcam_ioctl_try_fmt_zero (fo : Formats) (node : akvcam_node) (format : v4l2_format)
    (w : World B C E) (device : akvcam_device B C)
    (hdev : akvcam_driver_device_from_num_nr w (akvcam_node_device_num node) = some device)
    (hok : (akvcam_ioctl_try_fmt fo node format w).1 = 0) :
    ∃ nf, fo.akvcam_format_nearest (akvcam_device_formats device)
        (akvcam_format_new format.fmt.pixelformat format.fmt.width format.fmt.height ⟨0, 0⟩)
        = some nf ∧
      akvcam_ioctl_try_fmt fo node format w
        = (0, { format with fmt := v4l2_format_fill fo format.type nf }, w) := by
  by_cases ht : format.type = akvcam_device_v4l2_type device
  · cases hs : akvcam_device_streaming device
    · cases hn : fo.akvcam_format_nearest (akvcam_device_formats device)
        (akvcam_format_new format.fmt.pixelformat format.fmt.width format.fmt.height ⟨0, 0⟩)
      · simp [akvcam_ioctl_try_fmt, hdev, ht, hs, hn, EINVAL] at hok
      · exact ⟨_, rfl, akvcam_ioctl_try_fmt_ok fo node format w device _ hdev ht hs hn⟩
    · simp [akvcam_ioctl_try_fmt, hdev, ht, hs, EBUSY] at hok
  · simp [akvcam_ioctl_try_fmt, hdev, ht, EINVAL] at hok

theorem akvcam_ioctl_s_fmt_eq (fo : Formats) (bo : Buffers B) (node : akvcam_node)
    (format : v4l2_format) (w : World B C E) (device : akvcam_device B C)
    (hdev : akvcam_driver_device_from_num_nr w (akvcam_node_device_num node) = some device) :
    akvcam_ioctl_s_fmt fo bo node format w
      = if (akvcam_ioctl_try_fmt fo node format w).1 = 0 then
          ((akvcam_ioctl_try_fmt fo node format w).1, (akvcam_ioctl_try_fmt fo node format w).2.1,
            w.store (akvcam_node_device_num node)
              { device with
                format :=
                  { fourcc := (akvcam_ioctl_try_fmt fo node format w).2.1.fmt.pixelformat,
                    width := (akvcam_ioctl_try_fmt fo node format w).2.1.fmt.width,
                    height := (akvcam_ioctl_try_fmt fo node format w).2.1.fmt.height,
                    frame_rate := device.format.frame_rate },
                buffers := (bo.akvcam_buffers_resize_rw device.buffers
                  (bo.akvcam_buffers_size_rw device.buffers)).2 })
        else akvcam_ioctl_try_fmt fo node format w := by
  have hw : (akvcam_ioctl_try_fmt fo node format w).2.2 = w :=
    akvcam_ioctl_try_fmt_world fo node format w
  unfold akvcam_ioctl_s_fmt
  simp only [hdev, hw]
  split
  · rfl
  · exact Prod.ext rfl (Prod.ext rfl hw.symm)

theorem akvcam_ioctl_s_fmt_ok (fo : Formats) (bo : Buffers B) (node : akvcam_node)
    (format : v4l2_format) (w : World B C E) (device : akvcam_device B C)
    (hdev : akvcam_driver_device_from_num_nr w (akvcam_node_device_num node) = some device)
    (hok : (akvcam_ioctl_s_fmt fo bo node format w).1 = 0) :
    ∃ (nearest_format : akvcam_format) (device' : akvcam_device B C),
      fo.akvcam_format_nearest (akvcam_device_formats device)
        (akvcam_format_new format.fmt.pixelformat format.fmt.width format.fmt.height ⟨0, 0⟩)
        = some nearest_format ∧
      akvcam_driver_device_from_num_nr (akvcam_ioctl_s_fmt fo bo node format w).2.2
        (akvcam_node_device_num node) = some device' ∧
      akvcam_device_format device'
        = { fourcc := akvcam_format_fourcc nearest_format,
            width := u32 (akvcam_format_width nearest_format),
            height := u32 (akvcam_format_height nearest_format),
            frame_rate := akvcam_format_frame_rate (akvcam_device_format device) } := by
  rw [akvcam_ioctl_s_fmt_eq fo bo node format w device hdev] at hok ⊢
  by_cases h0 : (akvcam_ioctl_try_fmt fo node format w).1 = 0
  · obtain ⟨nf, hn, heq⟩ := akvcam_ioctl_try_fmt_zero fo node format w device hdev h0
    simp only [h0, if_true, akvcam_driver_device_from_num_nr, World.store]
    refine ⟨nf, _, hn, rfl, ?_⟩
    simp [heq, akvcam_device_format, v4l2_format_fill_pixelformat, v4l2_format_fill_width,
      v4l2_format_fill_height, akvcam_format_frame_rate]
  · simp only [h0, if_false] at hok

theorem sample_format_nearest_from_mem (format : akvcam_format) (rest : List akvcam_format) :
    ∀ best : akvcam_format,
      sample_format_nearest_from format best rest = best ∨
      sample_format_nearest_from format best rest ∈ rest := by
  induction rest with
  | nil => intro best; exact Or.inl rfl
  | cons f rest ih =>
    intro best
    unfold sample_format_nearest_from
    split
    · rcases ih f with h | h
      · exact Or.inr (by rw [h]; exact List.mem_cons_self _ _)
      · exact Or.inr (List.mem_cons_of_mem _ h)
    · rcases ih best with h | h
      · exact Or.inl h
      · exact Or.inr (List.mem_cons_of_mem _ h)

theorem sample_format_nearest_mem (formats : List akvcam_format) (format g : akvcam_format)
    (h : sample_formats.akvcam_format_nearest formats format = some g) : g ∈ formats := by
  cases formats with
  | nil => simp [sample_formats, sample_format_nearest] at h
  | cons f rest =>
    simp only [sample_formats, sample_format_nearest, Option.some.injEq] at h
    subst h
    rcases sample_format_nearest_from_mem format rest f with h | h
    · rw [h]; exact List.mem_cons_self _ _
    · exact List.mem_cons_of_mem _ h

theorem World.store_lookup (w : World B C E) (num : Int) (device : akvcam_device B C) :
    akvcam_driver_device_from_num_nr (w.store num device) num = some device := by
  simp [akvcam_driver_device_from_num_nr, World.store]

theorem akvcam_ioctl_s_parm_supported (fo : Formats) (bo : Buffers B) (node : akvcam_node)
    (w : World B C E) (device : akvcam_device B C)
    (hn : ∀ formats format g, fo.akvcam_format_nearest formats format = some g → g ∈ formats)
    (hdev : akvcam_driver_device_from_num_nr w (akvcam_node_device_num node) = some device)
    (hmem : akvcam_device_format device ∈ akvcam_device_formats device)
    (param : v4l2_streamparm) :
    ∃ device', akvcam_driver_device_from_num_nr (akvcam_ioctl_s_parm fo bo node param w).2.2
        (akvcam_node_device_num node) = some device' ∧
      akvcam_device_formats device' = akvcam_device_formats device ∧
      akvcam_device_format device' ∈ akvcam_device_formats device' := by
  unfold akvcam_ioctl_s_parm
  simp only [hdev]
  repeat' split
  all_goals first
    | exact ⟨device, hdev, rfl, hmem⟩
    | exact ⟨_, World.store_lookup _ _ _, rfl, hn _ _ _ (by assumption)⟩

/-- C7 (the code at the failing input): assume the nearest-match of Formats only
returns members of the list it is given and the device's current format is a
member of its supported-format list. `akvcam_ioctl_s_parm` leaves the current
format a member of that list, for every request and outcome, and so does an
`akvcam_ioctl_s_fmt` that fails. A successful `akvcam_ioctl_s_fmt` commits the
pixel code, width and height of the nearest format (as the 32-bit response fields
carry them) together with the frame rate the device had before the call, a
combination that Formats did not return: whenever that combination is not in the
list, the current format after the call is not a supported format. -/
theorem akvcam_ioctl_s_fmt_supported_format (fo : Formats) (bo : Buffers B)
    (node : akvcam_node) (w : World B C E) (device : akvcam_device B C)
    (hn : ∀ formats format g, fo.akvcam_format_nearest formats format = some g → g ∈ formats)
    (hdev : akvcam_driver_device_from_num_nr w (akvcam_node_device_num node) = some device)
    (hmem : akvcam_device_format device ∈ akvcam_device_formats device) :
    (∀ param : v4l2_streamparm,
      ∃ device', akvcam_driver_device_from_num_nr (akvcam_ioctl_s_parm fo bo node param w).2.2
          (akvcam_node_device_num node) = some device' ∧
        akvcam_device_formats device' = akvcam_device_formats device ∧
        akvcam_device_format device' ∈ akvcam_device_formats device') ∧
    (∀ format : v4l2_format,
      ∃ device', akvcam_driver_device_from_num_nr (akvcam_ioctl_s_fmt fo bo node format w).2.2
          (akvcam_node_device_num node) = some device' ∧
        akvcam_device_formats device' = akvcam_device_formats device ∧
        ((akvcam_ioctl_s_fmt fo bo node format w).1 ≠ 0 →
          akvcam_device_format device' ∈ akvcam_device_formats device') ∧
        ((akvcam_ioctl_s_fmt fo bo node format w).1 = 0 →
          ∃ g ∈ akvcam_device_formats device,
            fo.akvcam_format_nearest (akvcam_device_formats device)
              (akvcam_format_new format.fmt.pixelformat format.fmt.width format.fmt.height
                ⟨0, 0⟩) = some g ∧
            akvcam_device_format device'
              = { fourcc := akvcam_format_fourcc g,
                  width := u32 (akvcam_format_width g),
                  height := u32 (akvcam_format_height g),
                  frame_rate := akvcam_format_frame_rate (akvcam_device_format device) } ∧
            (({ fourcc := akvcam_format_fourcc g,
                width := u32 (akvcam_format_width g),
                height := u32 (akvcam_format_height g),
                frame_rate := akvcam_format_frame_rate (akvcam_device_format device) }
                  : akvcam_format) ∉ akvcam_device_formats device →
              akvcam_device_format device' ∉ akvcam_device_formats device'))) := by
  refine ⟨akvcam_ioctl_s_parm_supported fo bo node w device hn hdev hmem, ?_⟩
  intro format
  by_cases h0 : (akvcam_ioctl_s_fmt fo bo node format w).1 = 0
  · obtain ⟨nf, d', hnear, hd', hfmt⟩ :=
      akvcam_ioctl_s_fmt_ok fo bo node format w device hdev h0
    have hfs : akvcam_device_formats d' = akvcam_device_formats device := by
      have hd2 := hd'
      have h2 := h0
      rw [akvcam_ioctl_s_fmt_eq fo bo node format w device hdev] at hd2 h2
      by_cases h1 : (akvcam_ioctl_try_fmt fo node format w).1 = 0
      · simp only [h1, if_true, World.store_lookup, Option.some.injEq] at hd2
        rw [← hd2]
        rfl
      · simp only [h1, if_false] at h2
    refine ⟨d', hd', hfs, fun h => absurd h0 h,
      fun _ => ⟨nf, hn _ _ _ hnear, hnear, hfmt, fun hnot => ?_⟩⟩
    rw [hfs, hfmt]
    exact hnot
  · have h1 : ¬ (akvcam_ioctl_try_fmt fo node format w).1 = 0 := by
      intro h1
      apply h0
      rw [akvcam_ioctl_s_fmt_eq fo bo node format w device hdev]
      simp [h1]
    have hw : (akvcam_ioctl_s_fmt fo bo node format w).2.2 = w := by
      rw [akvcam_ioctl_s_fmt_eq fo bo node format w device hdev]
      simp only [h1, if_false]
      exact akvcam_ioctl_try_fmt_world fo node format w
    rw [hw]
    exact ⟨device, hdev, rfl, fun _ => hmem, fun h => absurd h h0⟩

/-- C7 witness, the failing input: the sample nearest-format search only returns
members of the list it is given, and the sample device supports YUYV 640x480 at
30/1 and 320x240 at 15/1 and is set to the second. `akvcam_ioctl_s_fmt` for YUYV
800x600 returns 0 and leaves the current format YUYV 640x480 at 15/1, which is not
in the device's list. `akvcam_ioctl_s_parm` with timeperframe {1, 30} on the same
state leaves a current format that is in the list. -/
theorem akvcam_ioctl_s_fmt_supported_format_witness :
    ((∀ formats format g, sample_formats.akvcam_format_nearest formats format = some g →
        g ∈ formats) ∧
      akvcam_driver_device_from_num_nr sample_world (akvcam_node_device_num sample_node_a)
        = some sample_device ∧
      akvcam_device_format sample_device ∈ akvcam_device_formats sample_device) ∧
    (akvcam_ioctl_s_fmt sample_formats sample_buffers sample_node_a sample_request_800x600
      sample_world).1 = 0 ∧
    (∃ device', akvcam_driver_device_from_num_nr
        (akvcam_ioctl_s_fmt sample_formats sample_buffers sample_node_a sample_request_800x600
          sample_world).2.2 (akvcam_node_device_num sample_node_a) = some device' ∧
      akvcam_device_formats device' = akvcam_device_formats sample_device ∧
      akvcam_device_format device' = ⟨V4L2_PIX_FMT_YUYV, 640, 480, ⟨15, 1⟩⟩ ∧
      akvcam_device_format device' ∉ akvcam_device_formats device') ∧
    (∃ device', akvcam_driver_device_from_num_nr
        (akvcam_ioctl_s_parm sample_formats sample_buffers sample_node_a
          ⟨V4L2_BUF_TYPE_VIDEO_CAPTURE, ⟨0, 0, ⟨1, 30⟩, 0, 0⟩⟩ sample_world).2.2
        (akvcam_node_device_num sample_node_a) = some device' ∧
      akvcam_device_formats device' = akvcam_device_formats sample_device ∧
      akvcam_device_format device' ∈ akvcam_device_formats device') := by
  have h := akvcam_ioctl_s_fmt_supported_format sample_formats sample_buffers sample_node_a
    sample_world sample_device sample_format_nearest_mem rfl (by decide)
  obtain ⟨d, hd, hfs, _, hok⟩ := h.2 sample_request_800x600
  obtain ⟨g, _, hnear, hfmt, hnot⟩ := hok (by decide)
  have hg : g = ⟨V4L2_PIX_FMT_YUYV, 640, 480, ⟨30, 1⟩⟩ := by
    have h1 : sample_formats.akvcam_format_nearest (akvcam_device_formats sample_device)
        (akvcam_format_new sample_request_800x600.fmt.pixelformat
          sample_request_800x600.fmt.width sample_request_800x600.fmt.height ⟨0, 0⟩)
        = some ⟨V4L2_PIX_FMT_YUYV, 640, 480, ⟨30, 1⟩⟩ := by decide
    exact Option.some.inj (hnear.symm.trans h1)
  subst hg
  exact ⟨⟨sample_format_nearest_mem, rfl, by decide⟩, by decide,
    ⟨d, hd, hfs, hfmt.trans (by decide), hnot (by decide)⟩,
    h.1 ⟨V4L2_BUF_TYPE_VIDEO_CAPTURE, ⟨0, 0, ⟨1, 30⟩, 0, 0⟩⟩⟩

end Negotiation

/-! ## Theorems: buffer allocation -/

section Allocation

variable {B C E : Type}

theorem akvcam_ioctl_reqbufs_busy (bo : Buffers B) (node cn : akvcam_node)
    (request : v4l2_requestbuffers) (w : World B C E) (device : akvcam_device B C)
    (hdev : akvcam_driver_device_from_num_nr w (akvcam_node_device_num node) = some device)
    (hcn : akvcam_device_controlling_node device = some cn)
    (hid : akvcam_node_id node ≠ akvcam_node_id cn) :
    akvcam_ioctl_reqbufs bo node request w = (-EBUSY, request, w) := by
  simp [akvcam_ioctl_reqbufs, hdev, hcn, hid]

theorem akvcam_ioctl_create_bufs_busy (fo : Formats) (bo : Buffers B) (node cn : akvcam_node)
    (buffers : v4l2_create_buffers) (w : World B C E) (device : akvcam_device B C)
    (hdev : akvcam_driver_device_from_num_nr w (akvcam_node_device_num node) = some device)
    (hcn : akvcam_device_controlling_node device = some cn)
    (hid : akvcam_node_id node ≠ akvcam_node_id cn) :
    akvcam_ioctl_create_bufs fo bo node buffers w = (-EBUSY, buffers, w) := by
  simp [akvcam_ioctl_create_bufs, hdev, hcn, hid]

theorem akvcam_ioctl_reqbufs_grant (bo : Buffers B) (node : akvcam_node)
    (request : v4l2_requestbuffers) (w : World B C E)
    (hok : 0 ≤ (akvcam_ioctl_reqbufs bo node request w).1)
    (hcount : (akvcam_ioctl_reqbufs bo node request w).2.1.count ≠ 0) :
    ∃ device', akvcam_driver_device_from_num_nr (akvcam_ioctl_reqbufs bo node request w).2.2
        (akvcam_node_device_num node) = some device' ∧
      akvcam_device_controlling_node device' = some node := by
  cases hdev : akvcam_driver_device_from_num_nr w (akvcam_node_device_num node) with
  | none => simp [akvcam_ioctl_reqbufs, hdev, EIO] at hok
  | some device =>
    have key : ∀ hb : (match akvcam_device_controlling_node device with
          | some cn => decide (akvcam_node_id node ≠ akvcam_node_id cn)
          | none => false) = false,
        ∃ device', akvcam_driver_device_from_num_nr (akvcam_ioctl_reqbufs bo node request w).2.2
          (akvcam_node_device_num node) = some device' ∧
        akvcam_device_controlling_node device' = some node := by
      intro hb
      by_cases hr : 0 ≤ (bo.akvcam_buffers_allocate (akvcam_device_buffers_nr device) request).1
      · by_cases hc : (bo.akvcam_buffers_allocate (akvcam_device_buffers_nr device)
            request).2.2.count = 0
        · exfalso
          unfold akvcam_ioctl_reqbufs at hcount
          simp only [hdev, hb, ge_iff_le, hr, hc, if_true, if_false, ne_eq, not_true_eq_false,
            not_false_eq_true, Bool.false_eq_true] at hcount
        · unfold akvcam_ioctl_reqbufs
          simp only [hdev, hb, ge_iff_le, hr, hc, if_true, if_false, ne_eq, not_true_eq_false,
            not_false_eq_true, Bool.false_eq_true, World.store_lookup]
          exact ⟨_, rfl, rfl⟩
      · exfalso
        unfold akvcam_ioctl_reqbufs at hok
        simp only [hdev, hb, ge_iff_le, hr, if_false, Bool.false_eq_true] at hok
    cases hcn : akvcam_device_controlling_node device with
    | none => exact key (by rw [hcn])
    | some cn =>
      by_cases hid : akvcam_node_id node = akvcam_node_id cn
      · exact key (by rw [hcn]; simp [hid])
      · simp [akvcam_ioctl_reqbufs, hdev, hcn, hid, EBUSY] at hok

theorem akvcam_ioctl_reqbufs_release (bo : Buffers B) (node : akvcam_node)
    (request : v4l2_requestbuffers) (w : World B C E)
    (hok : 0 ≤ (akvcam_ioctl_reqbufs bo node request w).1)
    (hcount : (akvcam_ioctl_reqbufs bo node request w).2.1.count = 0) :
    ∃ device', akvcam_driver_device_from_num_nr (akvcam_ioctl_reqbufs bo node request w).2.2
        (akvcam_node_device_num node) = some device' ∧
      akvcam_device_controlling_node device' = none := by
  cases hdev : akvcam_driver_device_from_num_nr w (akvcam_node_device_num node) with
  | none => simp [akvcam_ioctl_reqbufs, hdev, EIO] at hok
  | some device =>
    have key : ∀ hb : (match akvcam_device_controlling_node device with
          | some cn => decide (akvcam_node_id node ≠ akvcam_node_id cn)
          | none => false) = false,
        ∃ device', akvcam_driver_device_from_num_nr (akvcam_ioctl_reqbufs bo node request w).2.2
          (akvcam_node_device_num node) = some device' ∧
        akvcam_device_controlling_node device' = none := by
      intro hb
      by_cases hr : 0 ≤ (bo.akvcam_buffers_allocate (akvcam_device_buffers_nr device) request).1
      · by_cases hc : (bo.akvcam_buffers_allocate (akvcam_device_buffers_nr device)
            request).2.2.count = 0
        · unfold akvcam_ioctl_reqbufs
          simp only [hdev, hb, ge_iff_le, hr, hc, if_true, if_false, ne_eq, not_true_eq_false,
            not_false_eq_true, Bool.false_eq_true, World.store_lookup]
          exact ⟨_, rfl, rfl⟩
        · exfalso
          unfold akvcam_ioctl_reqbufs at hcount
          simp only [hdev, hb, ge_iff_le, hr, hc, if_true, if_false, ne_eq, not_true_eq_false,
            not_false_eq_true, Bool.false_eq_true] at hcount
      · exfalso
        unfold akvcam_ioctl_reqbufs at hok
        simp only [hdev, hb, ge_iff_le, hr, if_false, Bool.false_eq_true] at hok
    cases hcn : akvcam_device_controlling_node device with
    | none => exact key (by rw [hcn])
    | some cn =>
      by_cases hid : akvcam_node_id node = akvcam_node_id cn
      · exact key (by rw [hcn]; simp [hid])
      · simp [akvcam_ioctl_reqbufs, hdev, hcn, hid, EBUSY] at hok

theorem akvcam_ioctl_reqbufs_free (bo : Buffers B) (node : akvcam_node)
    (request : v4l2_requestbuffers) (w : World B C E) (device : akvcam_device B C)
    (hdev : akvcam_driver_device_from_num_nr w (akvcam_node_device_num node) = some device)
    (hcn : akvcam_device_controlling_node device = none) :
    (akvcam_ioctl_reqbufs bo node request w).1
      = (bo.akvcam_buffers_allocate (akvcam_device_buffers_nr device) request).1 := by
  unfold akvcam_ioctl_reqbufs
  simp only [hdev, hcn]
  repeat' split
  all_goals first
    | rfl
    | (rename_i h; simp at h)

/-- C10: once `akvcam_ioctl_reqbufs` by node `a` has succeeded with a non-zero
resulting count, every `akvcam_ioctl_reqbufs` and `akvcam_ioctl_create_bufs` call
by a node `b` of the same device with another node id gets `-EBUSY`, whatever
Buffers would do, and leaves the driver state (controlling node, blocking mode,
buffer pool) as it is. And in the state that a successful
`akvcam_ioctl_reqbufs` by `a` with resulting count zero leaves, a
`akvcam_ioctl_reqbufs` by `b` returns what `akvcam_buffers_allocate` returns. -/
theorem controlling_node_exclusive (bo : Buffers B) (a b : akvcam_node)
    (request : v4l2_requestbuffers) (w : World B C E)
    (hsame : akvcam_node_device_num b = akvcam_node_device_num a)
    (hid : akvcam_node_id b ≠ akvcam_node_id a)
    (hok : 0 ≤ (akvcam_ioctl_reqbufs bo a request w).1)
    (hcount : (akvcam_ioctl_reqbufs bo a request w).2.1.count ≠ 0) :
    (∀ (bo' : Buffers B) (req : v4l2_requestbuffers),
      akvcam_ioctl_reqbufs bo' b req (akvcam_ioctl_reqbufs bo a request w).2.2
        = (-EBUSY, req, (akvcam_ioctl_reqbufs bo a request w).2.2)) ∧
    (∀ (fo' : Formats) (bo' : Buffers B) (buffers : v4l2_create_buffers),
      akvcam_ioctl_create_bufs fo' bo' b buffers (akvcam_ioctl_reqbufs bo a request w).2.2
        = (-EBUSY, buffers, (akvcam_ioctl_reqbufs bo a request w).2.2)) ∧
    (∀ (w' : World B C E) (release : v4l2_requestbuffers),
      0 ≤ (akvcam_ioctl_reqbufs bo a release w').1 →
      (akvcam_ioctl_reqbufs bo a release w').2.1.count = 0 →
      ∀ req : v4l2_requestbuffers,
        ∃ device', akvcam_driver_device_from_num_nr (akvcam_ioctl_reqbufs bo a release w').2.2
            (akvcam_node_device_num b) = some device' ∧
          (akvcam_ioctl_reqbufs bo b req (akvcam_ioctl_reqbufs bo a release w').2.2).1
            = (bo.akvcam_buffers_allocate (akvcam_device_buffers_nr device') req).1) := by
  obtain ⟨d1, hd1, hc1⟩ := akvcam_ioctl_reqbufs_grant bo a request w hok hcount
  rw [← hsame] at hd1
  refine ⟨fun bo' req => akvcam_ioctl_reqbufs_busy bo' b a req _ d1 hd1 hc1 hid,
    fun fo' bo' buffers => akvcam_ioctl_create_bufs_busy fo' bo' b a buffers _ d1 hd1 hc1 hid,
    ?_⟩
  intro w' release hok' hzero req
  obtain ⟨d2, hd2, hc2⟩ := akvcam_ioctl_reqbufs_release bo a release w' hok' hzero
  rw [← hsame] at hd2
  exact ⟨d2, hd2, akvcam_ioctl_reqbufs_free bo b req _ d2 hd2 hc2⟩

theorem controlling_node_exclusive_witness :
    (akvcam_node_device_num sample_node_b = akvcam_node_device_num sample_node_a ∧
      akvcam_node_id sample_node_b ≠ akvcam_node_id sample_node_a ∧
      0 ≤ (akvcam_ioctl_reqbufs sample_buffers sample_node_a ⟨4, 1, 1⟩ sample_world).1 ∧
      (akvcam_ioctl_reqbufs sample_buffers sample_node_a ⟨4, 1, 1⟩ sample_world).2.1.count
        ≠ 0) ∧
    akvcam_ioctl_reqbufs sample_buffers sample_node_b ⟨2, 1, 1⟩
        (akvcam_ioctl_reqbufs sample_buffers sample_node_a ⟨4, 1, 1⟩ sample_world).2.2
      = (-EBUSY, ⟨2, 1, 1⟩,
          (akvcam_ioctl_reqbufs sample_buffers sample_node_a ⟨4, 1, 1⟩ sample_world).2.2) ∧
    (akvcam_ioctl_reqbufs sample_buffers sample_node_b ⟨2, 1, 1⟩
        (akvcam_ioctl_reqbufs sample_buffers sample_node_a ⟨0, 1, 1⟩
          (akvcam_ioctl_reqbufs sample_buffers sample_node_a ⟨4, 1, 1⟩
            sample_world).2.2).2.2).1 = 0 :=
  ⟨⟨rfl, by decide, by decide, by decide⟩,
   (controlling_node_exclusive sample_buffers sample_node_a sample_node_b ⟨4, 1, 1⟩
      sample_world rfl (by decide) (by decide) (by decide)).1 sample_buffers ⟨2, 1, 1⟩,
   by decide⟩

end Allocation

/-! ## Theorems: controlling node -/

section ControllingNode

variable {B C E : Type}

theorem akvcam_ioctl_reqbufs_transition (bo : Buffers B) (blocking : B → Bool)
    (node : akvcam_node) (w : World B C E) (device : akvcam_device B C)
    (hdev : akvcam_driver_device_from_num_nr w (akvcam_node_device_num node) = some device)
    (hset : ∀ b v, blocking (bo.akvcam_buffers_set_blocking b v) = v)
    (halloc : ∀ b r, blocking (bo.akvcam_buffers_allocate b r).2.1 = blocking b)
    (request : v4l2_requestbuffers) :
    ∃ device', akvcam_driver_device_from_num_nr (akvcam_ioctl_reqbufs bo node request w).2.2
        (akvcam_node_device_num node) = some device' ∧
      (0 ≤ (akvcam_ioctl_reqbufs bo node request w).1 →
        (akvcam_ioctl_reqbufs bo node request w).2.1.count ≠ 0 →
        akvcam_device_controlling_node device' = some node ∧
        blocking (akvcam_device_buffers_nr device') = akvcam_node_blocking node) ∧
      (0 ≤ (akvcam_ioctl_reqbufs bo node request w).1 →
        (akvcam_ioctl_reqbufs bo node request w).2.1.count = 0 →
        akvcam_device_controlling_node device' = none ∧
        blocking (akvcam_device_buffers_nr device') = false) ∧
      ((akvcam_ioctl_reqbufs bo node request w).1 < 0 →
        akvcam_device_controlling_node device' = akvcam_device_controlling_node device ∧
        blocking (akvcam_device_buffers_nr device')
          = blocking (akvcam_device_buffers_nr device)) := by
  cases hb : (match akvcam_device_controlling_node device with
        | some cn => decide (akvcam_node_id node ≠ akvcam_node_id cn)
        | none => false) with
  | false =>
    by_cases hr : 0 ≤ (bo.akvcam_buffers_allocate (akvcam_device_buffers_nr device) request).1
    · by_cases hc : (bo.akvcam_buffers_allocate (akvcam_device_buffers_nr device)
          request).2.2.count = 0
      · unfold akvcam_ioctl_reqbufs
        simp only [hdev, hb, ge_iff_le, hr, hc, if_true, if_false, ne_eq, not_true_eq_false,
          not_false_eq_true, Bool.false_eq_true, World.store_lookup]
        refine ⟨_, rfl, fun _ h => h.elim, fun _ _ => ⟨rfl, hset _ _⟩,
          fun h => absurd hr (not_le.mpr h)⟩
      · unfold akvcam_ioctl_reqbufs
        simp only [hdev, hb, ge_iff_le, hr, hc, if_true, if_false, ne_eq, not_true_eq_false,
          not_false_eq_true, Bool.false_eq_true, World.store_lookup]
        refine ⟨_, rfl, fun _ _ => ⟨rfl, hset _ _⟩, fun _ h => h.elim,
          fun h => absurd hr (not_le.mpr h)⟩
    · unfold akvcam_ioctl_reqbufs
      simp only [hdev, hb, ge_iff_le, hr, if_false, Bool.false_eq_true, World.store_lookup]
      refine ⟨_, rfl, fun h => h.elim, fun h => h.elim, fun _ => ⟨rfl, halloc _ _⟩⟩
  | true =>
    unfold akvcam_ioctl_reqbufs
    simp only [hdev, hb, if_true]
    refine ⟨device, rfl, fun h => ?_, fun h => ?_, fun _ => ⟨rfl, rfl⟩⟩
    · simp [EBUSY] at h
    · simp [EBUSY] at h

theorem akvcam_ioctl_create_bufs_transition (fo : Formats) (bo : Buffers B)
    (blocking : B → Bool) (node : akvcam_node) (w : World B C E) (device : akvcam_device B C)
    (hdev : akvcam_driver_device_from_num_nr w (akvcam_node_device_num node) = some device)
    (hset : ∀ b v, blocking (bo.akvcam_buffers_set_blocking b v) = v)
    (hcreate : ∀ b r f, blocking (bo.akvcam_buffers_create b r f).2.1 = blocking b)
    (buffers : v4l2_create_buffers) :
    ∃ device', akvcam_driver_device_from_num_nr
        (akvcam_ioctl_create_bufs fo bo node buffers w).2.2
        (akvcam_node_device_num node) = some device' ∧
      (0 ≤ (akvcam_ioctl_create_bufs fo bo node buffers w).1 →
        (akvcam_ioctl_create_bufs fo bo node buffers w).2.1.count ≠ 0 →
        akvcam_device_controlling_node device' = some node ∧
        blocking (akvcam_device_buffers_nr device') = akvcam_node_blocking node) ∧
      (0 ≤ (akvcam_ioctl_create_bufs fo bo node buffers w).1 →
        (akvcam_ioctl_create_bufs fo bo node buffers w).2.1.count = 0 →
        akvcam_device_controlling_node device' = none ∧
        blocking (akvcam_device_buffers_nr device') = false) ∧
      ((akvcam_ioctl_create_bufs fo bo node buffers w).1 < 0 →
        akvcam_device_controlling_node device' = akvcam_device_controlling_node device ∧
        blocking (akvcam_device_buffers_nr device')
          = blocking (akvcam_device_buffers_nr device)) := by
  cases hb : (match akvcam_device_controlling_node device with
        | some cn => decide (akvcam_node_id node ≠ akvcam_node_id cn)
        | none => false) with
  | false =>
    cases hf : fo.akvcam_format_from_v4l2 (akvcam_device_formats device) buffers.format with
    | none =>
      unfold akvcam_ioctl_create_bufs
      simp only [hdev, hb, hf, if_false, Bool.false_eq_true]
      refine ⟨device, rfl, fun h => ?_, fun h => ?_, fun _ => ⟨rfl, rfl⟩⟩
      · simp [EINVAL] at h
      · simp [EINVAL] at h
    | some format =>
      by_cases hr : 0 ≤ (bo.akvcam_buffers_create (akvcam_device_buffers_nr device) buffers
          format).1
      · by_cases hc : (bo.akvcam_buffers_create (akvcam_device_buffers_nr device) buffers
            format).2.2.count = 0
        · unfold akvcam_ioctl_create_bufs
          simp only [hdev, hb, hf, ge_iff_le, hr, hc, if_true, if_false, ne_eq,
            not_true_eq_false, not_false_eq_true, Bool.false_eq_true, World.store_lookup]
          refine ⟨_, rfl, fun _ h => h.elim, fun _ _ => ⟨rfl, hset _ _⟩,
            fun h => absurd hr (not_le.mpr h)⟩
        · unfold akvcam_ioctl_create_bufs
          simp only [hdev, hb, hf, ge_iff_le, hr, hc, if_true, if_false, ne_eq,
            not_true_eq_false, not_false_eq_true, Bool.false_eq_true, World.store_lookup]
          refine ⟨_, rfl, fun _ _ => ⟨rfl, hset _ _⟩, fun _ h => h.elim,
            fun h => absurd hr (not_le.mpr h)⟩
      · unfold akvcam_ioctl_create_bufs
        simp only [hdev, hb, hf, ge_iff_le, hr, if_false, Bool.false_eq_true,
          World.store_lookup]
        refine ⟨_, rfl, fun h => h.elim, fun h => h.elim, fun _ => ⟨rfl, hcreate _ _ _⟩⟩
  | true =>
    unfold akvcam_ioctl_create_bufs
    simp only [hdev, hb, if_true]
    refine ⟨device, rfl, fun h => ?_, fun h => ?_, fun _ => ⟨rfl, rfl⟩⟩
    · simp [EBUSY] at h
    · simp [EBUSY] at h

theorem akvcam_ioctl_reqbufs_result (bo : Buffers B) (node : akvcam_node)
    (request : v4l2_requestbuffers) (w : World B C E) (device : akvcam_device B C)
    (hdev : akvcam_driver_device_from_num_nr w (akvcam_node_device_num node) = some device)
    (hfree : ∀ cn, akvcam_device_controlling_node device = some cn →
      akvcam_node_id node = akvcam_node_id cn) :
    (akvcam_ioctl_reqbufs bo node request w).1
      = (bo.akvcam_buffers_allocate (akvcam_device_buffers_nr device) request).1 ∧
    (akvcam_ioctl_reqbufs bo node request w).2.1
      = (bo.akvcam_buffers_allocate (akvcam_device_buffers_nr device) request).2.2 := by
  have hb : (match akvcam_device_controlling_node device with
        | some cn => decide (akvcam_node_id node ≠ akvcam_node_id cn)
        | none => false) = false := by
    cases hcn : akvcam_device_controlling_node device with
    | none => rfl
    | some cn => simp [hfree cn hcn]
  unfold akvcam_ioctl_reqbufs
  simp only [hdev, hb, Bool.false_eq_true, if_false]
  repeat' split
  all_goals exact ⟨rfl, rfl⟩

theorem akvcam_ioctl_create_bufs_result (fo : Formats) (bo : Buffers B) (node : akvcam_node)
    (buffers : v4l2_create_buffers) (w : World B C E) (device : akvcam_device B C)
    (hdev : akvcam_driver_device_from_num_nr w (akvcam_node_device_num node) = some device)
    (hfree : ∀ cn, akvcam_device_controlling_node device = some cn →
      akvcam_node_id node = akvcam_node_id cn) :
    (fo.akvcam_format_from_v4l2 (akvcam_device_formats device) buffers.format = none →
      akvcam_ioctl_create_bufs fo bo node buffers w = (-EINVAL, buffers, w)) ∧
    (∀ format : akvcam_format,
      fo.akvcam_format_from_v4l2 (akvcam_device_formats device) buffers.format = some format →
      (akvcam_ioctl_create_bufs fo bo node buffers w).1
        = (bo.akvcam_buffers_create (akvcam_device_buffers_nr device) buffers format).1 ∧
      (akvcam_ioctl_create_bufs fo bo node buffers w).2.1
        = (bo.akvcam_buffers_create (akvcam_device_buffers_nr device) buffers format).2.2) := by
  have hb : (match akvcam_device_controlling_node device with
        | some cn => decide (akvcam_node_id node ≠ akvcam_node_id cn)
        | none => false) = false := by
    cases hcn : akvcam_device_controlling_node device with
    | none => rfl
    | some cn => simp [hfree cn hcn]
  constructor
  · intro hf
    unfold akvcam_ioctl_create_bufs
    simp only [hdev, hb, hf, Bool.false_eq_true, if_false]
  · intro format hf
    unfold akvcam_ioctl_create_bufs
    simp only [hdev, hb, hf, Bool.false_eq_true, if_false]
    repeat' split
    all_goals exact ⟨rfl, rfl⟩

/-- C11: let `blocking` read the blocking mode of a pool, which
`akvcam_buffers_set_blocking` sets and the Buffers operations leave alone. On an
existing device, `akvcam_ioctl_reqbufs` by a node other than the controlling node
returns `-EBUSY` and changes nothing; otherwise it returns the result of
`akvcam_buffers_allocate` on the device's pool and the request, with the request
as that operation leaves it. `akvcam_ioctl_create_bufs` by a node other than the
controlling node returns `-EBUSY` and changes nothing; otherwise it returns
`-EINVAL` and changes nothing when Formats gives no format for the request, and
else the result of `akvcam_buffers_create` on the device's pool, the request and
that format, with the request as that operation leaves it. After either handler:
if the result is not negative and the resulting count is not zero, the calling
node is the controlling node and the blocking mode is the caller's blocking flag;
if the result is not negative and the resulting count is zero, there is no
controlling node and the blocking mode is off; if the result is negative, the
controlling node and the blocking mode are as before. -/
theorem controlling_node_transition (fo : Formats) (bo : Buffers B) (blocking : B → Bool)
    (node : akvcam_node) (w : World B C E) (device : akvcam_device B C)
    (hdev : akvcam_driver_device_from_num_nr w (akvcam_node_device_num node) = some device)
    (hset : ∀ b v, blocking (bo.akvcam_buffers_set_blocking b v) = v)
    (halloc : ∀ b r, blocking (bo.akvcam_buffers_allocate b r).2.1 = blocking b)
    (hcreate : ∀ b r f, blocking (bo.akvcam_buffers_create b r f).2.1 = blocking b) :
    (∀ request : v4l2_requestbuffers,
      (∀ cn, akvcam_device_controlling_node device = some cn →
        akvcam_node_id node ≠ akvcam_node_id cn →
        akvcam_ioctl_reqbufs bo node request w = (-EBUSY, request, w)) ∧
      ((∀ cn, akvcam_device_controlling_node device = some cn →
          akvcam_node_id node = akvcam_node_id cn) →
        (akvcam_ioctl_reqbufs bo node request w).1
          = (bo.akvcam_buffers_allocate (akvcam_device_buffers_nr device) request).1 ∧
        (akvcam_ioctl_reqbufs bo node request w).2.1
          = (bo.akvcam_buffers_allocate (akvcam_device_buffers_nr device) request).2.2) ∧
      ∃ device', akvcam_driver_device_from_num_nr (akvcam_ioctl_reqbufs bo node request w).2.2
          (akvcam_node_device_num node) = some device' ∧
        (0 ≤ (akvcam_ioctl_reqbufs bo node request w).1 →
          (akvcam_ioctl_reqbufs bo node request w).2.1.count ≠ 0 →
          akvcam_device_controlling_node device' = some node ∧
          blocking (akvcam_device_buffers_nr device') = akvcam_node_blocking node) ∧
        (0 ≤ (akvcam_ioctl_reqbufs bo node request w).1 →
          (akvcam_ioctl_reqbufs bo node request w).2.1.count = 0 →
          akvcam_device_controlling_node device' = none ∧
          blocking (akvcam_device_buffers_nr device') = false) ∧
        ((akvcam_ioctl_reqbufs bo node request w).1 < 0 →
          akvcam_device_controlling_node device' = akvcam_device_controlling_node device ∧
          blocking (akvcam_device_buffers_nr device')
            = blocking (akvcam_device_buffers_nr device))) ∧
    (∀ buffers : v4l2_create_buffers,
      (∀ cn, akvcam_device_controlling_node device = some cn →
        akvcam_node_id node ≠ akvcam_node_id cn →
        akvcam_ioctl_create_bufs fo bo node buffers w = (-EBUSY, buffers, w)) ∧
      ((∀ cn, akvcam_device_controlling_node device = some cn →
          akvcam_node_id node = akvcam_node_id cn) →
        (fo.akvcam_format_from_v4l2 (akvcam_device_formats device) buffers.format = none →
          akvcam_ioctl_create_bufs fo bo node buffers w = (-EINVAL, buffers, w)) ∧
        (∀ format : akvcam_format,
          fo.akvcam_format_from_v4l2 (akvcam_device_formats device) buffers.format
            = some format →
          (akvcam_ioctl_create_bufs fo bo node buffers w).1
            = (bo.akvcam_buffers_create (akvcam_device_buffers_nr device) buffers format).1 ∧
          (akvcam_ioctl_create_bufs fo bo node buffers w).2.1
            = (bo.akvcam_buffers_create (akvcam_device_buffers_nr device) buffers
                format).2.2)) ∧
      ∃ device', akvcam_driver_device_from_num_nr
          (akvcam_ioctl_create_bufs fo bo node buffers w).2.2
          (akvcam_node_device_num node) = some device' ∧
        (0 ≤ (akvcam_ioctl_create_bufs fo bo node buffers w).1 →
          (akvcam_ioctl_create_bufs fo bo node buffers w).2.1.count ≠ 0 →
          akvcam_device_controlling_node device' = some node ∧
          blocking (akvcam_device_buffers_nr device') = akvcam_node_blocking node) ∧
        (0 ≤ (akvcam_ioctl_create_bufs fo bo node buffers w).1 →
          (akvcam_ioctl_create_bufs fo bo node buffers w).2.1.count = 0 →
          akvcam_device_controlling_node device' = none ∧
          blocking (akvcam_device_buffers_nr device') = false) ∧
        ((akvcam_ioctl_create_bufs fo bo node buffers w).1 < 0 →
          akvcam_device_controlling_node device' = akvcam_device_controlling_node device ∧
          blocking (akvcam_device_buffers_nr device')
            = blocking (akvcam_device_buffers_nr device))) :=
  ⟨fun request =>
    ⟨fun cn hcn hid => akvcam_ioctl_reqbufs_busy bo node cn request w device hdev hcn hid,
     akvcam_ioctl_reqbufs_result bo node request w device hdev,
     akvcam_ioctl_reqbufs_transition bo blocking node w device hdev hset halloc request⟩,
   fun buffers =>
    ⟨fun cn hcn hid => akvcam_ioctl_create_bufs_busy fo bo node cn buffers w device hdev hcn hid,
     akvcam_ioctl_create_bufs_result fo bo node buffers w device hdev,
     akvcam_ioctl_create_bufs_transition fo bo blocking node w device hdev hset hcreate
       buffers⟩⟩

/-- C11 witness: on the sample device, which no node controls, the sample Buffers
grant every request. `akvcam_ioctl_reqbufs` by node 1 for 4 buffers returns what
`akvcam_buffers_allocate` returns, 0, and node 1, which is blocking, becomes the
controlling node with the blocking mode on. `akvcam_ioctl_create_bufs` by node 1
for 2 buffers returns what `akvcam_buffers_create` returns, 0, with the same
effect, and for 0 buffers it leaves no controlling node and the blocking mode
off. After the grant to node 1, `akvcam_ioctl_create_bufs` by node 2 returns
`-EBUSY` and node 1 stays the controlling node. -/
theorem controlling_node_transition_witness :
    (akvcam_driver_device_from_num_nr sample_world (akvcam_node_device_num sample_node_a)
        = some sample_device ∧
      (∀ b v, (sample_buffers.akvcam_buffers_set_blocking b v).blocking = v) ∧
      (∀ b r, (sample_buffers.akvcam_buffers_allocate b r).2.1.blocking = b.blocking) ∧
      (∀ b r f, (sample_buffers.akvcam_buffers_create b r f).2.1.blocking = b.blocking)) ∧
    ((akvcam_ioctl_reqbufs sample_buffers sample_node_a ⟨4, 1, 1⟩ sample_world).1
        = (sample_buffers.akvcam_buffers_allocate (akvcam_device_buffers_nr sample_device)
            ⟨4, 1, 1⟩).1 ∧
      ∃ device', akvcam_driver_device_from_num_nr
          (akvcam_ioctl_reqbufs sample_buffers sample_node_a ⟨4, 1, 1⟩ sample_world).2.2
          (akvcam_node_device_num sample_node_a) = some device' ∧
        akvcam_device_controlling_node device' = some sample_node_a ∧
        (akvcam_device_buffers_nr device').blocking = true) ∧
    ((akvcam_ioctl_create_bufs sample_formats sample_buffers sample_node_a
          ⟨0, 2, 1, sample_request_800x600⟩ sample_world).1
        = (sample_buffers.akvcam_buffers_create (akvcam_device_buffers_nr sample_device)
            ⟨0, 2, 1, sample_request_800x600⟩ ⟨V4L2_PIX_FMT_YUYV, 640, 480, ⟨30, 1⟩⟩).1 ∧
      ∃ device', akvcam_driver_device_from_num_nr
          (akvcam_ioctl_create_bufs sample_formats sample_buffers sample_node_a
            ⟨0, 2, 1, sample_request_800x600⟩ sample_world).2.2
          (akvcam_node_device_num sample_node_a) = some device' ∧
        akvcam_device_controlling_node device' = some sample_node_a ∧
        (akvcam_device_buffers_nr device').blocking = true) ∧
    ((akvcam_ioctl_create_bufs sample_formats sample_buffers sample_node_a
        ⟨0, 2, 1, sample_request_800x600⟩ sample_world).1 = 0 ∧
      ((akvcam_ioctl_create_bufs sample_formats sample_buffers sample_node_a
        ⟨0, 0, 1, sample_request_800x600⟩ sample_world).2.2.devices 0).map
          (fun d => (d.controlling_node, d.buffers.blocking)) = some (none, false) ∧
      (akvcam_ioctl_create_bufs sample_formats sample_buffers sample_node_b
        ⟨0, 2, 1, sample_request_800x600⟩
        (akvcam_ioctl_create_bufs sample_formats sample_buffers sample_node_a
          ⟨0, 2, 1, sample_request_800x600⟩ sample_world).2.2).1 = -EBUSY ∧
      ((akvcam_ioctl_create_bufs sample_formats sample_buffers sample_node_b
        ⟨0, 2, 1, sample_request_800x600⟩
        (akvcam_ioctl_create_bufs sample_formats sample_buffers sample_node_a
          ⟨0, 2, 1, sample_request_800x600⟩ sample_world).2.2).2.2.devices 0).map
          (fun d => (d.controlling_node, d.buffers.blocking))
        = some (some sample_node_a, true)) := by
  have h := controlling_node_transition sample_formats sample_buffers
    (fun b => b.blocking) sample_node_a sample_world sample_device rfl
    (fun _ _ => rfl) (fun _ _ => rfl) (fun _ _ _ => rfl)
  obtain ⟨_, hr, d, hd, h1, _, _⟩ := h.1 ⟨4, 1, 1⟩
  obtain ⟨_, hc, d2, hd2, h2, _, _⟩ := h.2 ⟨0, 2, 1, sample_request_800x600⟩
  refine ⟨⟨rfl, fun _ _ => rfl, fun _ _ => rfl, fun _ _ _ => rfl⟩,
    ⟨(hr (fun cn hcn => by cases hcn)).1, d, hd, h1 (by decide) (by decide)⟩,
    ⟨((hc (fun cn hcn => by cases hcn)).2 ⟨V4L2_PIX_FMT_YUYV, 640, 480, ⟨30, 1⟩⟩
        (by decide)).1, d2, hd2, h2 (by decide) (by decide)⟩,
    by decide, by decide, by decide, by decide⟩

end ControllingNode

/-! ## Theorems: priority -/

section Priority

variable {B C E : Type}

theorem akvcam_ioctl_s_priority_held (node pn : akvcam_node) (priority : Nat)
    (w : World B C E) (device : akvcam_device B C)
    (hdev : akvcam_driver_device_from_num_nr w (akvcam_node_device_num node) = some device)
    (hpn : akvcam_device_priority_node device = some pn) (hne : pn ≠ node) :
    akvcam_ioctl_s_priority node priority w = (-EINVAL, priority, w) := by
  simp [akvcam_ioctl_s_priority, hdev, hpn, hne]

theorem akvcam_ioctl_s_priority_free (node : akvcam_node) (priority : Nat)
    (w : World B C E) (device : akvcam_device B C)
    (hdev : akvcam_driver_device_from_num_nr w (akvcam_node_device_num node) = some device)
    (hpn : akvcam_device_priority_node device = none
      ∨ akvcam_device_priority_node device = some node) :
    akvcam_ioctl_s_priority node priority w
      = (0, priority, w.store (akvcam_node_device_num node)
          (akvcam_device_set_priority device priority
            (if priority = V4L2_PRIORITY_DEFAULT then none else some node))) := by
  rcases hpn with hpn | hpn
  · by_cases hp : priority = V4L2_PRIORITY_DEFAULT
    · simp [akvcam_ioctl_s_priority, hdev, hpn, hp]
    · simp [akvcam_ioctl_s_priority, hdev, hpn, hp]
  · by_cases hp : priority = V4L2_PRIORITY_DEFAULT
    · simp [akvcam_ioctl_s_priority, hdev, hpn, hp]
    · simp [akvcam_ioctl_s_priority, hdev, hpn, hp]

theorem akvcam_ioctl_s_priority_cases (node : akvcam_node) (priority : Nat)
    (w : World B C E) :
    (akvcam_driver_device_from_num_nr w (akvcam_node_device_num node) = none ∧
      akvcam_ioctl_s_priority node priority w = (- EIO, priority, w)) ∨
    (∃ device pn, akvcam_driver_device_from_num_nr w (akvcam_node_device_num node)
        = some device ∧ akvcam_device_priority_node device = some pn ∧ pn ≠ node ∧
      akvcam_ioctl_s_priority node priority w = (-EINVAL, priority, w)) ∨
    (∃ device, akvcam_driver_device_from_num_nr w (akvcam_node_device_num node)
        = some device ∧
      (akvcam_device_priority_node device = none
        ∨ akvcam_device_priority_node device = some node) ∧
      akvcam_ioctl_s_priority node priority w
        = (0, priority, w.store (akvcam_node_device_num node)
            (akvcam_device_set_priority device priority
              (if priority = V4L2_PRIORITY_DEFAULT then none else some node)))) := by
  cases hdev : akvcam_driver_device_from_num_nr w (akvcam_node_device_num node) with
  | none =>
    left
    exact ⟨rfl, by simp [akvcam_ioctl_s_priority, hdev]⟩
  | some device =>
    right
    cases hpn : akvcam_device_priority_node device with
    | none =>
      right
      exact ⟨device, rfl, Or.inl hpn,
        akvcam_ioctl_s_priority_free node priority w device hdev (Or.inl hpn)⟩
    | some pn =>
      by_cases hne : pn = node
      · right
        subst hne
        exact ⟨device, rfl, Or.inr hpn,
          akvcam_ioctl_s_priority_free pn priority w device hdev (Or.inr hpn)⟩
      · left
        exact ⟨device, pn, rfl, hpn, hne,
          akvcam_ioctl_s_priority_held node pn priority w device hdev hpn hne⟩

theorem akvcam_ioctl_g_priority_eq (node : akvcam_node) (priority : Nat) (w : World B C E)
    (device : akvcam_device B C)
    (hdev : akvcam_driver_device_from_num_nr w (akvcam_node_device_num node) = some device) :
    akvcam_ioctl_g_priority node priority w = (0, akvcam_device_priority device, w) := by
  simp [akvcam_ioctl_g_priority, hdev]

/-- C12: let `a` and `b` be two distinct nodes of the same device and let
`akvcam_ioctl_s_priority` by `a` with a level other than DEFAULT have succeeded.
Then every `akvcam_ioctl_s_priority` by `b`, with any level, returns `-EINVAL` and
leaves the driver state as it is, and `akvcam_ioctl_g_priority` by `b` returns 0
and the level of `a`. After that `akvcam_ioctl_s_priority` by `a` with DEFAULT
succeeds, and in the state it leaves every `akvcam_ioctl_s_priority` by `b`
succeeds. -/
theorem priority_mutual_exclusion (a b : akvcam_node) (level : Nat) (w : World B C E)
    (hab : a ≠ b) (hsame : akvcam_node_device_num b = akvcam_node_device_num a)
    (hlevel : level ≠ V4L2_PRIORITY_DEFAULT)
    (hok : (akvcam_ioctl_s_priority a level w).1 = 0) :
    (∀ l : Nat,
      akvcam_ioctl_s_priority b l (akvcam_ioctl_s_priority a level w).2.2
        = (-EINVAL, l, (akvcam_ioctl_s_priority a level w).2.2)) ∧
    (∀ p : Nat,
      akvcam_ioctl_g_priority b p (akvcam_ioctl_s_priority a level w).2.2
        = (0, level, (akvcam_ioctl_s_priority a level w).2.2)) ∧
    (akvcam_ioctl_s_priority a V4L2_PRIORITY_DEFAULT
        (akvcam_ioctl_s_priority a level w).2.2).1 = 0 ∧
    (∀ l : Nat,
      (akvcam_ioctl_s_priority b l
        (akvcam_ioctl_s_priority a V4L2_PRIORITY_DEFAULT
          (akvcam_ioctl_s_priority a level w).2.2).2.2).1 = 0) := by
  rcases akvcam_ioctl_s_priority_cases a level w with ⟨_, h⟩ | ⟨_, _, _, _, _, h⟩ | ⟨d, hd, hpn, h⟩
  · rw [h] at hok
    simp [ EIO] at hok
  · rw [h] at hok
    simp [EINVAL] at hok
  · rw [h]
    simp only [hlevel, if_false]
    have hd1 := World.store_lookup w (akvcam_node_device_num a)
      (akvcam_device_set_priority d level (some a))
    have hd1b : akvcam_driver_device_from_num_nr
        (w.store (akvcam_node_device_num a) (akvcam_device_set_priority d level (some a)))
        (akvcam_node_device_num b) = some (akvcam_device_set_priority d level (some a)) := by
      rw [hsame]
      exact hd1
    refine ⟨fun l => akvcam_ioctl_s_priority_held b a l _ _ hd1b rfl hab, fun p => ?_, ?_, ?_⟩
    · rw [akvcam_ioctl_g_priority_eq b p _ _ hd1b]
      rfl
    · rw [akvcam_ioctl_s_priority_free a V4L2_PRIORITY_DEFAULT _ _ hd1 (Or.inr rfl)]
    · intro l
      rw [akvcam_ioctl_s_priority_free a V4L2_PRIORITY_DEFAULT _ _ hd1 (Or.inr rfl)]
      simp only [if_true]
      have hd2 : akvcam_driver_device_from_num_nr
          ((w.store (akvcam_node_device_num a)
            (akvcam_device_set_priority d level (some a))).store (akvcam_node_device_num a)
            (akvcam_device_set_priority (akvcam_device_set_priority d level (some a))
              V4L2_PRIORITY_DEFAULT none))
          (akvcam_node_device_num b)
          = some (akvcam_device_set_priority (akvcam_device_set_priority d level (some a))
              V4L2_PRIORITY_DEFAULT none) := by
        rw [hsame]
        exact World.store_lookup _ _ _
      rw [akvcam_ioctl_s_priority_free b l _ _ hd2 (Or.inl rfl)]

theorem priority_mutual_exclusion_witness :
    (sample_node_a ≠ sample_node_b ∧
      akvcam_node_device_num sample_node_b = akvcam_node_device_num sample_node_a ∧
      (3 : Nat) ≠ V4L2_PRIORITY_DEFAULT ∧
      (akvcam_ioctl_s_priority sample_node_a 3 sample_world).1 = 0) ∧
    akvcam_ioctl_s_priority sample_node_b 1
        (akvcam_ioctl_s_priority sample_node_a 3 sample_world).2.2
      = (-EINVAL, 1, (akvcam_ioctl_s_priority sample_node_a 3 sample_world).2.2) ∧
    akvcam_ioctl_g_priority sample_node_b 0
        (akvcam_ioctl_s_priority sample_node_a 3 sample_world).2.2
      = (0, 3, (akvcam_ioctl_s_priority sample_node_a 3 sample_world).2.2) :=
  ⟨⟨by decide, rfl, by decide, by decide⟩,
   (priority_mutual_exclusion sample_node_a sample_node_b 3 sample_world (by decide) rfl
      (by decide) (by decide)).1 1,
   (priority_mutual_exclusion sample_node_a sample_node_b 3 sample_world (by decide) rfl
      (by decide) (by decide)).2.1 0⟩

theorem akvcam_ioctl_s_priority_invariant (node : akvcam_node) (priority : Nat)
    (w : World B C E) (n : Int) (device : akvcam_device B C)
    (hdev : akvcam_driver_device_from_num_nr w n = some device)
    (hinv : (akvcam_device_priority_node device).isSome = true
      ↔ akvcam_device_priority device ≠ V4L2_PRIORITY_DEFAULT) :
    ∃ device', akvcam_driver_device_from_num_nr (akvcam_ioctl_s_priority node priority w).2.2 n
        = some device' ∧
      ((akvcam_device_priority_node device').isSome = true
        ↔ akvcam_device_priority device' ≠ V4L2_PRIORITY_DEFAULT) := by
  rcases akvcam_ioctl_s_priority_cases node priority w with
    ⟨_, h⟩ | ⟨_, _, _, _, _, h⟩ | ⟨d, hd, _, h⟩
  · rw [h]
    exact ⟨device, hdev, hinv⟩
  · rw [h]
    exact ⟨device, hdev, hinv⟩
  · rw [h]
    by_cases hn : n = akvcam_node_device_num node
    · subst hn
      refine ⟨_, World.store_lookup _ _ _, ?_⟩
      by_cases hp : priority = V4L2_PRIORITY_DEFAULT
      · simp [akvcam_device_set_priority, akvcam_device_priority_node, akvcam_device_priority, hp]
      · simp [akvcam_device_set_priority, akvcam_device_priority_node, akvcam_device_priority, hp]
    · refine ⟨device, ?_, hinv⟩
      simpa [akvcam_driver_device_from_num_nr, World.store, hn] using hdev

theorem akvcam_ioctl_s_priority_run_invariant (calls : List (akvcam_node × Nat)) (n : Int) :
    ∀ (w : World B C E) (device : akvcam_device B C),
      akvcam_driver_device_from_num_nr w n = some device →
      ((akvcam_device_priority_node device).isSome = true
        ↔ akvcam_device_priority device ≠ V4L2_PRIORITY_DEFAULT) →
      ∃ device', akvcam_driver_device_from_num_nr (akvcam_ioctl_s_priority_run calls w) n
          = some device' ∧
        ((akvcam_device_priority_node device').isSome = true
          ↔ akvcam_device_priority device' ≠ V4L2_PRIORITY_DEFAULT) := by
  induction calls with
  | nil =>
    intro w device hdev hinv
    exact ⟨device, hdev, hinv⟩
  | cons call rest ih =>
    intro w device hdev hinv
    obtain ⟨d1, hd1, hinv1⟩ :=
      akvcam_ioctl_s_priority_invariant call.1 call.2 w n device hdev hinv
    exact ih _ d1 hd1 hinv1

/-- C13: start from a device whose priority level is DEFAULT and that has no
priority holder. After any sequence of `akvcam_ioctl_s_priority` calls, by any
nodes and with any levels, the device is still there and it has a priority
holder if and only if its level is not DEFAULT; the holder is one node at most. -/
theorem priority_invariant (calls : List (akvcam_node × Nat)) (w : World B C E) (n : Int)
    (device : akvcam_device B C)
    (hdev : akvcam_driver_device_from_num_nr w n = some device)
    (hlevel : akvcam_device_priority device = V4L2_PRIORITY_DEFAULT)
    (hnone : akvcam_device_priority_node device = none) :
    ∃ device', akvcam_driver_device_from_num_nr (akvcam_ioctl_s_priority_run calls w) n
        = some device' ∧
      ((akvcam_device_priority_node device').isSome = true
        ↔ akvcam_device_priority device' ≠ V4L2_PRIORITY_DEFAULT) ∧
      (∀ h1 h2 : akvcam_node, akvcam_device_priority_node device' = some h1 →
        akvcam_device_priority_node device' = some h2 → h1 = h2) := by
  obtain ⟨d, hd, hinv⟩ := akvcam_ioctl_s_priority_run_invariant calls n w device hdev
    (by simp [hlevel, hnone])
  exact ⟨d, hd, hinv, fun h1 h2 e1 e2 => Option.some.inj (e1.symm.trans e2)⟩

theorem priority_invariant_witness :
    (akvcam_driver_device_from_num_nr sample_world 0 = some sample_device ∧
      akvcam_device_priority sample_device = V4L2_PRIORITY_DEFAULT ∧
      akvcam_device_priority_node sample_device = none) ∧
    ∃ device', akvcam_driver_device_from_num_nr
        (akvcam_ioctl_s_priority_run
          [(sample_node_a, 3), (sample_node_b, 1), (sample_node_a, V4L2_PRIORITY_DEFAULT),
            (sample_node_b, 1)] sample_world) 0 = some device' ∧
      ((akvcam_device_priority_node device').isSome = true
        ↔ akvcam_device_priority device' ≠ V4L2_PRIORITY_DEFAULT) ∧
      (∀ h1 h2 : akvcam_node, akvcam_device_priority_node device' = some h1 →
        akvcam_device_priority_node device' = some h2 → h1 = h2) :=
  ⟨⟨rfl, rfl, rfl⟩,
   priority_invariant
     [(sample_node_a, 3), (sample_node_b, 1), (sample_node_a, V4L2_PRIORITY_DEFAULT),
       (sample_node_b, 1)] sample_world 0 sample_device rfl rfl rfl⟩

end Priority

/-! ## Theorems: events -/

section EventHandlers

variable {B C E : Type}

/-- C14 (the code at the failing input): on an existing device in read/write mode
`akvcam_ioctl_subscribe_event` and `akvcam_ioctl_unsubscribe_event` return
`-ENOTTY` and leave the driver state as it is, but `akvcam_ioctl_dqevent` calls
`akvcam_events_dequeue` on the node's queue: it returns what that returns and
stores the queue that leaves. -/
theorem akvcam_ioctl_dqevent_rw_mode (co : Controls C) (eo : Events E) (node : akvcam_node)
    (w : World B C E) (device : akvcam_device B C)
    (hdev : akvcam_driver_device_from_num_nr w (akvcam_node_device_num node) = some device)
    (hrw : akvcam_device_rw_mode device &&& AKVCAM_RW_MODE_READWRITE ≠ 0) :
    (∀ event : v4l2_event_subscription,
      akvcam_ioctl_subscribe_event co eo node event w = (-ENOTTY, event, w)) ∧
    (∀ event : v4l2_event_subscription,
      akvcam_ioctl_unsubscribe_event eo node event w = (-ENOTTY, event, w)) ∧
    (∀ event : v4l2_event,
      akvcam_ioctl_dqevent eo node event w
        = ((eo.akvcam_events_dequeue (akvcam_node_events_nr w node) event).1,
           (eo.akvcam_events_dequeue (akvcam_node_events_nr w node) event).2.2,
           w.store_events node
             (eo.akvcam_events_dequeue (akvcam_node_events_nr w node) event).2.1)) := by
  refine ⟨fun event => ?_, fun event => ?_, fun event => ?_⟩
  · simp [akvcam_ioctl_subscribe_event, hdev, hrw]
  · simp [akvcam_ioctl_unsubscribe_event, hdev, hrw]
  · simp [akvcam_ioctl_dqevent, hdev]

theorem akvcam_ioctl_dqevent_rw_mode_witness :
    (akvcam_driver_device_from_num_nr (sample_world_controls 1)
        (akvcam_node_device_num sample_node_a) = some (sample_device_controls 1) ∧
      akvcam_device_rw_mode (sample_device_controls 1) &&& AKVCAM_RW_MODE_READWRITE ≠ 0) ∧
    (akvcam_ioctl_subscribe_event sample_controls sample_events sample_node_a
      ⟨V4L2_EVENT_CTRL, V4L2_CID_BRIGHTNESS, 0⟩ (sample_world_controls 1)).1 = -ENOTTY ∧
    (akvcam_ioctl_dqevent sample_events sample_node_a ⟨0, [], 0, 0, 0, 0⟩
      (sample_world_controls 1)).1 = -ENOENT ∧
    -ENOENT ≠ -ENOTTY :=
  ⟨⟨rfl, by decide⟩,
   congrArg Prod.fst ((akvcam_ioctl_dqevent_rw_mode sample_controls sample_events sample_node_a
      (sample_world_controls 1) (sample_device_controls 1) rfl (by decide)).1
      ⟨V4L2_EVENT_CTRL, V4L2_CID_BRIGHTNESS, 0⟩),
   congrArg Prod.fst ((akvcam_ioctl_dqevent_rw_mode sample_controls sample_events sample_node_a
      (sample_world_controls 1) (sample_device_controls 1) rfl (by decide)).2.2
      ⟨0, [], 0, 0, 0, 0⟩),
   by decide⟩

/-- C15 (the code at the failing input): on an existing device that is not in
read/write mode, a frame-sync subscription whose id is not in the device's
Controls set gets `-EINVAL` from `akvcam_ioctl_subscribe_event`, and the driver
state, the node's Events queue included, is left as it is. -/
theorem akvcam_ioctl_subscribe_event_frame_sync (co : Controls C) (eo : Events E)
    (node : akvcam_node) (event : v4l2_event_subscription) (w : World B C E)
    (device : akvcam_device B C)
    (hdev : akvcam_driver_device_from_num_nr w (akvcam_node_device_num node) = some device)
    (hrw : akvcam_device_rw_mode device &&& AKVCAM_RW_MODE_READWRITE = 0)
    (htype : event.type = V4L2_EVENT_FRAME_SYNC)
    (hid : co.akvcam_controls_contains (akvcam_device_controls_nr device) event.id = false) :
    akvcam_ioctl_subscribe_event co eo node event w = (-EINVAL, event, w) := by
  simp [akvcam_ioctl_subscribe_event, hdev, hrw, htype, hid]

theorem akvcam_ioctl_subscribe_event_frame_sync_witness :
    (akvcam_driver_device_from_num_nr (sample_world_controls 0)
        (akvcam_node_device_num sample_node_a) = some (sample_device_controls 0) ∧
      akvcam_device_rw_mode (sample_device_controls 0) &&& AKVCAM_RW_MODE_READWRITE = 0 ∧
      sample_controls.akvcam_controls_contains
        (akvcam_device_controls_nr (sample_device_controls 0)) 0 = false) ∧
    akvcam_ioctl_subscribe_event sample_controls sample_events sample_node_a
        ⟨V4L2_EVENT_FRAME_SYNC, 0, 0⟩ (sample_world_controls 0)
      = (-EINVAL, ⟨V4L2_EVENT_FRAME_SYNC, 0, 0⟩, sample_world_controls 0) :=
  ⟨⟨rfl, by decide, by decide⟩,
   akvcam_ioctl_subscribe_event_frame_sync sample_controls sample_events sample_node_a
     ⟨V4L2_EVENT_FRAME_SYNC, 0, 0⟩ (sample_world_controls 0) (sample_device_controls 0) rfl
     (by decide) rfl (by decide)⟩

end EventHandlers

/-! ## Theorems: streaming parameters -/

section StreamingParameters

variable {B C E : Type}

theorem akvcam_ioctl_s_parm_eq (fo : Formats) (bo : Buffers B) (node : akvcam_node)
    (param : v4l2_streamparm) (w : World B C E) (device : akvcam_device B C)
    (nf : akvcam_format)
    (hdev : akvcam_driver_device_from_num_nr w (akvcam_node_device_num node) = some device)
    (htype : param.type = akvcam_device_v4l2_type device)
    (hn : fo.akvcam_format_nearest (akvcam_device_formats device)
      { akvcam_device_format device with
        frame_rate := ⟨param.parm.timeperframe.denominator, param.parm.timeperframe.numerator⟩ }
      = some nf) :
    akvcam_ioctl_s_parm fo bo node param w
      = if akvcam_device_rw_mode device &&& AKVCAM_RW_MODE_READWRITE ≠ 0 then
          if (if param.type = V4L2_BUF_TYPE_VIDEO_OUTPUT
                ∨ param.type = V4L2_BUF_TYPE_VIDEO_OUTPUT_MPLANE then 0
              else param.parm.buffers) ≠ 0 then
            (0,
              { param with parm :=
                  if (bo.akvcam_buffers_resize_rw (akvcam_device_buffers_nr device)
                      param.parm.buffers).1 = true then
                    { capability := V4L2_CAP_TIMEPERFRAME, mode := 0,
                      timeperframe := ⟨(akvcam_format_frame_rate nf).denominator,
                        (akvcam_format_frame_rate nf).numerator⟩,
                      extendedmode := 0, buffers := param.parm.buffers }
                  else
                    { capability := V4L2_CAP_TIMEPERFRAME, mode := 0,
                      timeperframe := ⟨(akvcam_format_frame_rate nf).denominator,
                        (akvcam_format_frame_rate nf).numerator⟩,
                      extendedmode := 0, buffers := 0 } },
              w.store (akvcam_node_device_num node)
                { akvcam_device_set_format device nf with
                  buffers := (bo.akvcam_buffers_resize_rw (akvcam_device_buffers_nr device)
                    param.parm.buffers).2 })
          else
            (0,
              { param with parm :=
                  { capability := V4L2_CAP_TIMEPERFRAME, mode := 0,
                    timeperframe := ⟨(akvcam_format_frame_rate nf).denominator,
                      (akvcam_format_frame_rate nf).numerator⟩,
                    extendedmode := 0,
                    buffers := u32 (bo.akvcam_buffers_size_rw (akvcam_device_buffers_nr device)) } },
              w.store (akvcam_node_device_num node) (akvcam_device_set_format device nf))
        else
          (0,
            { param with parm :=
                { capability := V4L2_CAP_TIMEPERFRAME, mode := 0,
                  timeperframe := ⟨(akvcam_format_frame_rate nf).denominator,
                    (akvcam_format_frame_rate nf).numerator⟩,
                  extendedmode := 0, buffers := 0 } },
            w.store (akvcam_node_device_num node) (akvcam_device_set_format device nf)) := by
  unfold akvcam_ioctl_s_parm
  simp only [hdev, htype, ne_eq, not_true_eq_false, if_false, ite_self, hn]
  by_cases hout : akvcam_device_v4l2_type device = V4L2_BUF_TYPE_VIDEO_OUTPUT
      ∨ akvcam_device_v4l2_type device = V4L2_BUF_TYPE_VIDEO_OUTPUT_MPLANE
  · simp [hout, htype, akvcam_device_rw_mode, akvcam_device_set_format,
      akvcam_device_buffers_nr]
  · by_cases hrw : akvcam_device_rw_mode device &&& AKVCAM_RW_MODE_READWRITE = 0
    · simp [hout, htype, hrw, akvcam_device_rw_mode, akvcam_device_set_format] at *
    · by_cases hb : param.parm.buffers = 0
      · simp [hout, htype, hb, akvcam_device_rw_mode, akvcam_device_set_format,
          akvcam_device_buffers_nr]
      · simp [hout, htype, hb, akvcam_device_rw_mode, akvcam_device_set_format,
          akvcam_device_buffers_nr] at *

theorem akvcam_ioctl_s_parm_shape (fo : Formats) (bo : Buffers B) (node : akvcam_node)
    (param : v4l2_streamparm) (w : World B C E) (device : akvcam_device B C)
    (nf : akvcam_format)
    (hdev : akvcam_driver_device_from_num_nr w (akvcam_node_device_num node) = some device)
    (htype : param.type = akvcam_device_v4l2_type device)
    (hn : fo.akvcam_format_nearest (akvcam_device_formats device)
      { akvcam_device_format device with
        frame_rate := ⟨param.parm.timeperframe.denominator, param.parm.timeperframe.numerator⟩ }
      = some nf) :
    (akvcam_ioctl_s_parm fo bo node param w).1 = 0 ∧
    (akvcam_ioctl_s_parm fo bo node param w).2.1.type = param.type ∧
    (akvcam_ioctl_s_parm fo bo node param w).2.1.parm.timeperframe
      = ⟨(akvcam_format_frame_rate nf).denominator, (akvcam_format_frame_rate nf).numerator⟩ ∧
    ∃ pool : B, (akvcam_ioctl_s_parm fo bo node param w).2.2
      = w.store (akvcam_node_device_num node)
          { akvcam_device_set_format device nf with buffers := pool } := by
  rw [akvcam_ioctl_s_parm_eq fo bo node param w device nf hdev htype hn]
  by_cases h1 : akvcam_device_rw_mode device &&& AKVCAM_RW_MODE_READWRITE ≠ 0
  · by_cases h2 : (if param.type = V4L2_BUF_TYPE_VIDEO_OUTPUT
          ∨ param.type = V4L2_BUF_TYPE_VIDEO_OUTPUT_MPLANE then 0
        else param.parm.buffers) ≠ 0
    · rw [if_pos h1, if_pos h2]
      refine ⟨rfl, rfl, ?_, _, rfl⟩
      show (ite _ _ _ : v4l2_streamparm_parm).timeperframe = _
      split <;> rfl
    · rw [if_pos h1, if_neg h2]
      exact ⟨rfl, rfl, rfl, _, rfl⟩
  · rw [if_neg h1]
    exact ⟨rfl, rfl, rfl, _, rfl⟩

/-- C16 (the code at the failing input): on an existing read/write-mode device
with an output buffer type, a successful `akvcam_ioctl_s_parm` never reads the
caller's `writebuffers`: whatever count is asked for, the pool is the one the
device had, `akvcam_buffers_resize_rw` is not applied, and the response reports
the current size of the pool. -/
theorem akvcam_ioctl_s_parm_output_count (fo : Formats) (bo : Buffers B) (node : akvcam_node)
    (param : v4l2_streamparm) (w : World B C E) (device : akvcam_device B C)
    (nf : akvcam_format)
    (hdev : akvcam_driver_device_from_num_nr w (akvcam_node_device_num node) = some device)
    (htype : param.type = akvcam_device_v4l2_type device)
    (hout : param.type = V4L2_BUF_TYPE_VIDEO_OUTPUT
      ∨ param.type = V4L2_BUF_TYPE_VIDEO_OUTPUT_MPLANE)
    (hrw : akvcam_device_rw_mode device &&& AKVCAM_RW_MODE_READWRITE ≠ 0)
    (hn : fo.akvcam_format_nearest (akvcam_device_formats device)
      { akvcam_device_format device with
        frame_rate := ⟨param.parm.timeperframe.denominator, param.parm.timeperframe.numerator⟩ }
      = some nf) :
    (akvcam_ioctl_s_parm fo bo node param w).1 = 0 ∧
    (akvcam_ioctl_s_parm fo bo node param w).2.1.parm.buffers
      = u32 (bo.akvcam_buffers_size_rw (akvcam_device_buffers_nr device)) ∧
    (akvcam_ioctl_s_parm fo bo node param w).2.2
      = w.store (akvcam_node_device_num node) (akvcam_device_set_format device nf) ∧
    akvcam_device_buffers_nr (akvcam_device_set_format device nf)
      = akvcam_device_buffers_nr device := by
  rw [akvcam_ioctl_s_parm_eq fo bo node param w device nf hdev htype hn]
  simp [hrw, hout]
  rfl

theorem akvcam_ioctl_s_parm_output_count_witness :
    (akvcam_driver_device_from_num_nr sample_world_output_rw
        (akvcam_node_device_num sample_node_a) = some sample_device_output_rw ∧
      akvcam_device_rw_mode sample_device_output_rw &&& AKVCAM_RW_MODE_READWRITE ≠ 0 ∧
      sample_formats.akvcam_format_nearest (akvcam_device_formats sample_device_output_rw)
        ⟨V4L2_PIX_FMT_YUYV, 320, 240, ⟨15, 1⟩⟩ = some ⟨V4L2_PIX_FMT_YUYV, 320, 240, ⟨15, 1⟩⟩) ∧
    (akvcam_ioctl_s_parm sample_formats sample_buffers sample_node_a
      ⟨V4L2_BUF_TYPE_VIDEO_OUTPUT, ⟨0, 0, ⟨1, 15⟩, 0, 4⟩⟩ sample_world_output_rw).1 = 0 ∧
    (akvcam_ioctl_s_parm sample_formats sample_buffers sample_node_a
      ⟨V4L2_BUF_TYPE_VIDEO_OUTPUT, ⟨0, 0, ⟨1, 15⟩, 0, 4⟩⟩
      sample_world_output_rw).2.1.parm.buffers = 2 ∧
    ((akvcam_ioctl_s_parm sample_formats sample_buffers sample_node_a
      ⟨V4L2_BUF_TYPE_VIDEO_OUTPUT, ⟨0, 0, ⟨1, 15⟩, 0, 4⟩⟩
      sample_world_output_rw).2.2.devices 0).map (fun d => d.buffers.size_rw) = some 2 ∧
    ((akvcam_ioctl_s_parm sample_formats sample_buffers sample_node_a
      ⟨V4L2_BUF_TYPE_VIDEO_CAPTURE, ⟨0, 0, ⟨1, 15⟩, 0, 4⟩⟩
      sample_world_capture_rw).2.2.devices 0).map (fun d => d.buffers.size_rw) = some 4 :=
  ⟨⟨rfl, by decide, by decide⟩,
   (akvcam_ioctl_s_parm_output_count sample_formats sample_buffers sample_node_a
      ⟨V4L2_BUF_TYPE_VIDEO_OUTPUT, ⟨0, 0, ⟨1, 15⟩, 0, 4⟩⟩ sample_world_output_rw
      sample_device_output_rw ⟨V4L2_PIX_FMT_YUYV, 320, 240, ⟨15, 1⟩⟩ rfl rfl (Or.inl rfl)
      (by decide) (by decide)).1,
   by decide, by decide, by decide⟩

/-- C18 (the code at the failing input): `akvcam_ioctl_s_parm` does not look at
the streaming flag. On an existing device that is streaming, with a matching
buffer type and a nearest format found, it returns 0 and the device's current
format becomes that nearest format. -/
theorem akvcam_ioctl_s_parm_streaming (fo : Formats) (bo : Buffers B) (node : akvcam_node)
    (param : v4l2_streamparm) (w : World B C E) (device : akvcam_device B C)
    (nf : akvcam_format)
    (hdev : akvcam_driver_device_from_num_nr w (akvcam_node_device_num node) = some device)
    (hstreaming : akvcam_device_streaming device = true)
    (htype : param.type = akvcam_device_v4l2_type device)
    (hn : fo.akvcam_format_nearest (akvcam_device_formats device)
      { akvcam_device_format device with
        frame_rate := ⟨param.parm.timeperframe.denominator, param.parm.timeperframe.numerator⟩ }
      = some nf) :
    (akvcam_ioctl_s_parm fo bo node param w).1 = 0 ∧
    ∃ device', akvcam_driver_device_from_num_nr (akvcam_ioctl_s_parm fo bo node param w).2.2
        (akvcam_node_device_num node) = some device' ∧
      akvcam_device_format device' = nf ∧
      akvcam_device_streaming device' = true := by
  obtain ⟨h0, _, _, pool, hw⟩ :=
    akvcam_ioctl_s_parm_shape fo bo node param w device nf hdev htype hn
  rw [hw]
  exact ⟨h0, _, World.store_lookup _ _ _, rfl, hstreaming⟩

theorem akvcam_ioctl_s_parm_streaming_witness :
    (akvcam_driver_device_from_num_nr sample_world_streaming
        (akvcam_node_device_num sample_node_a) = some sample_device_streaming ∧
      akvcam_device_streaming sample_device_streaming = true ∧
      sample_formats.akvcam_format_nearest (akvcam_device_formats sample_device_streaming)
        ⟨V4L2_PIX_FMT_YUYV, 320, 240, ⟨30, 1⟩⟩ = some ⟨V4L2_PIX_FMT_YUYV, 320, 240, ⟨30, 1⟩⟩) ∧
    (akvcam_ioctl_s_parm sample_formats sample_buffers sample_node_a
      ⟨V4L2_BUF_TYPE_VIDEO_CAPTURE, ⟨0, 0, ⟨1, 30⟩, 0, 0⟩⟩ sample_world_streaming).1 = 0 ∧
    (sample_world_streaming.devices 0).map (fun d => d.format)
      = some ⟨V4L2_PIX_FMT_YUYV, 320, 240, ⟨15, 1⟩⟩ ∧
    ((akvcam_ioctl_s_parm sample_formats sample_buffers sample_node_a
      ⟨V4L2_BUF_TYPE_VIDEO_CAPTURE, ⟨0, 0, ⟨1, 30⟩, 0, 0⟩⟩
      sample_world_streaming).2.2.devices 0).map (fun d => d.format)
      = some ⟨V4L2_PIX_FMT_YUYV, 320, 240, ⟨30, 1⟩⟩ ∧
    (akvcam_ioctl_s_fmt sample_formats sample_buffers sample_node_a sample_request_800x600
      sample_world_streaming).1 = -EBUSY :=
  ⟨⟨rfl, rfl, by decide⟩,
   (akvcam_ioctl_s_parm_streaming sample_formats sample_buffers sample_node_a
      ⟨V4L2_BUF_TYPE_VIDEO_CAPTURE, ⟨0, 0, ⟨1, 30⟩, 0, 0⟩⟩ sample_world_streaming
      sample_device_streaming ⟨V4L2_PIX_FMT_YUYV, 320, 240, ⟨30, 1⟩⟩ rfl rfl rfl
      (by decide)).1,
   by decide, by decide, by decide⟩

theorem akvcam_ioctl_s_parm_zero (fo : Formats) (bo : Buffers B) (node : akvcam_node)
    (param : v4l2_streamparm) (w : World B C E)
    (hok : (akvcam_ioctl_s_parm fo bo node param w).1 = 0) :
    ∃ device nf,
      akvcam_driver_device_from_num_nr w (akvcam_node_device_num node) = some device ∧
      param.type = akvcam_device_v4l2_type device ∧
      fo.akvcam_format_nearest (akvcam_device_formats device)
        { akvcam_device_format device with
          frame_rate :=
            ⟨param.parm.timeperframe.denominator, param.parm.timeperframe.numerator⟩ }
        = some nf := by
  cases hdev : akvcam_driver_device_from_num_nr w (akvcam_node_device_num node) with
  | none => simp [akvcam_ioctl_s_parm, hdev, EIO] at hok
  | some device =>
    by_cases htype : param.type = akvcam_device_v4l2_type device
    · cases hn : fo.akvcam_format_nearest (akvcam_device_formats device)
          { akvcam_device_format device with
            frame_rate :=
              ⟨param.parm.timeperframe.denominator, param.parm.timeperframe.numerator⟩ } with
      | none =>
        exfalso
        unfold akvcam_ioctl_s_parm at hok
        simp only [hdev, htype, ne_eq, not_true_eq_false, if_false, ite_self, hn] at hok
        simp [EINVAL] at hok
      | some nf => exact ⟨device, nf, rfl, htype, hn⟩
    · simp [akvcam_ioctl_s_parm, hdev, htype, EINVAL] at hok

theorem akvcam_ioctl_g_parm_eq (bo : Buffers B) (node : akvcam_node)
    (param : v4l2_streamparm) (w : World B C E) (device : akvcam_device B C)
    (hdev : akvcam_driver_device_from_num_nr w (akvcam_node_device_num node) = some device)
    (htype : param.type = akvcam_device_v4l2_type device) :
    (akvcam_ioctl_g_parm bo node param w).1 = 0 ∧
    (akvcam_ioctl_g_parm bo node param w).2.1.parm.timeperframe
      = ⟨(akvcam_format_frame_rate (akvcam_device_format device)).denominator,
         (akvcam_format_frame_rate (akvcam_device_format device)).numerator⟩ ∧
    (akvcam_ioctl_g_parm bo node param w).2.2 = w := by
  unfold akvcam_ioctl_g_parm
  simp only [hdev, htype, ne_eq, not_true_eq_false, if_false, ite_self]
  split <;> exact ⟨rfl, rfl, rfl⟩

/-- C17 (as amended): if `akvcam_ioctl_s_parm` with timeperframe {n, d} succeeds,
then Formats found a nearest format for the device's current format with frame
rate d/n, the response reports the reciprocal of that nearest format's frame
rate, and a `akvcam_ioctl_g_parm` that follows at once with the same buffer type
returns 0 and reports the same timeperframe as the response. It is {n, d}
whenever the nearest format has frame rate d/n. -/
theorem frame_rate_round_trip (fo : Formats) (bo : Buffers B) (node : akvcam_node)
    (param : v4l2_streamparm) (w : World B C E)
    (hok : (akvcam_ioctl_s_parm fo bo node param w).1 = 0) :
    ∃ device nf,
      akvcam_driver_device_from_num_nr w (akvcam_node_device_num node) = some device ∧
      fo.akvcam_format_nearest (akvcam_device_formats device)
        { akvcam_device_format device with
          frame_rate :=
            ⟨param.parm.timeperframe.denominator, param.parm.timeperframe.numerator⟩ }
        = some nf ∧
      (akvcam_ioctl_s_parm fo bo node param w).2.1.parm.timeperframe
        = ⟨(akvcam_format_frame_rate nf).denominator,
           (akvcam_format_frame_rate nf).numerator⟩ ∧
      (∀ param' : v4l2_streamparm, param'.type = param.type →
        (akvcam_ioctl_g_parm bo node param' (akvcam_ioctl_s_parm fo bo node param w).2.2).1 = 0 ∧
        (akvcam_ioctl_g_parm bo node param'
            (akvcam_ioctl_s_parm fo bo node param w).2.2).2.1.parm.timeperframe
          = (akvcam_ioctl_s_parm fo bo node param w).2.1.parm.timeperframe) ∧
      (akvcam_format_frame_rate nf
          = ⟨param.parm.timeperframe.denominator, param.parm.timeperframe.numerator⟩ →
        ∀ param' : v4l2_streamparm, param'.type = param.type →
          (akvcam_ioctl_g_parm bo node param'
              (akvcam_ioctl_s_parm fo bo node param w).2.2).2.1.parm.timeperframe
            = param.parm.timeperframe) := by
  obtain ⟨device, nf, hdev, htype, hn⟩ := akvcam_ioctl_s_parm_zero fo bo node param w hok
  obtain ⟨_, _, htpf, pool, hw⟩ :=
    akvcam_ioctl_s_parm_shape fo bo node param w device nf hdev htype hn
  have hg : ∀ param' : v4l2_streamparm, param'.type = param.type →
      (akvcam_ioctl_g_parm bo node param' (akvcam_ioctl_s_parm fo bo node param w).2.2).1 = 0 ∧
      (akvcam_ioctl_g_parm bo node param'
          (akvcam_ioctl_s_parm fo bo node param w).2.2).2.1.parm.timeperframe
        = ⟨(akvcam_format_frame_rate nf).denominator,
           (akvcam_format_frame_rate nf).numerator⟩ := by
    intro param' ht
    rw [hw]
    have hD := World.store_lookup w (akvcam_node_device_num node)
      { akvcam_device_set_format device nf with buffers := pool }
    have h := akvcam_ioctl_g_parm_eq bo node param' _ _ hD (ht.trans htype)
    exact ⟨h.1, h.2.1⟩
  refine ⟨device, nf, hdev, hn, htpf, fun param' ht => ?_, fun hfr param' ht => ?_⟩
  · rw [htpf]
    exact hg param' ht
  · rw [(hg param' ht).2, hfr]

/-- C17 witness: on the sample device that supports 320x240 at 15/1 and at 30/1,
`akvcam_ioctl_s_parm` with timeperframe {1, 30} succeeds and its response reports
the reciprocal of the nearest format's frame rate. -/
theorem frame_rate_round_trip_witness :
    (akvcam_ioctl_s_parm sample_formats sample_buffers sample_node_a
      ⟨V4L2_BUF_TYPE_VIDEO_CAPTURE, ⟨0, 0, ⟨1, 30⟩, 0, 0⟩⟩ sample_world_rates).1 = 0 ∧
    ∃ (device : akvcam_device sample_pool Unit) (nf : akvcam_format),
      akvcam_driver_device_from_num_nr sample_world_rates
        (akvcam_node_device_num sample_node_a) = some device ∧
      sample_formats.akvcam_format_nearest (akvcam_device_formats device)
        { akvcam_device_format device with frame_rate := ⟨30, 1⟩ } = some nf ∧
      (akvcam_ioctl_s_parm sample_formats sample_buffers sample_node_a
        ⟨V4L2_BUF_TYPE_VIDEO_CAPTURE, ⟨0, 0, ⟨1, 30⟩, 0, 0⟩⟩
        sample_world_rates).2.1.parm.timeperframe
        = ⟨(akvcam_format_frame_rate nf).denominator,
           (akvcam_format_frame_rate nf).numerator⟩ := by
  obtain ⟨device, nf, h1, h2, h3, _, _⟩ :=
    frame_rate_round_trip sample_formats sample_buffers sample_node_a
      ⟨V4L2_BUF_TYPE_VIDEO_CAPTURE, ⟨0, 0, ⟨1, 30⟩, 0, 0⟩⟩ sample_world_rates (by decide)
  exact ⟨by decide, device, nf, h1, h2, h3⟩

/-- C17 (counterexample): on the sample device, which supports 30/1 and 15/1 and
is set to YUYV 320x240 at 15/1, `akvcam_ioctl_s_parm` with timeperframe {1, 25}
succeeds, and the `akvcam_ioctl_g_parm` that follows reports {1, 15}. -/
theorem frame_rate_round_trip_fails :
    (akvcam_ioctl_s_parm sample_formats sample_buffers sample_node_a
      ⟨V4L2_BUF_TYPE_VIDEO_CAPTURE, ⟨0, 0, ⟨1, 25⟩, 0, 0⟩⟩ sample_world).1 = 0 ∧
    (akvcam_ioctl_g_parm sample_buffers sample_node_a
      ⟨V4L2_BUF_TYPE_VIDEO_CAPTURE, ⟨0, 0, ⟨0, 0⟩, 0, 0⟩⟩
      (akvcam_ioctl_s_parm sample_formats sample_buffers sample_node_a
        ⟨V4L2_BUF_TYPE_VIDEO_CAPTURE, ⟨0, 0, ⟨1, 25⟩, 0, 0⟩⟩ sample_world).2.2).1 = 0 ∧
    (akvcam_ioctl_g_parm sample_buffers sample_node_a
      ⟨V4L2_BUF_TYPE_VIDEO_CAPTURE, ⟨0, 0, ⟨0, 0⟩, 0, 0⟩⟩
      (akvcam_ioctl_s_parm sample_formats sample_buffers sample_node_a
        ⟨V4L2_BUF_TYPE_VIDEO_CAPTURE, ⟨0, 0, ⟨1, 25⟩, 0, 0⟩⟩
        sample_world).2.2).2.1.parm.timeperframe = ⟨1, 15⟩ ∧
    (⟨1, 15⟩ : v4l2_fract) ≠ ⟨1, 25⟩ := by
  refine ⟨by decide, by decide, by decide, by decide⟩

end StreamingParameters

/-! ## Theorems: repeating a format change -/

section Idempotence

variable {B C E : Type}

theorem akvcam_ioctl_try_fmt_zero_checks (fo : Formats) (node : akvcam_node)
    (format : v4l2_format) (w : World B C E) (device : akvcam_device B C)
    (hdev : akvcam_driver_device_from_num_nr w (akvcam_node_device_num node) = some device)
    (hok : (akvcam_ioctl_try_fmt fo node format w).1 = 0) :
    format.type = akvcam_device_v4l2_type device ∧ akvcam_device_streaming device = false ∧
    ∃ nf, fo.akvcam_format_nearest (akvcam_device_formats device)
      (akvcam_format_new format.fmt.pixelformat format.fmt.width format.fmt.height ⟨0, 0⟩)
      = some nf := by
  by_cases ht : format.type = akvcam_device_v4l2_type device
  · cases hs : akvcam_device_streaming device
    · cases hn : fo.akvcam_format_nearest (akvcam_device_formats device)
        (akvcam_format_new format.fmt.pixelformat format.fmt.width format.fmt.height ⟨0, 0⟩)
      · simp [akvcam_ioctl_try_fmt, hdev, ht, hs, hn, EINVAL] at hok
      · exact ⟨ht, rfl, _, rfl⟩
    · simp [akvcam_ioctl_try_fmt, hdev, ht, hs, EBUSY] at hok
  · simp [akvcam_ioctl_try_fmt, hdev, ht, EINVAL] at hok

/-- C20: `akvcam_ioctl_s_fmt` issued twice in a row with the same request returns
the same result code the second time as the first, leaves the same response
structure, and leaves every device with the same current format after the second
call as after the first. -/
theorem akvcam_ioctl_s_fmt_idempotent (fo : Formats) (bo : Buffers B) (node : akvcam_node)
    (format : v4l2_format) (w : World B C E) :
    (akvcam_ioctl_s_fmt fo bo node format (akvcam_ioctl_s_fmt fo bo node format w).2.2).1
      = (akvcam_ioctl_s_fmt fo bo node format w).1 ∧
    (akvcam_ioctl_s_fmt fo bo node format (akvcam_ioctl_s_fmt fo bo node format w).2.2).2.1
      = (akvcam_ioctl_s_fmt fo bo node format w).2.1 ∧
    ∀ n : Int,
      ((akvcam_ioctl_s_fmt fo bo node format
          (akvcam_ioctl_s_fmt fo bo node format w).2.2).2.2.devices n).map akvcam_device_format
        = ((akvcam_ioctl_s_fmt fo bo node format w).2.2.devices n).map akvcam_device_format := by
  cases hdev : akvcam_driver_device_from_num_nr w (akvcam_node_device_num node) with
  | none =>
    have h : akvcam_ioctl_s_fmt fo bo node format w = (- EIO, format, w) := by
      simp [akvcam_ioctl_s_fmt, hdev]
    rw [h]
    simp only
    rw [h]
    exact ⟨rfl, rfl, fun _ => rfl⟩
  | some device =>
    by_cases h0 : (akvcam_ioctl_try_fmt fo node format w).1 = 0
    · obtain ⟨ht, hs, nf, hn⟩ :=
        akvcam_ioctl_try_fmt_zero_checks fo node format w device hdev h0
      have heq := akvcam_ioctl_try_fmt_ok fo node format w device nf hdev ht hs hn
      have h1 := akvcam_ioctl_s_fmt_eq fo bo node format w device hdev
      rw [heq] at h1
      simp only [if_true] at h1
      rw [h1]
      simp only
      have hd1 := World.store_lookup w (akvcam_node_device_num node)
        { device with
          format :=
            { fourcc := (v4l2_format_fill fo format.type nf).pixelformat,
              width := (v4l2_format_fill fo format.type nf).width,
              height := (v4l2_format_fill fo format.type nf).height,
              frame_rate := device.format.frame_rate },
          buffers := (bo.akvcam_buffers_resize_rw device.buffers
            (bo.akvcam_buffers_size_rw device.buffers)).2 }
      have heq2 := akvcam_ioctl_try_fmt_ok fo node format _ _ nf hd1 ht hs hn
      have h2 := akvcam_ioctl_s_fmt_eq fo bo node format _ _ hd1
      rw [heq2] at h2
      simp only [if_true] at h2
      rw [h2]
      refine ⟨rfl, rfl, fun n => ?_⟩
      by_cases hn' : n = akvcam_node_device_num node
      · subst hn'
        simp [World.store, akvcam_device_format]
      · simp [World.store, hn']
    · have h1 := akvcam_ioctl_s_fmt_eq fo bo node format w device hdev
      simp only [h0, if_false] at h1
      have hw := akvcam_ioctl_try_fmt_world fo node format w
      rw [h1, hw, h1]
      exact ⟨rfl, rfl, fun _ => by rw [hw]⟩

end Idempotence

/-! ## Theorems: committed state -/

section Committed

set_option linter.unusedTactic false
set_option linter.unreachableTactic false

variable {B C E : Type}

theorem same_committed_refl (w : World B C E) : same_committed w w :=
  fun _ => rfl

theorem same_committed_store (w : World B C E) (num : Int) (device device' : akvcam_device B C)
    (hdev : akvcam_driver_device_from_num_nr w num = some device)
    (h : device'.committed = device.committed) : same_committed w (w.store num device') := by
  intro n
  by_cases hn : n = num
  · subst hn
    have hd : w.devices n = some device := hdev
    simp [World.store, hd, h]
  · simp [World.store, hn]

theorem same_committed_store_events (w : World B C E) (node : akvcam_node) (events : E) :
    same_committed w (w.store_events node events) :=
  fun _ => rfl

theorem akvcam_ioctl_querycap_committed (dr : Driver) (node : akvcam_node) (arg : v4l2_capability)
    (w : World B C E) : same_committed w (akvcam_ioctl_querycap dr node arg w).2.2 := by
  unfold akvcam_ioctl_querycap
  simp only
  repeat' split
  all_goals first
    | exact same_committed_refl _
    | (apply same_committed_store
       · assumption
       · rfl)
    | exact same_committed_store_events w _ _

theorem akvcam_ioctl_enuminput_committed (node : akvcam_node) (arg : v4l2_input)
    (w : World B C E) : same_committed w (akvcam_ioctl_enuminput node arg w).2.2 := by
  unfold akvcam_ioctl_enuminput
  simp only
  repeat' split
  all_goals first
    | exact same_committed_refl _
    | (apply same_committed_store
       · assumption
       · rfl)
    | exact same_committed_store_events w _ _

theorem akvcam_ioctl_g_input_committed (node : akvcam_node) (arg : Int)
    (w : World B C E) : same_committed w (akvcam_ioctl_g_input node arg w).2.2 := by
  unfold akvcam_ioctl_g_input
  simp only
  repeat' split
  all_goals first
    | exact same_committed_refl _
    | (apply same_committed_store
       · assumption
       · rfl)
    | exact same_committed_store_events w _ _

theorem akvcam_ioctl_s_input_committed (node : akvcam_node) (arg : Int)
    (w : World B C E) : same_committed w (akvcam_ioctl_s_input node arg w).2.2 := by
  unfold akvcam_ioctl_s_input
  simp only
  repeat' split
  all_goals first
    | exact same_committed_refl _
    | (apply same_committed_store
       · assumption
       · rfl)
    | exact same_committed_store_events w _ _

theorem akvcam_ioctl_enumoutput_committed (node : akvcam_node) (arg : v4l2_output)
    (w : World B C E) : same_committed w (akvcam_ioctl_enumoutput node arg w).2.2 := by
  unfold akvcam_ioctl_enumoutput
  simp only
  repeat' split
  all_goals first
    | exact same_committed_refl _
    | (apply same_committed_store
       · assumption
       · rfl)
    | exact same_committed_store_events w _ _

theorem akvcam_ioctl_g_output_committed (node : akvcam_node) (arg : Option Int)
    (w : World B C E) : same_committed w (akvcam_ioctl_g_output node arg w).2.2 := by
  unfold akvcam_ioctl_g_output
  simp only
  repeat' split
  all_goals first
    | exact same_committed_refl _
    | (apply same_committed_store
       · assumption
       · rfl)
    | exact same_committed_store_events w _ _

theorem akvcam_ioctl_s_output_committed (node : akvcam_node) (arg : Option Int)
    (w : World B C E) : same_committed w (akvcam_ioctl_s_output node arg w).2.2 := by
  unfold akvcam_ioctl_s_output
  simp only
  repeat' split
  all_goals first
    | exact same_committed_refl _
    | (apply same_committed_store
       · assumption
       · rfl)
    | exact same_committed_store_events w _ _

theorem akvcam_ioctl_enum_fmt_committed (fl : FormatLists) (node : akvcam_node) (arg : v4l2_fmtdesc)
    (w : World B C E) : same_committed w (akvcam_ioctl_enum_fmt fl node arg w).2.2 := by
  unfold akvcam_ioctl_enum_fmt
  simp only
  repeat' split
  all_goals first
    | exact same_committed_refl _
    | (apply same_committed_store
       · assumption
       · rfl)
    | exact same_committed_store_events w _ _

theorem akvcam_ioctl_g_fmt_committed (fo : Formats) (node : akvcam_node) (arg : v4l2_format)
    (w : World B C E) : same_committed w (akvcam_ioctl_g_fmt fo node arg w).2.2 := by
  unfold akvcam_ioctl_g_fmt
  simp only
  repeat' split
  all_goals first
    | exact same_committed_refl _
    | (apply same_committed_store
       · assumption
       · rfl)
    | exact same_committed_store_events w _ _

theorem akvcam_ioctl_try_fmt_committed (fo : Formats) (node : akvcam_node) (arg : v4l2_format)
    (w : World B C E) : same_committed w (akvcam_ioctl_try_fmt fo node arg w).2.2 := by
  unfold akvcam_ioctl_try_fmt
  simp only
  repeat' split
  all_goals first
    | exact same_committed_refl _
    | (apply same_committed_store
       · assumption
       · rfl)
    | exact same_committed_store_events w _ _

theorem akvcam_ioctl_g_parm_committed (bo : Buffers B) (node : akvcam_node) (arg : v4l2_streamparm)
    (w : World B C E) : same_committed w (akvcam_ioctl_g_parm bo node arg w).2.2 := by
  unfold akvcam_ioctl_g_parm
  simp only
  repeat' split
  all_goals first
    | exact same_committed_refl _
    | (apply same_committed_store
       · assumption
       · rfl)
    | exact same_committed_store_events w _ _

theorem akvcam_ioctl_enum_framesizes_committed (fl : FormatLists) (node : akvcam_node) (arg : v4l2_frmsizeenum)
    (w : World B C E) : same_committed w (akvcam_ioctl_enum_framesizes fl node arg w).2.2 := by
  unfold akvcam_ioctl_enum_framesizes
  simp only
  repeat' split
  all_goals first
    | exact same_committed_refl _
    | (apply same_committed_store
       · assumption
       · rfl)
    | exact same_committed_store_events w _ _

theorem akvcam_ioctl_enum_frameintervals_committed (fl : FormatLists) (node : akvcam_node) (arg : v4l2_frmivalenum)
    (w : World B C E) : same_committed w (akvcam_ioctl_enum_frameintervals fl node arg w).2.2 := by
  unfold akvcam_ioctl_enum_frameintervals
  simp only
  repeat' split
  all_goals first
    | exact same_committed_refl _
    | (apply same_committed_store
       · assumption
       · rfl)
    | exact same_committed_store_events w _ _

theorem akvcam_ioctl_g_priority_committed (node : akvcam_node) (arg : Nat)
    (w : World B C E) : same_committed w (akvcam_ioctl_g_priority node arg w).2.2 := by
  unfold akvcam_ioctl_g_priority
  simp only
  repeat' split
  all_goals first
    | exact same_committed_refl _
    | (apply same_committed_store
       · assumption
       · rfl)
    | exact same_committed_store_events w _ _

theorem akvcam_ioctl_query_ext_ctrl_committed (co : Controls C) (node : akvcam_node) (arg : v4l2_query_ext_ctrl)
    (w : World B C E) : same_committed w (akvcam_ioctl_query_ext_ctrl co node arg w).2.2 := by
  unfold akvcam_ioctl_query_ext_ctrl
  simp only
  repeat' split
  all_goals first
    | exact same_committed_refl _
    | (apply same_committed_store
       · assumption
       · rfl)
    | exact same_committed_store_events w _ _

theorem akvcam_ioctl_g_ext_ctrls_committed (co : Controls C) (node : akvcam_node) (arg : v4l2_ext_controls)
    (w : World B C E) : same_committed w (akvcam_ioctl_g_ext_ctrls co node arg w).2.2 := by
  unfold akvcam_ioctl_g_ext_ctrls
  simp only
  repeat' split
  all_goals first
    | exact same_committed_refl _
    | (apply same_committed_store
       · assumption
       · rfl)
    | exact same_committed_store_events w _ _

theorem akvcam_ioctl_s_ext_ctrls_committed (co : Controls C) (node : akvcam_node) (arg : v4l2_ext_controls)
    (w : World B C E) : same_committed w (akvcam_ioctl_s_ext_ctrls co node arg w).2.2 := by
  unfold akvcam_ioctl_s_ext_ctrls
  simp only
  repeat' split
  all_goals first
    | exact same_committed_refl _
    | (apply same_committed_store
       · assumption
       · rfl)
    | exact same_committed_store_events w _ _

theorem akvcam_ioctl_try_ext_ctrls_committed (co : Controls C) (node : akvcam_node) (arg : v4l2_ext_controls)
    (w : World B C E) : same_committed w (akvcam_ioctl_try_ext_ctrls co node arg w).2.2 := by
  unfold akvcam_ioctl_try_ext_ctrls
  simp only
  repeat' split
  all_goals first
    | exact same_committed_refl _
    | (apply same_committed_store
       · assumption
       · rfl)
    | exact same_committed_store_events w _ _

theorem akvcam_ioctl_queryctrl_committed (co : Controls C) (node : akvcam_node) (arg : v4l2_queryctrl)
    (w : World B C E) : same_committed w (akvcam_ioctl_queryctrl co node arg w).2.2 := by
  unfold akvcam_ioctl_queryctrl
  simp only
  repeat' split
  all_goals first
    | exact same_committed_refl _
    | (apply same_committed_store
       · assumption
       · rfl)
    | exact same_committed_store_events w _ _

theorem akvcam_ioctl_querymenu_committed (co : Controls C) (node : akvcam_node) (arg : v4l2_querymenu)
    (w : World B C E) : same_committed w (akvcam_ioctl_querymenu co node arg w).2.2 := by
  unfold akvcam_ioctl_querymenu
  simp only
  repeat' split
  all_goals first
    | exact same_committed_refl _
    | (apply same_committed_store
       · assumption
       · rfl)
    | exact same_committed_store_events w _ _

theorem akvcam_ioctl_g_ctrl_committed (co : Controls C) (node : akvcam_node) (arg : v4l2_control)
    (w : World B C E) : same_committed w (akvcam_ioctl_g_ctrl co node arg w).2.2 := by
  unfold akvcam_ioctl_g_ctrl
  simp only
  repeat' split
  all_goals first
    | exact same_committed_refl _
    | (apply same_committed_store
       · assumption
       · rfl)
    | exact same_committed_store_events w _ _

theorem akvcam_ioctl_s_ctrl_committed (co : Controls C) (node : akvcam_node) (arg : v4l2_control)
    (w : World B C E) : same_committed w (akvcam_ioctl_s_ctrl co node arg w).2.2 := by
  unfold akvcam_ioctl_s_ctrl
  simp only
  repeat' split
  all_goals first
    | exact same_committed_refl _
    | (apply same_committed_store
       · assumption
       · rfl)
    | exact same_committed_store_events w _ _

theorem akvcam_ioctl_querybuf_committed (bq : BufferQueue B) (node : akvcam_node) (arg : v4l2_buffer)
    (w : World B C E) : same_committed w (akvcam_ioctl_querybuf bq node arg w).2.2 := by
  unfold akvcam_ioctl_querybuf
  simp only
  repeat' split
  all_goals first
    | exact same_committed_refl _
    | (apply same_committed_store
       · assumption
       · rfl)
    | exact same_committed_store_events w _ _

theorem akvcam_ioctl_qbuf_committed (bq : BufferQueue B) (node : akvcam_node) (arg : v4l2_buffer)
    (w : World B C E) : same_committed w (akvcam_ioctl_qbuf bq node arg w).2.2 := by
  unfold akvcam_ioctl_qbuf
  simp only
  repeat' split
  all_goals first
    | exact same_committed_refl _
    | (apply same_committed_store
       · assumption
       · rfl)
    | exact same_committed_store_events w _ _

theorem akvcam_ioctl_dqbuf_committed (bq : BufferQueue B) (node : akvcam_node) (arg : v4l2_buffer)
    (w : World B C E) : same_committed w (akvcam_ioctl_dqbuf bq node arg w).2.2 := by
  unfold akvcam_ioctl_dqbuf
  simp only
  repeat' split
  all_goals first
    | exact same_committed_refl _
    | (apply same_committed_store
       · assumption
       · rfl)
    | exact same_committed_store_events w _ _

theorem akvcam_ioctl_subscribe_event_committed (co : Controls C) (eo : Events E) (node : akvcam_node) (arg : v4l2_event_subscription)
    (w : World B C E) : same_committed w (akvcam_ioctl_subscribe_event co eo node arg w).2.2 := by
  unfold akvcam_ioctl_subscribe_event
  simp only
  repeat' split
  all_goals first
    | exact same_committed_refl _
    | (apply same_committed_store
       · assumption
       · rfl)
    | exact same_committed_store_events w _ _

theorem akvcam_ioctl_unsubscribe_event_committed (eo : Events E) (node : akvcam_node) (arg : v4l2_event_subscription)
    (w : World B C E) : same_committed w (akvcam_ioctl_unsubscribe_event eo node arg w).2.2 := by
  unfold akvcam_ioctl_unsubscribe_event
  simp only
  repeat' split
  all_goals first
    | exact same_committed_refl _
    | (apply same_committed_store
       · assumption
       · rfl)
    | exact same_committed_store_events w _ _

theorem akvcam_ioctl_dqevent_committed (eo : Events E) (node : akvcam_node) (arg : v4l2_event)
    (w : World B C E) : same_committed w (akvcam_ioctl_dqevent eo node arg w).2.2 := by
  unfold akvcam_ioctl_dqevent
  simp only
  repeat' split
  all_goals first
    | exact same_committed_refl _
    | (apply same_committed_store
       · assumption
       · rfl)
    | exact same_committed_store_events w _ _

theorem akvcam_ioctl_s_fmt_committed (fo : Formats) (bo : Buffers B) (node : akvcam_node)
    (arg : v4l2_format) (w : World B C E)
    (hneg : (akvcam_ioctl_s_fmt fo bo node arg w).1 < 0) :
    same_committed w (akvcam_ioctl_s_fmt fo bo node arg w).2.2 := by
  cases hdev : akvcam_driver_device_from_num_nr w (akvcam_node_device_num node) with
  | none =>
    have h : akvcam_ioctl_s_fmt fo bo node arg w = (- EIO, arg, w) := by
      simp [akvcam_ioctl_s_fmt, hdev]
    rw [h]
    exact same_committed_refl w
  | some device =>
    rw [akvcam_ioctl_s_fmt_eq fo bo node arg w device hdev] at hneg ⊢
    by_cases h0 : (akvcam_ioctl_try_fmt fo node arg w).1 = 0
    · simp [h0] at hneg
    · simp only [h0, if_false]
      rw [akvcam_ioctl_try_fmt_world]
      exact same_committed_refl w

theorem akvcam_ioctl_s_parm_committed (fo : Formats) (bo : Buffers B) (node : akvcam_node)
    (arg : v4l2_streamparm) (w : World B C E)
    (hneg : (akvcam_ioctl_s_parm fo bo node arg w).1 < 0) :
    same_committed w (akvcam_ioctl_s_parm fo bo node arg w).2.2 := by
  cases hdev : akvcam_driver_device_from_num_nr w (akvcam_node_device_num node) with
  | none =>
    have h : akvcam_ioctl_s_parm fo bo node arg w = (- EIO, arg, w) := by
      simp [akvcam_ioctl_s_parm, hdev]
    rw [h]
    exact same_committed_refl w
  | some device =>
    by_cases htype : arg.type = akvcam_device_v4l2_type device
    · cases hn : fo.akvcam_format_nearest (akvcam_device_formats device)
          { akvcam_device_format device with
            frame_rate :=
              ⟨arg.parm.timeperframe.denominator, arg.parm.timeperframe.numerator⟩ } with
      | none =>
        have h : akvcam_ioctl_s_parm fo bo node arg w = (-EINVAL, arg, w) := by
          unfold akvcam_ioctl_s_parm
          simp only [hdev, htype, ne_eq, not_true_eq_false, if_false, ite_self, hn]
        rw [h]
        exact same_committed_refl w
      | some nf =>
        have h0 := (akvcam_ioctl_s_parm_shape fo bo node arg w device nf hdev htype hn).1
        rw [h0] at hneg
        exact absurd hneg (by decide)
    · have h : akvcam_ioctl_s_parm fo bo node arg w = (-EINVAL, arg, w) := by
        simp [akvcam_ioctl_s_parm, hdev, htype]
      rw [h]
      exact same_committed_refl w

theorem akvcam_ioctl_s_priority_committed (node : akvcam_node) (arg : Nat) (w : World B C E)
    (hneg : (akvcam_ioctl_s_priority node arg w).1 < 0) :
    same_committed w (akvcam_ioctl_s_priority node arg w).2.2 := by
  rcases akvcam_ioctl_s_priority_cases node arg w with
    ⟨_, h⟩ | ⟨_, _, _, _, _, h⟩ | ⟨_, _, _, h⟩
  · rw [h]
    exact same_committed_refl w
  · rw [h]
    exact same_committed_refl w
  · rw [h] at hneg
    exact (lt_irrefl (0 : Int) hneg).elim

theorem akvcam_ioctl_reqbufs_committed (bo : Buffers B) (node : akvcam_node)
    (arg : v4l2_requestbuffers) (w : World B C E)
    (hneg : (akvcam_ioctl_reqbufs bo node arg w).1 < 0) :
    same_committed w (akvcam_ioctl_reqbufs bo node arg w).2.2 := by
  revert hneg
  unfold akvcam_ioctl_reqbufs
  simp only
  repeat' split
  all_goals intro hneg
  all_goals first
    | exact same_committed_refl _
    | (apply same_committed_store
       · assumption
       · rfl)
    | (exfalso
       dsimp only at hneg
       omega)

theorem akvcam_ioctl_create_bufs_committed (fo : Formats) (bo : Buffers B) (node : akvcam_node)
    (arg : v4l2_create_buffers) (w : World B C E)
    (hneg : (akvcam_ioctl_create_bufs fo bo node arg w).1 < 0) :
    same_committed w (akvcam_ioctl_create_bufs fo bo node arg w).2.2 := by
  revert hneg
  unfold akvcam_ioctl_create_bufs
  simp only
  repeat' split
  all_goals intro hneg
  all_goals first
    | exact same_committed_refl _
    | (apply same_committed_store
       · assumption
       · rfl)
    | (exfalso
       dsimp only at hneg
       omega)

theorem akvcam_ioctl_streamoff_committed (so : Streaming B C) (node : akvcam_node)
    (arg : Int) (w : World B C E)
    (hneg : (akvcam_ioctl_streamoff so node arg w).1 < 0) :
    same_committed w (akvcam_ioctl_streamoff so node arg w).2.2 := by
  revert hneg
  unfold akvcam_ioctl_streamoff
  simp only
  repeat' split
  all_goals intro hneg
  all_goals first
    | exact same_committed_refl _
    | exact (lt_irrefl (0 : Int) hneg).elim

theorem akvcam_ioctl_streamon_committed (so : Streaming B C) (node : akvcam_node)
    (arg : Int) (w : World B C E)
    (hcheck : ∀ device, akvcam_driver_device_from_num_nr w (akvcam_node_device_num node)
        = some device → v4l2_buf_type_of_int arg ≠ akvcam_device_v4l2_type device) :
    (akvcam_ioctl_streamon so node arg w).2.2 = w := by
  cases hdev : akvcam_driver_device_from_num_nr w (akvcam_node_device_num node) with
  | none => simp [akvcam_ioctl_streamon, hdev]
  | some device => simp [akvcam_ioctl_streamon, hdev, hcheck device hdev]

/-- C19 (as stated, refuted): on the sample capture device, whose broadcasting node
is -1, `akvcam_ioctl_streamon` by node 1 with the matching buffer type and a start
of streaming that fails returns `-EIO`, and the device's broadcasting node is 1
after the call: a negative result with committed state changed. -/
theorem no_partial_success_fails :
    (akvcam_ioctl_proc sample_env sample_node_a (sample_world_controls 0) (.streamon 1)).1
        = - EIO
      ∧ ((sample_world_controls 0).devices 0).map (fun device => device.broadcasting_node)
        = some (-1)
      ∧ ((akvcam_ioctl_proc sample_env sample_node_a (sample_world_controls 0)
          (.streamon 1)).2.2.devices 0).map (fun device => device.broadcasting_node)
        = some 1
      ∧ ¬ same_committed (sample_world_controls 0)
          (akvcam_ioctl_proc sample_env sample_node_a (sample_world_controls 0)
            (.streamon 1)).2.2 := by
  refine ⟨by decide, by decide, by decide, fun h => ?_⟩
  have h0 := congrArg (Option.map fun c => c.2.2.2.2.1) (h 0)
  revert h0
  decide

/-- C19 (amended): for every handler call other than an `akvcam_ioctl_streamon`
that passes the device and buffer-type checks, a negative result leaves every
device of the driver with its committed state as before the call: current format,
priority level and holder, controlling node, broadcasting node and streaming
flag. -/
theorem no_partial_success (env : Env B C E) (node : akvcam_node) (w : World B C E)
    (call : akvcam_call)
    (hcall : ∀ type, call = .streamon type → ∀ device,
      akvcam_driver_device_from_num_nr w (akvcam_node_device_num node) = some device →
      v4l2_buf_type_of_int type ≠ akvcam_device_v4l2_type device)
    (hneg : (akvcam_ioctl_proc env node w call).1 < 0) :
    same_committed w (akvcam_ioctl_proc env node w call).2.2 := by
  cases call with
  | querycap arg => exact akvcam_ioctl_querycap_committed _ node arg w
  | query_ext_ctrl arg => exact akvcam_ioctl_query_ext_ctrl_committed _ node arg w
  | g_ext_ctrls arg => exact akvcam_ioctl_g_ext_ctrls_committed _ node arg w
  | s_ext_ctrls arg => exact akvcam_ioctl_s_ext_ctrls_committed _ node arg w
  | try_ext_ctrls arg => exact akvcam_ioctl_try_ext_ctrls_committed _ node arg w
  | queryctrl arg => exact akvcam_ioctl_queryctrl_committed _ node arg w
  | querymenu arg => exact akvcam_ioctl_querymenu_committed _ node arg w
  | g_ctrl arg => exact akvcam_ioctl_g_ctrl_committed _ node arg w
  | s_ctrl arg => exact akvcam_ioctl_s_ctrl_committed _ node arg w
  | enuminput arg => exact akvcam_ioctl_enuminput_committed node arg w
  | g_input arg => exact akvcam_ioctl_g_input_committed node arg w
  | s_input arg => exact akvcam_ioctl_s_input_committed node arg w
  | enumoutput arg => exact akvcam_ioctl_enumoutput_committed node arg w
  | g_output arg => exact akvcam_ioctl_g_output_committed node arg w
  | s_output arg => exact akvcam_ioctl_s_output_committed node arg w
  | enum_fmt arg => exact akvcam_ioctl_enum_fmt_committed _ node arg w
  | g_fmt arg => exact akvcam_ioctl_g_fmt_committed _ node arg w
  | s_fmt arg => exact akvcam_ioctl_s_fmt_committed _ _ node arg w hneg
  | try_fmt arg => exact akvcam_ioctl_try_fmt_committed _ node arg w
  | g_parm arg => exact akvcam_ioctl_g_parm_committed _ node arg w
  | s_parm arg => exact akvcam_ioctl_s_parm_committed _ _ node arg w hneg
  | enum_framesizes arg => exact akvcam_ioctl_enum_framesizes_committed _ node arg w
  | enum_frameintervals arg => exact akvcam_ioctl_enum_frameintervals_committed _ node arg w
  | g_priority arg => exact akvcam_ioctl_g_priority_committed node arg w
  | s_priority arg => exact akvcam_ioctl_s_priority_committed node arg w hneg
  | subscribe_event arg => exact akvcam_ioctl_subscribe_event_committed _ _ node arg w
  | unsubscribe_event arg => exact akvcam_ioctl_unsubscribe_event_committed _ node arg w
  | dqevent arg => exact akvcam_ioctl_dqevent_committed _ node arg w
  | reqbufs arg => exact akvcam_ioctl_reqbufs_committed _ node arg w hneg
  | querybuf arg => exact akvcam_ioctl_querybuf_committed _ node arg w
  | create_bufs arg => exact akvcam_ioctl_create_bufs_committed _ _ node arg w hneg
  | qbuf arg => exact akvcam_ioctl_qbuf_committed _ node arg w
  | dqbuf arg => exact akvcam_ioctl_dqbuf_committed _ node arg w
  | streamon arg =>
    have h := akvcam_ioctl_streamon_committed env.streaming node arg w (hcall arg rfl)
    show same_committed w (akvcam_ioctl_streamon env.streaming node arg w).2.2
    rw [h]
    exact same_committed_refl w
  | streamoff arg => exact akvcam_ioctl_streamoff_committed _ node arg w hneg

/-- C19 witness: on the sample capture device, `akvcam_ioctl_streamon` with the
output buffer type returns a negative result and leaves the committed state of
the device as it was. -/
theorem no_partial_success_witness :
    (akvcam_ioctl_proc sample_env sample_node_a (sample_world_controls 0) (.streamon 2)).1 < 0
      ∧ same_committed (sample_world_controls 0)
          (akvcam_ioctl_proc sample_env sample_node_a (sample_world_controls 0)
            (.streamon 2)).2.2 :=
  ⟨by decide,
    no_partial_success sample_env sample_node_a (sample_world_controls 0) (.streamon 2)
      (by
        intro type h device hdev
        cases h
        cases hdev
        decide)
      (by decide)⟩

end Committed

/-! ## Theorems: capability query -/

section Capability

variable {B C E : Type}

theorem snprintf_fits (size : Nat) (s : String) (h : s.length < size) : snprintf size s = s := by
  cases s with
  | mk data =>
    have hl : data.length ≤ size - 1 := by
      have : data.length < size := h
      omega
    simp [snprintf, String.toList, List.take_of_length_le hl]

theorem c_decimal_length (n : Int) (hlo : -2 ^ 31 ≤ n) (hhi : n < 2 ^ 31) :
    (c_decimal n).length ≤ 11 := by
  unfold c_decimal
  split
  · have hlt : n.natAbs < 10 ^ 10 := by omega
    have h := Nat.toDigitsCore_length 10 (by decide) (n.natAbs + 1) n.natAbs 10 hlt (by decide)
    show (Nat.toDigits 10 n.natAbs).length + 1 ≤ 11
    unfold Nat.toDigits
    omega
  · have hlt : n.toNat < 10 ^ 10 := by omega
    have h := Nat.toDigitsCore_length 10 (by decide) (n.toNat + 1) n.toNat 10 hlt (by decide)
    show (Nat.toDigits 10 n.toNat).length ≤ 11
    unfold Nat.toDigits
    omega

theorem akvcam_ioctl_querycap_eq (dr : Driver) (node : akvcam_node)
    (capability : v4l2_capability) (w : World B C E) (device : akvcam_device B C)
    (hdev : akvcam_driver_device_from_num_nr w (akvcam_node_device_num node) = some device) :
    akvcam_ioctl_querycap dr node capability w
      = (0,
          { driver := snprintf 16 dr.akvcam_driver_name,
            card := snprintf 32 (akvcam_device_description device),
            bus_info := snprintf 32 ("platform:akvcam-" ++ c_decimal (akvcam_device_num device)),
            version := dr.akvcam_driver_version,
            capabilities := akvcam_device_caps device ||| V4L2_CAP_DEVICE_CAPS,
            device_caps := akvcam_device_caps device },
          w) := by
  simp [akvcam_ioctl_querycap, hdev]

theorem caps_or_device_caps (caps : Nat) :
    caps ||| V4L2_CAP_DEVICE_CAPS = caps ↔ caps.testBit 31 = true := by
  have hc : V4L2_CAP_DEVICE_CAPS = 2 ^ 31 := by decide
  rw [hc]
  constructor
  · intro h
    have h31 := congrArg (fun x => x.testBit 31) h
    simp only [Nat.testBit_or, Nat.testBit_two_pow_self, Bool.or_true] at h31
    exact h31.symm
  · intro h
    apply Nat.eq_of_testBit_eq
    intro i
    rw [Nat.testBit_or, Nat.testBit_two_pow]
    by_cases hi : 31 = i
    · subst hi
      simp [h]
    · simp [hi]

/-- C21 (counterexample): on the sample capture device, whose capability bit-set is
0, `akvcam_ioctl_querycap` returns 0 with `device_caps` 0 and `capabilities`
0x80000000, the flag `V4L2_CAP_DEVICE_CAPS`; the two fields differ. -/
theorem akvcam_ioctl_querycap_caps_differ :
    (akvcam_ioctl_querycap sample_env.driver sample_node_a ⟨"", "", "", 0, 0, 0⟩
        (sample_world_controls 0)).1 = 0 ∧
    (akvcam_ioctl_querycap sample_env.driver sample_node_a ⟨"", "", "", 0, 0, 0⟩
        (sample_world_controls 0)).2.1.device_caps = 0 ∧
    (akvcam_ioctl_querycap sample_env.driver sample_node_a ⟨"", "", "", 0, 0, 0⟩
        (sample_world_controls 0)).2.1.capabilities = 0x80000000 ∧
    (akvcam_ioctl_querycap sample_env.driver sample_node_a ⟨"", "", "", 0, 0, 0⟩
        (sample_world_controls 0)).2.1.capabilities
      ≠ (akvcam_ioctl_querycap sample_env.driver sample_node_a ⟨"", "", "", 0, 0, 0⟩
        (sample_world_controls 0)).2.1.device_caps := by
  refine ⟨rfl, rfl, ?_, ?_⟩ <;> decide

/-- C21 (amended): `akvcam_ioctl_querycap` on an existing device writes the
device's capability bit-set into `device_caps`, and the same bit-set with the flag
`V4L2_CAP_DEVICE_CAPS` (bit 31) added into `capabilities`; the two fields are equal
exactly when the device's bit-set has that flag already. -/
theorem akvcam_ioctl_querycap_caps (dr : Driver) (node : akvcam_node)
    (capability : v4l2_capability) (w : World B C E) (device : akvcam_device B C)
    (hdev : akvcam_driver_device_from_num_nr w (akvcam_node_device_num node) = some device) :
    (akvcam_ioctl_querycap dr node capability w).2.1.device_caps = akvcam_device_caps device ∧
    (akvcam_ioctl_querycap dr node capability w).2.1.capabilities
      = akvcam_device_caps device ||| V4L2_CAP_DEVICE_CAPS ∧
    ((akvcam_ioctl_querycap dr node capability w).2.1.capabilities
        = (akvcam_ioctl_querycap dr node capability w).2.1.device_caps
      ↔ (akvcam_device_caps device).testBit 31 = true) := by
  rw [akvcam_ioctl_querycap_eq dr node capability w device hdev]
  exact ⟨rfl, rfl, caps_or_device_caps _⟩

/-- C21 witness: on the sample device with capability bit-set 0x04000001,
`device_caps` is 0x04000001 and `capabilities` is 0x84000001. -/
theorem akvcam_ioctl_querycap_caps_witness :
    akvcam_driver_device_from_num_nr sample_world_described
        (akvcam_node_device_num sample_node_a) = some sample_device_described ∧
    (akvcam_ioctl_querycap sample_env.driver sample_node_a ⟨"", "", "", 0, 0, 0⟩
        sample_world_described).2.1.device_caps = 0x04000001 ∧
    (akvcam_ioctl_querycap sample_env.driver sample_node_a ⟨"", "", "", 0, 0, 0⟩
        sample_world_described).2.1.capabilities = 0x04000001 ||| V4L2_CAP_DEVICE_CAPS ∧
    0x04000001 ||| V4L2_CAP_DEVICE_CAPS = 0x84000001 :=
  ⟨rfl,
   (akvcam_ioctl_querycap_caps sample_env.driver sample_node_a ⟨"", "", "", 0, 0, 0⟩
      sample_world_described sample_device_described rfl).1,
   (akvcam_ioctl_querycap_caps sample_env.driver sample_node_a ⟨"", "", "", 0, 0, 0⟩
      sample_world_described sample_device_described rfl).2.1,
   by decide⟩

/-- C27 (counterexample): on the sample device whose description is 40 characters
long, `akvcam_ioctl_querycap` returns 0 and the card field holds the first 31
characters only, so it is not the device's description. -/
theorem akvcam_ioctl_querycap_card_truncated :
    (akvcam_ioctl_querycap sample_env.driver sample_node_a ⟨"", "", "", 0, 0, 0⟩
        sample_world_described).1 = 0 ∧
    akvcam_device_description sample_device_described
      = "Virtual camera of the conference room 12" ∧
    (akvcam_ioctl_querycap sample_env.driver sample_node_a ⟨"", "", "", 0, 0, 0⟩
        sample_world_described).2.1.card = "Virtual camera of the conferenc" ∧
    (akvcam_ioctl_querycap sample_env.driver sample_node_a ⟨"", "", "", 0, 0, 0⟩
        sample_world_described).2.1.card
      ≠ akvcam_device_description sample_device_described := by
  refine ⟨rfl, rfl, ?_, ?_⟩ <;> decide

/-- C27 (amended): `akvcam_ioctl_querycap` on an existing device returns 0 and
leaves the driver state as it is. The driver field is the driver name cut to 15
characters, the card field the device's description cut to 31 characters, the
bus_info field "platform:akvcam-" followed by the decimal device number, cut to 31
characters; the version is the driver version and `device_caps` the device's
capability bit-set. So the driver field is the driver name when that has at most
15 characters, the card field is the description when that has at most 31
characters, and the bus_info field is the whole string for every device number of
32 bits. -/
theorem akvcam_ioctl_querycap_fields (dr : Driver) (node : akvcam_node)
    (capability : v4l2_capability) (w : World B C E) (device : akvcam_device B C)
    (hdev : akvcam_driver_device_from_num_nr w (akvcam_node_device_num node) = some device) :
    (akvcam_ioctl_querycap dr node capability w).1 = 0 ∧
    (akvcam_ioctl_querycap dr node capability w).2.2 = w ∧
    (akvcam_ioctl_querycap dr node capability w).2.1.driver
      = snprintf 16 dr.akvcam_driver_name ∧
    (akvcam_ioctl_querycap dr node capability w).2.1.card
      = snprintf 32 (akvcam_device_description device) ∧
    (akvcam_ioctl_querycap dr node capability w).2.1.bus_info
      = snprintf 32 ("platform:akvcam-" ++ c_decimal (akvcam_device_num device)) ∧
    (akvcam_ioctl_querycap dr node capability w).2.1.version = dr.akvcam_driver_version ∧
    (akvcam_ioctl_querycap dr node capability w).2.1.device_caps = akvcam_device_caps device ∧
    (dr.akvcam_driver_name.length ≤ 15 →
      (akvcam_ioctl_querycap dr node capability w).2.1.driver = dr.akvcam_driver_name) ∧
    ((akvcam_device_description device).length ≤ 31 →
      (akvcam_ioctl_querycap dr node capability w).2.1.card
        = akvcam_device_description device) ∧
    (-2 ^ 31 ≤ akvcam_device_num device → akvcam_device_num device < 2 ^ 31 →
      (akvcam_ioctl_querycap dr node capability w).2.1.bus_info
        = "platform:akvcam-" ++ c_decimal (akvcam_device_num device)) := by
  rw [akvcam_ioctl_querycap_eq dr node capability w device hdev]
  refine ⟨rfl, rfl, rfl, rfl, rfl, rfl, rfl, fun h => ?_, fun h => ?_, fun hlo hhi => ?_⟩
  · exact snprintf_fits 16 _ (by omega)
  · exact snprintf_fits 32 _ (by omega)
  · apply snprintf_fits 32
    have hlen := c_decimal_length (akvcam_device_num device) hlo hhi
    have h16 : ("platform:akvcam-" : String).length = 16 := by decide
    rw [String.length_append, h16]
    omega

/-- C27 witness: on the sample capture device, number 0, with description
"akvcam", the response has driver "akvcam", card "akvcam", bus_info
"platform:akvcam-0", version 0x010000 and `device_caps` 0. -/
theorem akvcam_ioctl_querycap_fields_witness :
    akvcam_driver_device_from_num_nr (sample_world_controls 0)
        (akvcam_node_device_num sample_node_a) = some (sample_device_controls 0) ∧
    (akvcam_ioctl_querycap sample_env.driver sample_node_a ⟨"", "", "", 0, 0, 0⟩
        (sample_world_controls 0)).1 = 0 ∧
    (akvcam_ioctl_querycap sample_env.driver sample_node_a ⟨"", "", "", 0, 0, 0⟩
        (sample_world_controls 0)).2.1
      = ⟨"akvcam", "akvcam", "platform:akvcam-0", 0x010000, 0x80000000, 0⟩ :=
  ⟨rfl,
   (akvcam_ioctl_querycap_fields sample_env.driver sample_node_a ⟨"", "", "", 0, 0, 0⟩
      (sample_world_controls 0) (sample_device_controls 0) rfl).1,
   by decide⟩

end Capability

/-! ## Theorems: starting and stopping streaming -/

section StreamingSwitch

variable {B C E : Type}

theorem akvcam_ioctl_streamon_eq (so : Streaming B C) (node : akvcam_node) (type : Int)
    (w : World B C E) (device : akvcam_device B C)
    (hdev : akvcam_driver_device_from_num_nr w (akvcam_node_device_num node) = some device)
    (htype : v4l2_buf_type_of_int type = akvcam_device_v4l2_type device) :
    akvcam_ioctl_streamon so node type w
      = (if (so.akvcam_device_start_streaming
              (akvcam_device_set_broadcasting_node device (akvcam_node_id node))).1 = false
          then - EIO else 0,
         type,
         w.store (akvcam_node_device_num node)
           (so.akvcam_device_start_streaming
             (akvcam_device_set_broadcasting_node device (akvcam_node_id node))).2) := by
  unfold akvcam_ioctl_streamon
  simp only [hdev, htype, ne_eq, not_true_eq_false, if_false]
  split <;> rfl

/-- C22: `akvcam_ioctl_streamon` and `akvcam_ioctl_streamoff` called on an existing
device with a buffer type other than the device's return `-EINVAL` and leave the
driver state as it is, the streaming flag and the broadcasting node of the device
included; the result is the same whatever the start and stop operations of the
Device are, so neither is asked for. -/
theorem streaming_type_mismatch (node : akvcam_node) (type : Int) (w : World B C E)
    (device : akvcam_device B C)
    (hdev : akvcam_driver_device_from_num_nr w (akvcam_node_device_num node) = some device)
    (htype : v4l2_buf_type_of_int type ≠ akvcam_device_v4l2_type device) :
    ∀ so : Streaming B C,
      akvcam_ioctl_streamon so node type w = (-EINVAL, type, w) ∧
      akvcam_ioctl_streamoff so node type w = (-EINVAL, type, w) := by
  intro so
  constructor
  · simp [akvcam_ioctl_streamon, hdev, htype]
  · simp [akvcam_ioctl_streamoff, hdev, htype]

/-- C22 witness: the sample device is of the capture type; `akvcam_ioctl_streamon`
and `akvcam_ioctl_streamoff` with the output buffer type return `-EINVAL` and leave
the driver state as it is. -/
theorem streaming_type_mismatch_witness :
    (akvcam_driver_device_from_num_nr (sample_world_controls 0)
        (akvcam_node_device_num sample_node_a) = some (sample_device_controls 0) ∧
      akvcam_device_v4l2_type (sample_device_controls 0) = V4L2_BUF_TYPE_VIDEO_CAPTURE ∧
      v4l2_buf_type_of_int 2 = V4L2_BUF_TYPE_VIDEO_OUTPUT) ∧
    akvcam_ioctl_streamon sample_streaming_starts sample_node_a 2 (sample_world_controls 0)
      = (-EINVAL, 2, sample_world_controls 0) ∧
    akvcam_ioctl_streamoff sample_streaming_starts sample_node_a 2 (sample_world_controls 0)
      = (-EINVAL, 2, sample_world_controls 0) :=
  ⟨⟨rfl, rfl, by decide⟩,
   streaming_type_mismatch sample_node_a 2 (sample_world_controls 0) (sample_device_controls 0)
     rfl (by decide) sample_streaming_starts⟩

/-- C25: `akvcam_ioctl_streamon` on an existing device with the device's buffer
type records the calling node's id as broadcasting node and asks the device, so
changed, to start streaming; it returns 0 if the start succeeds and `-EIO` if it
fails, and stores the device the start leaves. With a start operation that leaves
the broadcasting node alone, the broadcasting node after the call is the caller's
id in both cases. -/
theorem akvcam_ioctl_streamon_broadcasting (so : Streaming B C) (node : akvcam_node)
    (type : Int) (w : World B C E) (device : akvcam_device B C)
    (hdev : akvcam_driver_device_from_num_nr w (akvcam_node_device_num node) = some device)
    (htype : v4l2_buf_type_of_int type = akvcam_device_v4l2_type device)
    (hstart : ∀ d : akvcam_device B C,
      (so.akvcam_device_start_streaming d).2.broadcasting_node = d.broadcasting_node) :
    ((so.akvcam_device_start_streaming
        (akvcam_device_set_broadcasting_node device (akvcam_node_id node))).1 = true →
      (akvcam_ioctl_streamon so node type w).1 = 0) ∧
    ((so.akvcam_device_start_streaming
        (akvcam_device_set_broadcasting_node device (akvcam_node_id node))).1 = false →
      (akvcam_ioctl_streamon so node type w).1 = - EIO) ∧
    (akvcam_ioctl_streamon so node type w).2.1 = type ∧
    ∃ device', akvcam_driver_device_from_num_nr (akvcam_ioctl_streamon so node type w).2.2
        (akvcam_node_device_num node) = some device' ∧
      device' = (so.akvcam_device_start_streaming
        (akvcam_device_set_broadcasting_node device (akvcam_node_id node))).2 ∧
      device'.broadcasting_node = akvcam_node_id node := by
  rw [akvcam_ioctl_streamon_eq so node type w device hdev htype]
  refine ⟨fun h => ?_, fun h => ?_, rfl, _, World.store_lookup _ _ _, rfl, ?_⟩
  · simp [h]
  · simp [h]
  · rw [hstart]
    rfl

/-- C25 witness: on the sample capture device, whose broadcasting node is -1,
`akvcam_ioctl_streamon` by node 1 with the capture buffer type returns 0 when the
start succeeds and `-EIO` when it fails; the broadcasting node is 1 after both. -/
theorem akvcam_ioctl_streamon_broadcasting_witness :
    (akvcam_driver_device_from_num_nr (sample_world_controls 0)
        (akvcam_node_device_num sample_node_a) = some (sample_device_controls 0) ∧
      v4l2_buf_type_of_int 1 = akvcam_device_v4l2_type (sample_device_controls 0)) ∧
    (akvcam_ioctl_streamon sample_streaming_starts sample_node_a 1
        (sample_world_controls 0)).1 = 0 ∧
    (akvcam_ioctl_streamon sample_streaming_fails sample_node_a 1
        (sample_world_controls 0)).1 = - EIO ∧
    ((akvcam_ioctl_streamon sample_streaming_starts sample_node_a 1
        (sample_world_controls 0)).2.2.devices 0).map (fun device => device.broadcasting_node)
      = some 1 ∧
    ((akvcam_ioctl_streamon sample_streaming_fails sample_node_a 1
        (sample_world_controls 0)).2.2.devices 0).map (fun device => device.broadcasting_node)
      = some 1 :=
  ⟨⟨rfl, by decide⟩,
   (akvcam_ioctl_streamon_broadcasting sample_streaming_starts sample_node_a 1
      (sample_world_controls 0) (sample_device_controls 0) rfl (by decide)
      (fun _ => rfl)).1 rfl,
   (akvcam_ioctl_streamon_broadcasting sample_streaming_fails sample_node_a 1
      (sample_world_controls 0) (sample_device_controls 0) rfl (by decide)
      (fun _ => rfl)).2.1 rfl,
   by decide, by decide⟩

end StreamingSwitch

/-! ## Theorems: control handlers -/

section ControlHandlers

variable {B C E : Type}

/-- C23: on an existing device in read/write mode each of the eight control
handlers returns `-ENOTTY` and leaves its argument and the driver state as they
are, whatever the Controls operations are; on an existing device not in read/write
mode each returns the result of its Controls operation on the device's controls
and the same argument (with mode flag 0 for the extended get, set and try), and
leaves the argument as that operation leaves it. -/
theorem control_handlers_gate (co : Controls C) (node : akvcam_node) (w : World B C E)
    (device : akvcam_device B C)
    (hdev : akvcam_driver_device_from_num_nr w (akvcam_node_device_num node) = some device) :
    (akvcam_device_rw_mode device &&& AKVCAM_RW_MODE_READWRITE ≠ 0 →
      (∀ arg : v4l2_query_ext_ctrl, akvcam_ioctl_query_ext_ctrl co node arg w = (-ENOTTY, arg, w)) ∧
      (∀ arg : v4l2_ext_controls, akvcam_ioctl_g_ext_ctrls co node arg w = (-ENOTTY, arg, w)) ∧
      (∀ arg : v4l2_ext_controls, akvcam_ioctl_s_ext_ctrls co node arg w = (-ENOTTY, arg, w)) ∧
      (∀ arg : v4l2_ext_controls, akvcam_ioctl_try_ext_ctrls co node arg w = (-ENOTTY, arg, w)) ∧
      (∀ arg : v4l2_queryctrl, akvcam_ioctl_queryctrl co node arg w = (-ENOTTY, arg, w)) ∧
      (∀ arg : v4l2_querymenu, akvcam_ioctl_querymenu co node arg w = (-ENOTTY, arg, w)) ∧
      (∀ arg : v4l2_control, akvcam_ioctl_g_ctrl co node arg w = (-ENOTTY, arg, w)) ∧
      (∀ arg : v4l2_control, akvcam_ioctl_s_ctrl co node arg w = (-ENOTTY, arg, w))) ∧
    (akvcam_device_rw_mode device &&& AKVCAM_RW_MODE_READWRITE = 0 →
      (∀ arg : v4l2_query_ext_ctrl,
        (akvcam_ioctl_query_ext_ctrl co node arg w).1
          = (co.akvcam_controls_fill_ext (akvcam_device_controls_nr device) arg).1 ∧
        (akvcam_ioctl_query_ext_ctrl co node arg w).2.1
          = (co.akvcam_controls_fill_ext (akvcam_device_controls_nr device) arg).2.2) ∧
      (∀ arg : v4l2_ext_controls,
        (akvcam_ioctl_g_ext_ctrls co node arg w).1
          = (co.akvcam_controls_get_ext (akvcam_device_controls_nr device) arg 0).1 ∧
        (akvcam_ioctl_g_ext_ctrls co node arg w).2.1
          = (co.akvcam_controls_get_ext (akvcam_device_controls_nr device) arg 0).2.2) ∧
      (∀ arg : v4l2_ext_controls,
        (akvcam_ioctl_s_ext_ctrls co node arg w).1
          = (co.akvcam_controls_set_ext (akvcam_device_controls_nr device) arg 0).1 ∧
        (akvcam_ioctl_s_ext_ctrls co node arg w).2.1
          = (co.akvcam_controls_set_ext (akvcam_device_controls_nr device) arg 0).2.2) ∧
      (∀ arg : v4l2_ext_controls,
        (akvcam_ioctl_try_ext_ctrls co node arg w).1
          = (co.akvcam_controls_try_ext (akvcam_device_controls_nr device) arg 0).1 ∧
        (akvcam_ioctl_try_ext_ctrls co node arg w).2.1
          = (co.akvcam_controls_try_ext (akvcam_device_controls_nr device) arg 0).2.2) ∧
      (∀ arg : v4l2_queryctrl,
        (akvcam_ioctl_queryctrl co node arg w).1
          = (co.akvcam_controls_fill (akvcam_device_controls_nr device) arg).1 ∧
        (akvcam_ioctl_queryctrl co node arg w).2.1
          = (co.akvcam_controls_fill (akvcam_device_controls_nr device) arg).2.2) ∧
      (∀ arg : v4l2_querymenu,
        (akvcam_ioctl_querymenu co node arg w).1
          = (co.akvcam_controls_fill_menu (akvcam_device_controls_nr device) arg).1 ∧
        (akvcam_ioctl_querymenu co node arg w).2.1
          = (co.akvcam_controls_fill_menu (akvcam_device_controls_nr device) arg).2.2) ∧
      (∀ arg : v4l2_control,
        (akvcam_ioctl_g_ctrl co node arg w).1
          = (co.akvcam_controls_get (akvcam_device_controls_nr device) arg).1 ∧
        (akvcam_ioctl_g_ctrl co node arg w).2.1
          = (co.akvcam_controls_get (akvcam_device_controls_nr device) arg).2.2) ∧
      (∀ arg : v4l2_control,
        (akvcam_ioctl_s_ctrl co node arg w).1
          = (co.akvcam_controls_set (akvcam_device_controls_nr device) arg).1 ∧
        (akvcam_ioctl_s_ctrl co node arg w).2.1
          = (co.akvcam_controls_set (akvcam_device_controls_nr device) arg).2.2)) := by
  constructor
  · intro hrw
    refine ⟨?_, ?_, ?_, ?_, ?_, ?_, ?_, ?_⟩ <;> intro arg <;>
      simp [akvcam_ioctl_query_ext_ctrl, akvcam_ioctl_g_ext_ctrls, akvcam_ioctl_s_ext_ctrls, akvcam_ioctl_try_ext_ctrls, akvcam_ioctl_queryctrl, akvcam_ioctl_querymenu, akvcam_ioctl_g_ctrl, akvcam_ioctl_s_ctrl, hdev, hrw]
  · intro hrw
    refine ⟨?_, ?_, ?_, ?_, ?_, ?_, ?_, ?_⟩ <;> intro arg <;>
      simp [akvcam_ioctl_query_ext_ctrl, akvcam_ioctl_g_ext_ctrls, akvcam_ioctl_s_ext_ctrls, akvcam_ioctl_try_ext_ctrls, akvcam_ioctl_queryctrl, akvcam_ioctl_querymenu, akvcam_ioctl_g_ctrl, akvcam_ioctl_s_ctrl, hdev, hrw]

/-- C23 witness: on the sample device in read/write mode `akvcam_ioctl_g_ctrl`
returns `-ENOTTY`; on the sample device not in read/write mode it returns what the
sample Controls return: 0 for the brightness control and `-EINVAL` for control 0. -/
theorem control_handlers_gate_witness :
    (akvcam_driver_device_from_num_nr (sample_world_controls 1)
        (akvcam_node_device_num sample_node_a) = some (sample_device_controls 1) ∧
      akvcam_device_rw_mode (sample_device_controls 1) &&& AKVCAM_RW_MODE_READWRITE ≠ 0) ∧
    akvcam_ioctl_g_ctrl sample_controls sample_node_a ⟨V4L2_CID_BRIGHTNESS, 0⟩
        (sample_world_controls 1)
      = (-ENOTTY, ⟨V4L2_CID_BRIGHTNESS, 0⟩, sample_world_controls 1) ∧
    (akvcam_ioctl_g_ctrl sample_controls sample_node_a ⟨V4L2_CID_BRIGHTNESS, 0⟩
        (sample_world_controls 0)).1 = 0 ∧
    (akvcam_ioctl_g_ctrl sample_controls sample_node_a ⟨0, 0⟩
        (sample_world_controls 0)).1 = -EINVAL :=
  ⟨⟨rfl, by decide⟩,
   ((control_handlers_gate sample_controls sample_node_a (sample_world_controls 1)
      (sample_device_controls 1) rfl).1 (by decide)).2.2.2.2.2.2.1 ⟨V4L2_CID_BRIGHTNESS, 0⟩,
   by decide, by decide⟩

end ControlHandlers

/-! ## Theorems: effect of a priority request -/

section PriorityEffect

variable {B C E : Type}

/-- C24: `akvcam_ioctl_s_priority` on an existing device. If a node other than the
caller holds priority it returns `-EINVAL` and leaves the driver state as it is.
Otherwise it returns 0 and the device has the level asked for, with no holder when
that level is DEFAULT and the calling node as holder for any other level. -/
theorem akvcam_ioctl_s_priority_effect (node : akvcam_node) (priority : Nat)
    (w : World B C E) (device : akvcam_device B C)
    (hdev : akvcam_driver_device_from_num_nr w (akvcam_node_device_num node) = some device) :
    (∀ pn, akvcam_device_priority_node device = some pn → pn ≠ node →
      akvcam_ioctl_s_priority node priority w = (-EINVAL, priority, w)) ∧
    ((akvcam_device_priority_node device = none
        ∨ akvcam_device_priority_node device = some node) →
      (akvcam_ioctl_s_priority node priority w).1 = 0 ∧
      ∃ device', akvcam_driver_device_from_num_nr (akvcam_ioctl_s_priority node priority w).2.2
          (akvcam_node_device_num node) = some device' ∧
        akvcam_device_priority device' = priority ∧
        (priority = V4L2_PRIORITY_DEFAULT → akvcam_device_priority_node device' = none) ∧
        (priority ≠ V4L2_PRIORITY_DEFAULT →
          akvcam_device_priority_node device' = some node)) := by
  constructor
  · intro pn hpn hne
    exact akvcam_ioctl_s_priority_held node pn priority w device hdev hpn hne
  · intro hfree
    rw [akvcam_ioctl_s_priority_free node priority w device hdev hfree]
    refine ⟨rfl, _, World.store_lookup _ _ _, rfl, fun h => ?_, fun h => ?_⟩
    · simp [akvcam_device_set_priority, akvcam_device_priority_node, h]
    · simp [akvcam_device_set_priority, akvcam_device_priority_node, h]

/-- C24 witness: on the sample device, which has no priority holder, node 1 asking
for level 3 gets 0 and becomes the holder; node 2 asking for any level after that
gets `-EINVAL`; node 1 asking for DEFAULT gets 0 and the device has no holder. -/
theorem akvcam_ioctl_s_priority_effect_witness :
    akvcam_driver_device_from_num_nr (sample_world_controls 0)
        (akvcam_node_device_num sample_node_a) = some (sample_device_controls 0) ∧
    (akvcam_ioctl_s_priority sample_node_a 3 (sample_world_controls 0)).1 = 0 ∧
    ((akvcam_ioctl_s_priority sample_node_a 3 (sample_world_controls 0)).2.2.devices 0).map
        (fun device => (device.priority, device.priority_node))
      = some (3, some sample_node_a) ∧
    (akvcam_ioctl_s_priority sample_node_b 1
        (akvcam_ioctl_s_priority sample_node_a 3 (sample_world_controls 0)).2.2).1
      = -EINVAL ∧
    ((akvcam_ioctl_s_priority sample_node_a V4L2_PRIORITY_DEFAULT
        (akvcam_ioctl_s_priority sample_node_a 3 (sample_world_controls 0)).2.2).2.2.devices
          0).map (fun device => (device.priority, device.priority_node))
      = some (V4L2_PRIORITY_DEFAULT, none) :=
  ⟨rfl,
   ((akvcam_ioctl_s_priority_effect sample_node_a 3 (sample_world_controls 0)
      (sample_device_controls 0) rfl).2 (Or.inl rfl)).1,
   by decide, by decide, by decide⟩

end PriorityEffect

/-! ## Theorems: a device that is gone -/

section DeviceGone

variable {B C E : Type}

/-- C26: when the node's device number does not resolve to a device, every handler
of the table returns `-EIO` and leaves its argument structure and the driver state
as they are; the result is the same whatever the collaborators are, so none of
them is called. -/
theorem akvcam_ioctl_proc_no_device (node : akvcam_node) (w : World B C E)
    (hdev : akvcam_driver_device_from_num_nr w (akvcam_node_device_num node) = none) :
    ∀ (env : Env B C E) (call : akvcam_call),
      akvcam_ioctl_proc env node w call = (- EIO, call, w) := by
  intro env call
  cases call <;>
    simp [akvcam_ioctl_proc, akvcam_ioctl_querycap, akvcam_ioctl_query_ext_ctrl, akvcam_ioctl_g_ext_ctrls, akvcam_ioctl_s_ext_ctrls, akvcam_ioctl_try_ext_ctrls, akvcam_ioctl_queryctrl, akvcam_ioctl_querymenu, akvcam_ioctl_g_ctrl, akvcam_ioctl_s_ctrl, akvcam_ioctl_enuminput, akvcam_ioctl_g_input, akvcam_ioctl_s_input, akvcam_ioctl_enumoutput, akvcam_ioctl_g_output, akvcam_ioctl_s_output, akvcam_ioctl_enum_fmt, akvcam_ioctl_g_fmt, akvcam_ioctl_s_fmt, akvcam_ioctl_try_fmt, akvcam_ioctl_g_parm, akvcam_ioctl_s_parm, akvcam_ioctl_enum_framesizes, akvcam_ioctl_enum_frameintervals, akvcam_ioctl_g_priority, akvcam_ioctl_s_priority, akvcam_ioctl_subscribe_event, akvcam_ioctl_unsubscribe_event, akvcam_ioctl_dqevent, akvcam_ioctl_reqbufs, akvcam_ioctl_querybuf, akvcam_ioctl_create_bufs, akvcam_ioctl_qbuf, akvcam_ioctl_dqbuf, akvcam_ioctl_streamon, akvcam_ioctl_streamoff, hdev]

/-- C26 witness: the sample driver state has no device 7; on a node of device 7
`akvcam_ioctl_querycap`, `akvcam_ioctl_s_fmt` and `akvcam_ioctl_streamon` return
`-EIO` and change nothing. -/
theorem akvcam_ioctl_proc_no_device_witness :
    akvcam_driver_device_from_num_nr (sample_world_controls 0)
        (akvcam_node_device_num sample_node_gone) = none ∧
    akvcam_ioctl_proc sample_env sample_node_gone (sample_world_controls 0)
        (.querycap ⟨"", "", "", 0, 0, 0⟩)
      = (- EIO, .querycap ⟨"", "", "", 0, 0, 0⟩, sample_world_controls 0) ∧
    akvcam_ioctl_proc sample_env sample_node_gone (sample_world_controls 0)
        (.s_fmt sample_request_800x600)
      = (- EIO, .s_fmt sample_request_800x600, sample_world_controls 0) ∧
    akvcam_ioctl_proc sample_env sample_node_gone (sample_world_controls 0) (.streamon 1)
      = (- EIO, .streamon 1, sample_world_controls 0) :=
  ⟨rfl,
   akvcam_ioctl_proc_no_device sample_node_gone (sample_world_controls 0) rfl sample_env _,
   akvcam_ioctl_proc_no_device sample_node_gone (sample_world_controls 0) rfl sample_env _,
   akvcam_ioctl_proc_no_device sample_node_gone (sample_world_controls 0) rfl sample_env _⟩

end DeviceGone

/-! ## Theorems: reciprocal of the frame rate -/

section Reciprocal

variable {B C E : Type}

/-- C28: on an existing device and with the device's buffer type,
`akvcam_ioctl_g_parm` returns 0 and reports a timeperframe whose numerator is the
denominator of the current format's frame rate and whose denominator is its
numerator. `akvcam_ioctl_s_parm` asks Formats for the format nearest to the
current format with the frame rate's numerator replaced by the requested
timeperframe's denominator and its denominator by the requested numerator: if
there is none it returns `-EINVAL` and changes nothing; if there is one it returns
0, commits it as current format and reports the reciprocal of its frame rate, and
an `akvcam_ioctl_g_parm` right after reports the same timeperframe. -/
theorem reciprocal_conversion (fo : Formats) (bo : Buffers B) (node : akvcam_node)
    (w : World B C E) (device : akvcam_device B C)
    (hdev : akvcam_driver_device_from_num_nr w (akvcam_node_device_num node) = some device) :
    (∀ param : v4l2_streamparm, param.type = akvcam_device_v4l2_type device →
      (akvcam_ioctl_g_parm bo node param w).1 = 0 ∧
      (akvcam_ioctl_g_parm bo node param w).2.1.parm.timeperframe.numerator
        = (akvcam_format_frame_rate (akvcam_device_format device)).denominator ∧
      (akvcam_ioctl_g_parm bo node param w).2.1.parm.timeperframe.denominator
        = (akvcam_format_frame_rate (akvcam_device_format device)).numerator) ∧
    (∀ param : v4l2_streamparm, param.type = akvcam_device_v4l2_type device →
      fo.akvcam_format_nearest (akvcam_device_formats device)
        { akvcam_device_format device with
          frame_rate :=
            ⟨param.parm.timeperframe.denominator, param.parm.timeperframe.numerator⟩ }
        = none →
      akvcam_ioctl_s_parm fo bo node param w = (-EINVAL, param, w)) ∧
    (∀ (param : v4l2_streamparm) (nf : akvcam_format),
      param.type = akvcam_device_v4l2_type device →
      fo.akvcam_format_nearest (akvcam_device_formats device)
        { akvcam_device_format device with
          frame_rate :=
            ⟨param.parm.timeperframe.denominator, param.parm.timeperframe.numerator⟩ }
        = some nf →
      (akvcam_ioctl_s_parm fo bo node param w).1 = 0 ∧
      (akvcam_ioctl_s_parm fo bo node param w).2.1.parm.timeperframe.numerator
        = (akvcam_format_frame_rate nf).denominator ∧
      (akvcam_ioctl_s_parm fo bo node param w).2.1.parm.timeperframe.denominator
        = (akvcam_format_frame_rate nf).numerator ∧
      (∃ device', akvcam_driver_device_from_num_nr (akvcam_ioctl_s_parm fo bo node param w).2.2
          (akvcam_node_device_num node) = some device' ∧
        akvcam_device_format device' = nf) ∧
      ∀ param' : v4l2_streamparm, param'.type = param.type →
        (akvcam_ioctl_g_parm bo node param' (akvcam_ioctl_s_parm fo bo node param w).2.2).1 = 0 ∧
        (akvcam_ioctl_g_parm bo node param'
            (akvcam_ioctl_s_parm fo bo node param w).2.2).2.1.parm.timeperframe
          = (akvcam_ioctl_s_parm fo bo node param w).2.1.parm.timeperframe) := by
  refine ⟨fun param htype => ?_, fun param htype hn => ?_, fun param nf htype hn => ?_⟩
  · have h := akvcam_ioctl_g_parm_eq bo node param w device hdev htype
    refine ⟨h.1, ?_, ?_⟩
    · rw [h.2.1]
    · rw [h.2.1]
  · unfold akvcam_ioctl_s_parm
    simp only [hdev, htype, ne_eq, not_true_eq_false, if_false, ite_self, hn]
  · obtain ⟨h0, _, htpf, pool, hw⟩ :=
      akvcam_ioctl_s_parm_shape fo bo node param w device nf hdev htype hn
    refine ⟨h0, ?_, ?_, ?_, fun param' ht => ?_⟩
    · rw [htpf]
    · rw [htpf]
    · rw [hw]
      exact ⟨_, World.store_lookup _ _ _, rfl⟩
    · rw [htpf, hw]
      have hD := World.store_lookup w (akvcam_node_device_num node)
        { akvcam_device_set_format device nf with buffers := pool }
      have h := akvcam_ioctl_g_parm_eq bo node param' _ _ hD (ht.trans htype)
      exact ⟨h.1, h.2.1⟩

/-- C28 witness: the sample device is set to 15 frames a second and supports 30 as
well. `akvcam_ioctl_g_parm` reports {1, 15}; `akvcam_ioctl_s_parm` with {1, 30}
reports {1, 30}, and so does the `akvcam_ioctl_g_parm` that follows. -/
theorem reciprocal_conversion_witness :
    akvcam_driver_device_from_num_nr sample_world_rates
        (akvcam_node_device_num sample_node_a) = some sample_device_rates ∧
    (akvcam_ioctl_g_parm sample_buffers sample_node_a
      ⟨V4L2_BUF_TYPE_VIDEO_CAPTURE, ⟨0, 0, ⟨0, 0⟩, 0, 0⟩⟩
      sample_world_rates).2.1.parm.timeperframe.numerator
      = (akvcam_format_frame_rate (akvcam_device_format sample_device_rates)).denominator ∧
    (akvcam_ioctl_g_parm sample_buffers sample_node_a
      ⟨V4L2_BUF_TYPE_VIDEO_CAPTURE, ⟨0, 0, ⟨0, 0⟩, 0, 0⟩⟩
      sample_world_rates).2.1.parm.timeperframe = ⟨1, 15⟩ ∧
    (akvcam_ioctl_s_parm sample_formats sample_buffers sample_node_a
      ⟨V4L2_BUF_TYPE_VIDEO_CAPTURE, ⟨0, 0, ⟨1, 30⟩, 0, 0⟩⟩
      sample_world_rates).2.1.parm.timeperframe = ⟨1, 30⟩ ∧
    (akvcam_ioctl_g_parm sample_buffers sample_node_a
      ⟨V4L2_BUF_TYPE_VIDEO_CAPTURE, ⟨0, 0, ⟨0, 0⟩, 0, 0⟩⟩
      (akvcam_ioctl_s_parm sample_formats sample_buffers sample_node_a
        ⟨V4L2_BUF_TYPE_VIDEO_CAPTURE, ⟨0, 0, ⟨1, 30⟩, 0, 0⟩⟩
        sample_world_rates).2.2).2.1.parm.timeperframe = ⟨1, 30⟩ :=
  ⟨rfl,
   ((reciprocal_conversion sample_formats sample_buffers sample_node_a sample_world_rates
      sample_device_rates rfl).1 ⟨V4L2_BUF_TYPE_VIDEO_CAPTURE, ⟨0, 0, ⟨0, 0⟩, 0, 0⟩⟩ rfl).2.1,
   by decide, by decide, by decide⟩

end Reciprocal

/-! ## Theorems: enumeration by index -/

section Enumeration

variable {B C E : Type}

theorem akvcam_list_at_some {α : Type} (l : List α) (index : Nat) (h : index < l.length) :
    akvcam_list_at l index = some (l.get ⟨index, h⟩) := by
  simp [akvcam_list_at, List.getElem?_eq_getElem h]

theorem akvcam_list_at_none {α : Type} (l : List α) (index : Nat) (h : ¬ index < l.length) :
    akvcam_list_at l index = none := by
  simp only [akvcam_list_at]
  exact List.getElem?_eq_none (by omega)

/-- C29: on an existing device, `akvcam_ioctl_enum_fmt` with the device's buffer
type, `akvcam_ioctl_enum_framesizes` and `akvcam_ioctl_enum_frameintervals` return
0 exactly when the index asked for is less than the length of the list that
Formats gives (the pixel formats; the resolutions of the pixel format asked for;
the frame rates of the pixel format and resolution asked for). Then the response
holds the element of the list at that index: the pixel code with its description,
the width and height, or the reciprocal of the frame rate. For an index past the
end they return `-EINVAL` and leave the response structure as it is. The driver
state is left as it is in every case. -/
theorem index_enumeration (fl : FormatLists) (node : akvcam_node) (w : World B C E)
    (device : akvcam_device B C)
    (hdev : akvcam_driver_device_from_num_nr w (akvcam_node_device_num node) = some device) :
    (∀ format : v4l2_fmtdesc, format.type = akvcam_device_v4l2_type device →
      ((akvcam_ioctl_enum_fmt fl node format w).1 = 0
        ↔ format.index < (fl.akvcam_format_pixel_formats (akvcam_device_formats device)).length) ∧
      (∀ h : format.index
          < (fl.akvcam_format_pixel_formats (akvcam_device_formats device)).length,
        akvcam_ioctl_enum_fmt fl node format w
          = (0,
              { format with
                flags := 0,
                pixelformat := (fl.akvcam_format_pixel_formats
                  (akvcam_device_formats device)).get ⟨format.index, h⟩,
                description := snprintf 32 (fl.akvcam_format_string_from_fourcc
                  ((fl.akvcam_format_pixel_formats
                    (akvcam_device_formats device)).get ⟨format.index, h⟩)) },
              w)) ∧
      (¬ format.index < (fl.akvcam_format_pixel_formats (akvcam_device_formats device)).length →
        akvcam_ioctl_enum_fmt fl node format w = (-EINVAL, format, w))) ∧
    (∀ frame_sizes : v4l2_frmsizeenum,
      ((akvcam_ioctl_enum_framesizes fl node frame_sizes w).1 = 0
        ↔ frame_sizes.index < (fl.akvcam_format_resolutions (akvcam_device_formats device)
            frame_sizes.pixel_format).length) ∧
      (∀ h : frame_sizes.index < (fl.akvcam_format_resolutions (akvcam_device_formats device)
            frame_sizes.pixel_format).length,
        akvcam_ioctl_enum_framesizes fl node frame_sizes w
          = (0,
              { frame_sizes with
                type := V4L2_FRMSIZE_TYPE_DISCRETE,
                discrete := (fl.akvcam_format_resolutions (akvcam_device_formats device)
                  frame_sizes.pixel_format).get ⟨frame_sizes.index, h⟩ },
              w)) ∧
      (¬ frame_sizes.index < (fl.akvcam_format_resolutions (akvcam_device_formats device)
            frame_sizes.pixel_format).length →
        akvcam_ioctl_enum_framesizes fl node frame_sizes w = (-EINVAL, frame_sizes, w))) ∧
    (∀ frame_intervals : v4l2_frmivalenum,
      ((akvcam_ioctl_enum_frameintervals fl node frame_intervals w).1 = 0
        ↔ frame_intervals.index < (fl.akvcam_format_frame_rates (akvcam_device_formats device)
            frame_intervals.pixel_format frame_intervals.width
            frame_intervals.height).length) ∧
      (∀ h : frame_intervals.index < (fl.akvcam_format_frame_rates
            (akvcam_device_formats device) frame_intervals.pixel_format frame_intervals.width
            frame_intervals.height).length,
        akvcam_ioctl_enum_frameintervals fl node frame_intervals w
          = (0,
              { frame_intervals with
                type := V4L2_FRMIVAL_TYPE_DISCRETE,
                discrete :=
                  ⟨((fl.akvcam_format_frame_rates (akvcam_device_formats device)
                      frame_intervals.pixel_format frame_intervals.width
                      frame_intervals.height).get ⟨frame_intervals.index, h⟩).denominator,
                   ((fl.akvcam_format_frame_rates (akvcam_device_formats device)
                      frame_intervals.pixel_format frame_intervals.width
                      frame_intervals.height).get ⟨frame_intervals.index, h⟩).numerator⟩ },
              w)) ∧
      (¬ frame_intervals.index < (fl.akvcam_format_frame_rates (akvcam_device_formats device)
            frame_intervals.pixel_format frame_intervals.width
            frame_intervals.height).length →
        akvcam_ioctl_enum_frameintervals fl node frame_intervals w
          = (-EINVAL, frame_intervals, w))) := by
  refine ⟨fun format htype => ?_, fun frame_sizes => ?_, fun frame_intervals => ?_⟩
  · have hsome : ∀ h : format.index
          < (fl.akvcam_format_pixel_formats (akvcam_device_formats device)).length,
        akvcam_ioctl_enum_fmt fl node format w
          = (0,
              { format with
                flags := 0,
                pixelformat := (fl.akvcam_format_pixel_formats
                  (akvcam_device_formats device)).get ⟨format.index, h⟩,
                description := snprintf 32 (fl.akvcam_format_string_from_fourcc
                  ((fl.akvcam_format_pixel_formats
                    (akvcam_device_formats device)).get ⟨format.index, h⟩)) },
              w) := by
      intro h
      unfold akvcam_ioctl_enum_fmt
      simp only [hdev, htype, ne_eq, not_true_eq_false, if_false, akvcam_list_at_some _ _ h]
    have hnone : ¬ format.index
          < (fl.akvcam_format_pixel_formats (akvcam_device_formats device)).length →
        akvcam_ioctl_enum_fmt fl node format w = (-EINVAL, format, w) := by
      intro h
      unfold akvcam_ioctl_enum_fmt
      simp only [hdev, htype, ne_eq, not_true_eq_false, if_false, akvcam_list_at_none _ _ h]
    refine ⟨?_, hsome, hnone⟩
    constructor
    · intro h0
      by_contra hlt
      rw [hnone hlt] at h0
      exact absurd h0 (show (-EINVAL : Int) ≠ 0 by decide)
    · intro hlt
      rw [hsome hlt]
  · have hsome : ∀ h : frame_sizes.index < (fl.akvcam_format_resolutions
            (akvcam_device_formats device) frame_sizes.pixel_format).length,
        akvcam_ioctl_enum_framesizes fl node frame_sizes w
          = (0,
              { frame_sizes with
                type := V4L2_FRMSIZE_TYPE_DISCRETE,
                discrete := (fl.akvcam_format_resolutions (akvcam_device_formats device)
                  frame_sizes.pixel_format).get ⟨frame_sizes.index, h⟩ },
              w) := by
      intro h
      unfold akvcam_ioctl_enum_framesizes
      simp only [hdev, akvcam_list_at_some _ _ h]
    have hnone : ¬ frame_sizes.index < (fl.akvcam_format_resolutions
            (akvcam_device_formats device) frame_sizes.pixel_format).length →
        akvcam_ioctl_enum_framesizes fl node frame_sizes w = (-EINVAL, frame_sizes, w) := by
      intro h
      unfold akvcam_ioctl_enum_framesizes
      simp only [hdev, akvcam_list_at_none _ _ h]
    refine ⟨?_, hsome, hnone⟩
    constructor
    · intro h0
      by_contra hlt
      rw [hnone hlt] at h0
      exact absurd h0 (show (-EINVAL : Int) ≠ 0 by decide)
    · intro hlt
      rw [hsome hlt]
  · have hsome : ∀ h : frame_intervals.index < (fl.akvcam_format_frame_rates
            (akvcam_device_formats device) frame_intervals.pixel_format frame_intervals.width
            frame_intervals.height).length,
        akvcam_ioctl_enum_frameintervals fl node frame_intervals w
          = (0,
              { frame_intervals with
                type := V4L2_FRMIVAL_TYPE_DISCRETE,
                discrete :=
                  ⟨((fl.akvcam_format_frame_rates (akvcam_device_formats device)
                      frame_intervals.pixel_format frame_intervals.width
                      frame_intervals.height).get ⟨frame_intervals.index, h⟩).denominator,
                   ((fl.akvcam_format_frame_rates (akvcam_device_formats device)
                      frame_intervals.pixel_format frame_intervals.width
                      frame_intervals.height).get ⟨frame_intervals.index, h⟩).numerator⟩ },
              w) := by
      intro h
      unfold akvcam_ioctl_enum_frameintervals
      simp only [hdev, akvcam_list_at_some _ _ h]
    have hnone : ¬ frame_intervals.index < (fl.akvcam_format_frame_rates
            (akvcam_device_formats device) frame_intervals.pixel_format frame_intervals.width
            frame_intervals.height).length →
        akvcam_ioctl_enum_frameintervals fl node frame_intervals w
          = (-EINVAL, frame_intervals, w) := by
      intro h
      unfold akvcam_ioctl_enum_frameintervals
      simp only [hdev, akvcam_list_at_none _ _ h]
    refine ⟨?_, hsome, hnone⟩
    constructor
    · intro h0
      by_contra hlt
      rw [hnone hlt] at h0
      exact absurd h0 (show (-EINVAL : Int) ≠ 0 by decide)
    · intro hlt
      rw [hsome hlt]

/-- C29 witness: the sample device supports YUYV 640x480 at 30/1 and 320x240 at
15/1. Resolution 1 of YUYV is 320x240 and resolution 2 is past the end; frame
interval 0 of YUYV 320x240 is {1, 15}; pixel format 0 is YUYV and pixel format 1
is past the end. -/
theorem index_enumeration_witness :
    akvcam_driver_device_from_num_nr (sample_world_controls 0)
        (akvcam_node_device_num sample_node_a) = some (sample_device_controls 0) ∧
    ((akvcam_ioctl_enum_framesizes sample_format_lists sample_node_a
        ⟨1, V4L2_PIX_FMT_YUYV, 0, ⟨0, 0⟩⟩ (sample_world_controls 0)).1 = 0
      ↔ 1 < (sample_format_lists.akvcam_format_resolutions
          (akvcam_device_formats (sample_device_controls 0)) V4L2_PIX_FMT_YUYV).length) ∧
    (akvcam_ioctl_enum_framesizes sample_format_lists sample_node_a
        ⟨1, V4L2_PIX_FMT_YUYV, 0, ⟨0, 0⟩⟩ (sample_world_controls 0)).2.1
      = ⟨1, V4L2_PIX_FMT_YUYV, V4L2_FRMSIZE_TYPE_DISCRETE, ⟨320, 240⟩⟩ ∧
    ((akvcam_ioctl_enum_framesizes sample_format_lists sample_node_a
        ⟨2, V4L2_PIX_FMT_YUYV, 0, ⟨0, 0⟩⟩ (sample_world_controls 0)).1,
      (akvcam_ioctl_enum_framesizes sample_format_lists sample_node_a
        ⟨2, V4L2_PIX_FMT_YUYV, 0, ⟨0, 0⟩⟩ (sample_world_controls 0)).2.1)
      = (-EINVAL, ⟨2, V4L2_PIX_FMT_YUYV, 0, ⟨0, 0⟩⟩) ∧
    (akvcam_ioctl_enum_frameintervals sample_format_lists sample_node_a
        ⟨0, V4L2_PIX_FMT_YUYV, 320, 240, 0, ⟨0, 0⟩⟩ (sample_world_controls 0)).2.1.discrete
      = ⟨1, 15⟩ ∧
    (akvcam_ioctl_enum_fmt sample_format_lists sample_node_a
        ⟨0, V4L2_BUF_TYPE_VIDEO_CAPTURE, 7, "", 0⟩ (sample_world_controls 0)).2.1
      = ⟨0, V4L2_BUF_TYPE_VIDEO_CAPTURE, 0, "YUYV", V4L2_PIX_FMT_YUYV⟩ ∧
    (akvcam_ioctl_enum_fmt sample_format_lists sample_node_a
        ⟨1, V4L2_BUF_TYPE_VIDEO_CAPTURE, 7, "", 0⟩ (sample_world_controls 0)).1 = -EINVAL :=
  ⟨rfl,
   ((index_enumeration sample_format_lists sample_node_a (sample_world_controls 0)
      (sample_device_controls 0) rfl).2.1 ⟨1, V4L2_PIX_FMT_YUYV, 0, ⟨0, 0⟩⟩).1,
   by decide, by decide, by decide, by decide, by decide⟩

end Enumeration

/-! ## Theorems: the virtual input and output -/

section InputsOutputs

variable {B C E : Type}

/-- C30: on an existing device `akvcam_ioctl_enuminput` returns `-ENOTTY` when the
device is of the output class, whatever the index; on any other device it returns
`-EINVAL` for an index above 0 and, for index 0, returns 0 with a response of
index 0 and type camera. `akvcam_ioctl_enumoutput` returns `-ENOTTY` when the
device is of the capture class; on any other device it returns `-EINVAL` for an
index above 0 and, for index 0, returns 0 with a response of index 0 and type
analog. A failing call leaves the response structure as it is, and every call
leaves the driver state as it is. -/
theorem enum_input_output (node : akvcam_node) (w : World B C E) (device : akvcam_device B C)
    (hdev : akvcam_driver_device_from_num_nr w (akvcam_node_device_num node) = some device) :
    (akvcam_device_type device = .AKVCAM_DEVICE_TYPE_OUTPUT →
      ∀ input : v4l2_input, akvcam_ioctl_enuminput node input w = (-ENOTTY, input, w)) ∧
    (akvcam_device_type device ≠ .AKVCAM_DEVICE_TYPE_OUTPUT →
      ∀ input : v4l2_input,
        (input.index > 0 → akvcam_ioctl_enuminput node input w = (-EINVAL, input, w)) ∧
        (input.index = 0 →
          (akvcam_ioctl_enuminput node input w).1 = 0 ∧
          (akvcam_ioctl_enuminput node input w).2.1.index = 0 ∧
          (akvcam_ioctl_enuminput node input w).2.1.type = V4L2_INPUT_TYPE_CAMERA ∧
          (akvcam_ioctl_enuminput node input w).2.1.name = "akvcam-input" ∧
          (akvcam_ioctl_enuminput node input w).2.2 = w)) ∧
    (akvcam_device_type device = .AKVCAM_DEVICE_TYPE_CAPTURE →
      ∀ output : v4l2_output, akvcam_ioctl_enumoutput node output w = (-ENOTTY, output, w)) ∧
    (akvcam_device_type device ≠ .AKVCAM_DEVICE_TYPE_CAPTURE →
      ∀ output : v4l2_output,
        (output.index > 0 → akvcam_ioctl_enumoutput node output w = (-EINVAL, output, w)) ∧
        (output.index = 0 →
          (akvcam_ioctl_enumoutput node output w).1 = 0 ∧
          (akvcam_ioctl_enumoutput node output w).2.1.index = 0 ∧
          (akvcam_ioctl_enumoutput node output w).2.1.type = V4L2_OUTPUT_TYPE_ANALOG ∧
          (akvcam_ioctl_enumoutput node output w).2.1.name = "akvcam-output" ∧
          (akvcam_ioctl_enumoutput node output w).2.2 = w)) := by
  refine ⟨fun ht input => ?_, fun ht input => ⟨fun hi => ?_, fun hi => ?_⟩,
    fun ht output => ?_, fun ht output => ⟨fun hi => ?_, fun hi => ?_⟩⟩
  · simp [akvcam_ioctl_enuminput, hdev, ht]
  · simp [akvcam_ioctl_enuminput, hdev, ht, hi]
  · have hname : snprintf 32 "akvcam-input" = "akvcam-input" :=
      snprintf_fits 32 _ (by decide)
    simp [akvcam_ioctl_enuminput, hdev, ht, hi, hname]
  · simp [akvcam_ioctl_enumoutput, hdev, ht]
  · simp [akvcam_ioctl_enumoutput, hdev, ht, hi]
  · have hname : snprintf 32 "akvcam-output" = "akvcam-output" :=
      snprintf_fits 32 _ (by decide)
    simp [akvcam_ioctl_enumoutput, hdev, ht, hi, hname]

/-- C30 witness: the sample device is of the capture class. `akvcam_ioctl_enumoutput`
returns `-ENOTTY` for it; `akvcam_ioctl_enuminput` returns `-EINVAL` for index 1
and, for index 0, returns 0 with type camera. On the sample output device
`akvcam_ioctl_enuminput` returns `-ENOTTY` and `akvcam_ioctl_enumoutput` with index
0 returns 0 with type analog. -/
theorem enum_input_output_witness :
    (akvcam_driver_device_from_num_nr (sample_world_controls 0)
        (akvcam_node_device_num sample_node_a) = some (sample_device_controls 0) ∧
      akvcam_device_type (sample_device_controls 0) = .AKVCAM_DEVICE_TYPE_CAPTURE) ∧
    akvcam_ioctl_enumoutput sample_node_a ⟨0, "", 0, 0, 0, 0, 0⟩ (sample_world_controls 0)
      = (-ENOTTY, ⟨0, "", 0, 0, 0, 0, 0⟩, sample_world_controls 0) ∧
    (akvcam_ioctl_enuminput sample_node_a ⟨1, "", 0, 0, 0, 0, 0, 0⟩
        (sample_world_controls 0)).1 = -EINVAL ∧
    (akvcam_ioctl_enuminput sample_node_a ⟨0, "", 9, 0, 0, 0, 0, 0⟩
        (sample_world_controls 0)).1 = 0 ∧
    (akvcam_ioctl_enuminput sample_node_a ⟨0, "", 9, 0, 0, 0, 0, 0⟩
        (sample_world_controls 0)).2.1
      = ⟨0, "akvcam-input", V4L2_INPUT_TYPE_CAMERA, 0, 0, 0, 0, 0⟩ ∧
    (akvcam_ioctl_enuminput sample_node_a ⟨0, "", 0, 0, 0, 0, 0, 0⟩
        sample_world_output_rw).1 = -ENOTTY ∧
    (akvcam_ioctl_enumoutput sample_node_a ⟨0, "", 9, 0, 0, 0, 0⟩
        sample_world_output_rw).2.1
      = ⟨0, "akvcam-output", V4L2_OUTPUT_TYPE_ANALOG, 0, 0, 0, 0⟩ :=
  ⟨⟨rfl, rfl⟩,
   (enum_input_output sample_node_a (sample_world_controls 0) (sample_device_controls 0)
      rfl).2.2.1 rfl ⟨0, "", 0, 0, 0, 0, 0⟩,
   by decide, by decide, by decide, by decide, by decide⟩

end InputsOutputs

/-! ## Theorems: the initial event of a subscription -/

section InitialEvent

variable {B C E : Type}

theorem akvcam_node_events_nr_store_events (w : World B C E) (node : akvcam_node) (events : E) :
    akvcam_node_events_nr (w.store_events node events) node = events := by
  simp [akvcam_node_events_nr, World.store_events]

theorem akvcam_ioctl_subscribe_event_eq (co : Controls C) (eo : Events E) (node : akvcam_node)
    (event : v4l2_event_subscription) (w : World B C E) (device : akvcam_device B C)
    (hdev : akvcam_driver_device_from_num_nr w (akvcam_node_device_num node) = some device)
    (hrw : akvcam_device_rw_mode device &&& AKVCAM_RW_MODE_READWRITE = 0)
    (htype : event.type = V4L2_EVENT_CTRL ∨ event.type = V4L2_EVENT_FRAME_SYNC)
    (hid : co.akvcam_controls_contains (akvcam_device_controls_nr device) event.id = true) :
    akvcam_ioctl_subscribe_event co eo node event w
      = (0, event,
          w.store_events node
            (if event.type = V4L2_EVENT_CTRL
                ∧ event.flags &&& V4L2_EVENT_SUB_FL_SEND_INITIAL ≠ 0
                ∧ (co.akvcam_controls_generate_event
                    (akvcam_device_controls_nr device) event.id).1 = true then
              eo.akvcam_events_enqueue
                (eo.akvcam_events_subscribe (akvcam_node_events_nr w node) event)
                (co.akvcam_controls_generate_event
                  (akvcam_device_controls_nr device) event.id).2
            else eo.akvcam_events_subscribe (akvcam_node_events_nr w node) event)) := by
  have hclass : ¬ (event.type ≠ V4L2_EVENT_CTRL ∧ event.type ≠ V4L2_EVENT_FRAME_SYNC) := by
    rcases htype with h | h
    · exact fun hh => hh.1 h
    · exact fun hh => hh.2 h
  unfold akvcam_ioctl_subscribe_event
  simp only [hdev, hrw, ne_eq, not_true_eq_false, if_false, hclass, hid, Bool.true_eq_false]
  by_cases h1 : event.type = V4L2_EVENT_CTRL ∧ ¬ event.flags &&& V4L2_EVENT_SUB_FL_SEND_INITIAL = 0
  · rw [if_pos h1]
    cases hg : (co.akvcam_controls_generate_event (akvcam_device_controls_nr device) event.id).1
    · simp
    · simp [h1.1, h1.2]
  · rw [if_neg h1]
    have h2 : ¬ (event.type = V4L2_EVENT_CTRL
        ∧ ¬ event.flags &&& V4L2_EVENT_SUB_FL_SEND_INITIAL = 0
        ∧ (co.akvcam_controls_generate_event
            (akvcam_device_controls_nr device) event.id).1 = true) :=
      fun hh => h1 ⟨hh.1, hh.2.1⟩
    rw [if_neg h2]

theorem akvcam_ioctl_dqevent_eq (eo : Events E) (node : akvcam_node) (event : v4l2_event)
    (w : World B C E) (device : akvcam_device B C)
    (hdev : akvcam_driver_device_from_num_nr w (akvcam_node_device_num node) = some device) :
    akvcam_ioctl_dqevent eo node event w
      = ((eo.akvcam_events_dequeue (akvcam_node_events_nr w node) event).1,
         (eo.akvcam_events_dequeue (akvcam_node_events_nr w node) event).2.2,
         w.store_events node
           (eo.akvcam_events_dequeue (akvcam_node_events_nr w node) event).2.1) := by
  simp [akvcam_ioctl_dqevent, hdev]

/-- C31: let `pending` read the events waiting in an Events queue, which
`akvcam_events_subscribe` leaves alone, `akvcam_events_enqueue` extends by one
event at the end, and `akvcam_events_dequeue` takes from the front (failing on an
empty queue). On an existing device not in read/write mode:
a control-change `akvcam_ioctl_subscribe_event` with an id that Controls contain,
with the send-initial flag set and with Controls synthesizing the event, returns 0
and enqueues exactly that one event on the calling node's queue; if no event was
waiting before, the `akvcam_ioctl_dqevent` that follows returns 0 with that event
and the one after it fails. A control-change subscription without the
send-initial flag returns 0 and enqueues nothing, and a frame-sync subscription
enqueues nothing. -/
theorem akvcam_ioctl_subscribe_event_initial (co : Controls C) (eo : Events E)
    (pending : E → List v4l2_event) (node : akvcam_node) (event : v4l2_event_subscription)
    (w : World B C E) (device : akvcam_device B C)
    (hdev : akvcam_driver_device_from_num_nr w (akvcam_node_device_num node) = some device)
    (hrw : akvcam_device_rw_mode device &&& AKVCAM_RW_MODE_READWRITE = 0)
    (hsub : ∀ q s, pending (eo.akvcam_events_subscribe q s) = pending q)
    (henq : ∀ q e, pending (eo.akvcam_events_enqueue q e) = pending q ++ [e])
    (hdq : ∀ q e first rest, pending q = first :: rest →
      (eo.akvcam_events_dequeue q e).1 = 0 ∧ (eo.akvcam_events_dequeue q e).2.2 = first ∧
      pending (eo.akvcam_events_dequeue q e).2.1 = rest)
    (hdq0 : ∀ q e, pending q = [] → (eo.akvcam_events_dequeue q e).1 < 0) :
    (event.type = V4L2_EVENT_CTRL →
      co.akvcam_controls_contains (akvcam_device_controls_nr device) event.id = true →
      event.flags &&& V4L2_EVENT_SUB_FL_SEND_INITIAL ≠ 0 →
      (co.akvcam_controls_generate_event (akvcam_device_controls_nr device) event.id).1 = true →
      (akvcam_ioctl_subscribe_event co eo node event w).1 = 0 ∧
      pending (akvcam_node_events_nr (akvcam_ioctl_subscribe_event co eo node event w).2.2 node)
        = pending (akvcam_node_events_nr w node)
          ++ [(co.akvcam_controls_generate_event
                (akvcam_device_controls_nr device) event.id).2] ∧
      (pending (akvcam_node_events_nr w node) = [] →
        ∀ e1 e2 : v4l2_event,
          (akvcam_ioctl_dqevent eo node e1
            (akvcam_ioctl_subscribe_event co eo node event w).2.2).1 = 0 ∧
          (akvcam_ioctl_dqevent eo node e1
            (akvcam_ioctl_subscribe_event co eo node event w).2.2).2.1
            = (co.akvcam_controls_generate_event
                (akvcam_device_controls_nr device) event.id).2 ∧
          (akvcam_ioctl_dqevent eo node e2
            (akvcam_ioctl_dqevent eo node e1
              (akvcam_ioctl_subscribe_event co eo node event w).2.2).2.2).1 < 0)) ∧
    (event.type = V4L2_EVENT_CTRL →
      co.akvcam_controls_contains (akvcam_device_controls_nr device) event.id = true →
      event.flags &&& V4L2_EVENT_SUB_FL_SEND_INITIAL = 0 →
      (akvcam_ioctl_subscribe_event co eo node event w).1 = 0 ∧
      pending (akvcam_node_events_nr (akvcam_ioctl_subscribe_event co eo node event w).2.2 node)
        = pending (akvcam_node_events_nr w node)) ∧
    (event.type = V4L2_EVENT_FRAME_SYNC →
      pending (akvcam_node_events_nr (akvcam_ioctl_subscribe_event co eo node event w).2.2 node)
        = pending (akvcam_node_events_nr w node)) := by
  refine ⟨fun htype hid hflag hgen => ?_, fun htype hid hflag => ?_, fun htype => ?_⟩
  · rw [akvcam_ioctl_subscribe_event_eq co eo node event w device hdev hrw (Or.inl htype) hid]
    rw [if_pos ⟨htype, hflag, hgen⟩]
    refine ⟨rfl, ?_, fun hempty e1 e2 => ?_⟩
    · show pending (akvcam_node_events_nr (w.store_events node _) node) = _
      rw [akvcam_node_events_nr_store_events, henq, hsub]
    · have hq : pending (eo.akvcam_events_enqueue
          (eo.akvcam_events_subscribe (akvcam_node_events_nr w node) event)
          (co.akvcam_controls_generate_event (akvcam_device_controls_nr device) event.id).2)
          = [(co.akvcam_controls_generate_event
              (akvcam_device_controls_nr device) event.id).2] := by
        rw [henq, hsub, hempty]
        rfl
      have h1 := hdq _ e1 _ _ hq
      have hdev1 : akvcam_driver_device_from_num_nr
          (w.store_events node (eo.akvcam_events_enqueue
            (eo.akvcam_events_subscribe (akvcam_node_events_nr w node) event)
            (co.akvcam_controls_generate_event (akvcam_device_controls_nr device) event.id).2))
          (akvcam_node_device_num node) = some device := hdev
      show (akvcam_ioctl_dqevent eo node e1 (w.store_events node _)).1 = 0 ∧
        (akvcam_ioctl_dqevent eo node e1 (w.store_events node _)).2.1 = _ ∧
        (akvcam_ioctl_dqevent eo node e2
          (akvcam_ioctl_dqevent eo node e1 (w.store_events node _)).2.2).1 < 0
      rw [akvcam_ioctl_dqevent_eq eo node e1 _ device hdev1,
        akvcam_node_events_nr_store_events]
      refine ⟨h1.1, h1.2.1, ?_⟩
      have hdev2 : akvcam_driver_device_from_num_nr
          ((w.store_events node (eo.akvcam_events_enqueue
            (eo.akvcam_events_subscribe (akvcam_node_events_nr w node) event)
            (co.akvcam_controls_generate_event
              (akvcam_device_controls_nr device) event.id).2)).store_events node
            (eo.akvcam_events_dequeue (eo.akvcam_events_enqueue
              (eo.akvcam_events_subscribe (akvcam_node_events_nr w node) event)
              (co.akvcam_controls_generate_event
                (akvcam_device_controls_nr device) event.id).2) e1).2.1)
          (akvcam_node_device_num node) = some device := hdev
      show (akvcam_ioctl_dqevent eo node e2 (World.store_events _ node _)).1 < 0
      rw [akvcam_ioctl_dqevent_eq eo node e2 _ device hdev2,
        akvcam_node_events_nr_store_events]
      exact hdq0 _ e2 h1.2.2
  · rw [akvcam_ioctl_subscribe_event_eq co eo node event w device hdev hrw (Or.inl htype) hid]
    have hno : ¬ (event.type = V4L2_EVENT_CTRL
        ∧ event.flags &&& V4L2_EVENT_SUB_FL_SEND_INITIAL ≠ 0
        ∧ (co.akvcam_controls_generate_event
            (akvcam_device_controls_nr device) event.id).1 = true) :=
      fun hh => hh.2.1 hflag
    rw [if_neg hno]
    refine ⟨rfl, ?_⟩
    show pending (akvcam_node_events_nr (w.store_events node _) node) = _
    rw [akvcam_node_events_nr_store_events, hsub]
  · cases hid : co.akvcam_controls_contains (akvcam_device_controls_nr device) event.id
    · have h : akvcam_ioctl_subscribe_event co eo node event w = (-EINVAL, event, w) := by
        simp [akvcam_ioctl_subscribe_event, hdev, hrw, htype, hid]
      rw [h]
    · rw [akvcam_ioctl_subscribe_event_eq co eo node event w device hdev hrw (Or.inr htype) hid]
      have hne : event.type ≠ V4L2_EVENT_CTRL := by
        rw [htype]
        decide
      have hno : ¬ (event.type = V4L2_EVENT_CTRL
          ∧ event.flags &&& V4L2_EVENT_SUB_FL_SEND_INITIAL ≠ 0
          ∧ (co.akvcam_controls_generate_event
              (akvcam_device_controls_nr device) event.id).1 = true) :=
        fun hh => hne hh.1
      rw [if_neg hno]
      show pending (akvcam_node_events_nr (w.store_events node _) node) = _
      rw [akvcam_node_events_nr_store_events, hsub]

/-- C31 witness: on the sample device, whose only control is brightness, node 1
subscribes to control-change events of brightness with the send-initial flag: the
call returns 0, the `akvcam_ioctl_dqevent` that follows returns 0 with the event
Controls synthesized, and the one after it returns `-ENOENT`. Without the flag the
`akvcam_ioctl_dqevent` that follows returns `-ENOENT` at once. -/
theorem akvcam_ioctl_subscribe_event_initial_witness :
    (akvcam_driver_device_from_num_nr (sample_world_controls 0)
        (akvcam_node_device_num sample_node_a) = some (sample_device_controls 0) ∧
      akvcam_device_rw_mode (sample_device_controls 0) &&& AKVCAM_RW_MODE_READWRITE = 0 ∧
      sample_controls.akvcam_controls_contains
        (akvcam_device_controls_nr (sample_device_controls 0)) V4L2_CID_BRIGHTNESS = true) ∧
    ((akvcam_ioctl_subscribe_event sample_controls sample_events sample_node_a
        ⟨V4L2_EVENT_CTRL, V4L2_CID_BRIGHTNESS, V4L2_EVENT_SUB_FL_SEND_INITIAL⟩
        (sample_world_controls 0)).1 = 0 ∧
      (akvcam_node_events_nr
        (akvcam_ioctl_subscribe_event sample_controls sample_events sample_node_a
          ⟨V4L2_EVENT_CTRL, V4L2_CID_BRIGHTNESS, V4L2_EVENT_SUB_FL_SEND_INITIAL⟩
          (sample_world_controls 0)).2.2 sample_node_a).pending
        = (akvcam_node_events_nr (sample_world_controls 0) sample_node_a).pending
          ++ [(sample_controls.akvcam_controls_generate_event
                (akvcam_device_controls_nr (sample_device_controls 0))
                V4L2_CID_BRIGHTNESS).2]) ∧
    (akvcam_ioctl_dqevent sample_events sample_node_a ⟨0, [], 0, 0, 0, 0⟩
      (akvcam_ioctl_subscribe_event sample_controls sample_events sample_node_a
        ⟨V4L2_EVENT_CTRL, V4L2_CID_BRIGHTNESS, V4L2_EVENT_SUB_FL_SEND_INITIAL⟩
        (sample_world_controls 0)).2.2).1 = 0 ∧
    (akvcam_ioctl_dqevent sample_events sample_node_a ⟨0, [], 0, 0, 0, 0⟩
      (akvcam_ioctl_subscribe_event sample_controls sample_events sample_node_a
        ⟨V4L2_EVENT_CTRL, V4L2_CID_BRIGHTNESS, V4L2_EVENT_SUB_FL_SEND_INITIAL⟩
        (sample_world_controls 0)).2.2).2.1
      = ⟨V4L2_EVENT_CTRL, [], 0, 0, 0, V4L2_CID_BRIGHTNESS⟩ ∧
    (akvcam_ioctl_dqevent sample_events sample_node_a ⟨0, [], 0, 0, 0, 0⟩
      (akvcam_ioctl_dqevent sample_events sample_node_a ⟨0, [], 0, 0, 0, 0⟩
        (akvcam_ioctl_subscribe_event sample_controls sample_events sample_node_a
          ⟨V4L2_EVENT_CTRL, V4L2_CID_BRIGHTNESS, V4L2_EVENT_SUB_FL_SEND_INITIAL⟩
          (sample_world_controls 0)).2.2).2.2).1 = -ENOENT ∧
    (akvcam_ioctl_dqevent sample_events sample_node_a ⟨0, [], 0, 0, 0, 0⟩
      (akvcam_ioctl_subscribe_event sample_controls sample_events sample_node_a
        ⟨V4L2_EVENT_CTRL, V4L2_CID_BRIGHTNESS, 0⟩ (sample_world_controls 0)).2.2).1
      = -ENOENT :=
  ⟨⟨rfl, by decide, by decide⟩,
   ⟨((akvcam_ioctl_subscribe_event_initial sample_controls sample_events
        (fun q => q.pending) sample_node_a
        ⟨V4L2_EVENT_CTRL, V4L2_CID_BRIGHTNESS, V4L2_EVENT_SUB_FL_SEND_INITIAL⟩
        (sample_world_controls 0) (sample_device_controls 0) rfl (by decide)
        (fun _ _ => rfl) (fun _ _ => rfl)
        (by
          intro q e first rest h
          simp [sample_events, h])
        (by
          intro q e h
          simp [sample_events, h, ENOENT])).1 rfl (by decide) (by decide) (by decide)).1,
    ((akvcam_ioctl_subscribe_event_initial sample_controls sample_events
        (fun q => q.pending) sample_node_a
        ⟨V4L2_EVENT_CTRL, V4L2_CID_BRIGHTNESS, V4L2_EVENT_SUB_FL_SEND_INITIAL⟩
        (sample_world_controls 0) (sample_device_controls 0) rfl (by decide)
        (fun _ _ => rfl) (fun _ _ => rfl)
        (by
          intro q e first rest h
          simp [sample_events, h])
        (by
          intro q e h
          simp [sample_events, h, ENOENT])).1 rfl (by decide) (by decide) (by decide)).2.1⟩,
   by decide, by decide, by decide, by decide⟩

end InitialEvent

/-! ## Theorems: effect of a format change -/

section FormatEffect

variable {B C E : Type}

/-- C32: `akvcam_ioctl_s_fmt` returns the result code and leaves the response
structure of `akvcam_ioctl_try_fmt` on the same request and state. When the result
is not 0 the driver state is as before, so the device's current format and its
read/write pool are unchanged. When the result is 0, Formats found a nearest
format, the response echoes its pixel code, width and height, and the device's
new current format has the pixel code, width and height of the response and the
frame rate the device had before the call. -/
theorem akvcam_ioctl_s_fmt_effect (fo : Formats) (bo : Buffers B) (node : akvcam_node)
    (format : v4l2_format) (w : World B C E) :
    (akvcam_ioctl_s_fmt fo bo node format w).1 = (akvcam_ioctl_try_fmt fo node format w).1 ∧
    (akvcam_ioctl_s_fmt fo bo node format w).2.1 = (akvcam_ioctl_try_fmt fo node format w).2.1 ∧
    ((akvcam_ioctl_s_fmt fo bo node format w).1 ≠ 0 →
      (akvcam_ioctl_s_fmt fo bo node format w).2.2 = w) ∧
    (∀ device : akvcam_device B C,
      akvcam_driver_device_from_num_nr w (akvcam_node_device_num node) = some device →
      (akvcam_ioctl_s_fmt fo bo node format w).1 = 0 →
      ∃ (nf : akvcam_format) (device' : akvcam_device B C),
        fo.akvcam_format_nearest (akvcam_device_formats device)
          (akvcam_format_new format.fmt.pixelformat format.fmt.width format.fmt.height ⟨0, 0⟩)
          = some nf ∧
        (akvcam_ioctl_s_fmt fo bo node format w).2.1.fmt.pixelformat = akvcam_format_fourcc nf ∧
        (akvcam_ioctl_s_fmt fo bo node format w).2.1.fmt.width = u32 (akvcam_format_width nf) ∧
        (akvcam_ioctl_s_fmt fo bo node format w).2.1.fmt.height
          = u32 (akvcam_format_height nf) ∧
        akvcam_driver_device_from_num_nr (akvcam_ioctl_s_fmt fo bo node format w).2.2
          (akvcam_node_device_num node) = some device' ∧
        akvcam_device_format device'
          = { fourcc := (akvcam_ioctl_s_fmt fo bo node format w).2.1.fmt.pixelformat,
              width := (akvcam_ioctl_s_fmt fo bo node format w).2.1.fmt.width,
              height := (akvcam_ioctl_s_fmt fo bo node format w).2.1.fmt.height,
              frame_rate := akvcam_format_frame_rate (akvcam_device_format device) }) := by
  cases hdev : akvcam_driver_device_from_num_nr w (akvcam_node_device_num node) with
  | none =>
    have hs : akvcam_ioctl_s_fmt fo bo node format w = (- EIO, format, w) := by
      simp [akvcam_ioctl_s_fmt, hdev]
    have ht : akvcam_ioctl_try_fmt fo node format w = (- EIO, format, w) := by
      simp [akvcam_ioctl_try_fmt, hdev]
    rw [hs, ht]
    exact ⟨rfl, rfl, fun _ => rfl, fun device h => by cases h⟩
  | some device =>
    rw [akvcam_ioctl_s_fmt_eq fo bo node format w device hdev]
    by_cases h0 : (akvcam_ioctl_try_fmt fo node format w).1 = 0
    · rw [if_pos h0]
      refine ⟨rfl, rfl, fun hne => absurd h0 hne, fun device1 h1 _ => ?_⟩
      cases h1
      obtain ⟨nf, hn, heq⟩ := akvcam_ioctl_try_fmt_zero fo node format w device hdev h0
      refine ⟨nf, _, hn, ?_, ?_, ?_, World.store_lookup _ _ _, rfl⟩
      · rw [heq]
        exact v4l2_format_fill_pixelformat fo format.type nf
      · rw [heq]
        exact v4l2_format_fill_width fo format.type nf
      · rw [heq]
        exact v4l2_format_fill_height fo format.type nf
    · rw [if_neg h0]
      exact ⟨rfl, rfl, fun _ => akvcam_ioctl_try_fmt_world fo node format w,
        fun _ _ hz => absurd hz h0⟩

/-- C32 witness: the sample device supports YUYV 640x480 at 30/1 and 320x240 at
15/1 and is set to 320x240 at 15/1. `akvcam_ioctl_s_fmt` for YUYV 800x600 returns
0 and echoes 640x480, and the current format becomes YUYV 640x480 at 15/1; on the
streaming sample device it returns `-EBUSY`, as `akvcam_ioctl_try_fmt` does, and
the current format stays. -/
theorem akvcam_ioctl_s_fmt_effect_witness :
    (akvcam_ioctl_s_fmt sample_formats sample_buffers sample_node_a sample_request_800x600
        sample_world).1
      = (akvcam_ioctl_try_fmt sample_formats sample_node_a sample_request_800x600
        sample_world).1 ∧
    (akvcam_ioctl_s_fmt sample_formats sample_buffers sample_node_a sample_request_800x600
        sample_world).1 = 0 ∧
    ((akvcam_ioctl_s_fmt sample_formats sample_buffers sample_node_a sample_request_800x600
        sample_world).2.1.fmt.pixelformat,
      (akvcam_ioctl_s_fmt sample_formats sample_buffers sample_node_a sample_request_800x600
        sample_world).2.1.fmt.width,
      (akvcam_ioctl_s_fmt sample_formats sample_buffers sample_node_a sample_request_800x600
        sample_world).2.1.fmt.height) = (V4L2_PIX_FMT_YUYV, 640, 480) ∧
    ((akvcam_ioctl_s_fmt sample_formats sample_buffers sample_node_a sample_request_800x600
        sample_world).2.2.devices 0).map (fun device => device.format)
      = some ⟨V4L2_PIX_FMT_YUYV, 640, 480, ⟨15, 1⟩⟩ ∧
    (akvcam_ioctl_s_fmt sample_formats sample_buffers sample_node_a sample_request_800x600
        sample_world_streaming).1 = -EBUSY ∧
    ((akvcam_ioctl_s_fmt sample_formats sample_buffers sample_node_a sample_request_800x600
        sample_world_streaming).2.2.devices 0).map (fun device => device.format)
      = some ⟨V4L2_PIX_FMT_YUYV, 320, 240, ⟨15, 1⟩⟩ :=
  ⟨(akvcam_ioctl_s_fmt_effect sample_formats sample_buffers sample_node_a
      sample_request_800x600 sample_world).1,
   by decide, by decide, by decide, by decide, by decide⟩

end FormatEffect

/-! ## Theorems: first match in table order -/

section FirstMatch

variable {N W U : Type}

theorem take_length_takeWhile {α : Type} (p : α → Bool) (l : List α) :
    l.take (l.takeWhile p).length = l.takeWhile p := by
  induction l with
  | nil => rfl
  | cons a rest ih =>
    cases hp : p a
    · simp [List.takeWhile_cons, hp]
    · simp [List.takeWhile_cons, hp, ih]

theorem akvcam_ioctls_private_counted (u : Uapi) (hnz : ∀ c, u.code c ≠ 0) :
    (akvcam_ioctls_private u).take (akvcam_ioctl_new u).n_ioctls
      = akvcam_ioctls_handlers u ++ akvcam_ioctls_ignored u := by
  have hall : ∀ e ∈ akvcam_ioctls_handlers u ++ akvcam_ioctls_ignored u,
      (fun e : akvcam_ioctl_handler => e.cmd != 0) e = true := by
    intro e he
    have hm : e.cmd ∈ (akvcam_ioctls_handlers u ++ akvcam_ioctls_ignored u).map
        (fun e => e.cmd) := List.mem_map_of_mem _ he
    rw [List.map_append, akvcam_ioctls_handlers_cmd, akvcam_ioctls_ignored_cmd,
      List.mem_append] at hm
    have hc : ∃ c, u.code c = e.cmd := by
      rcases hm with hm | hm
      · obtain ⟨c, _, hc⟩ := List.mem_map.mp hm
        exact ⟨c, hc⟩
      · obtain ⟨c, _, hc⟩ := List.mem_map.mp hm
        exact ⟨c, hc⟩
    obtain ⟨c, hc⟩ := hc
    have hne : e.cmd ≠ 0 := hc ▸ hnz c
    simpa using hne
  show (akvcam_ioctls_private u).take
      ((akvcam_ioctls_private u).takeWhile (fun e => e.cmd != 0)).length = _
  rw [take_length_takeWhile]
  unfold akvcam_ioctls_private
  rw [List.takeWhile_append_of_pos hall]
  simp [AKVCAM_HANDLER_END]

theorem akvcam_ioctls_handlers_find (u : Uapi) (hinj : Function.Injective u.code)
    (c : Ioctl) (p : akvcam_proc_t) (ty : CType)
    (hc : (c = .VIDIOC_ENUMOUTPUT ∧ p = .enumoutput ∧ ty = .v4l2_output)
      ∨ (c = .VIDIOC_G_OUTPUT ∧ p = .g_output ∧ ty = .c_int)
      ∨ (c = .VIDIOC_S_OUTPUT ∧ p = .s_output ∧ ty = .c_int)) :
    (akvcam_ioctls_handlers u).find? (fun e => e.cmd == u.code c)
      = some (AKVCAM_HANDLER u c p ty) := by
  rcases hc with ⟨h1, h2, h3⟩ | ⟨h1, h2, h3⟩ | ⟨h1, h2, h3⟩ <;> subst h1 h2 h3 <;>
    cases hq : u.has_query_ext_ctrl <;>
    simp [akvcam_ioctls_handlers, hq, List.find?_cons, AKVCAM_HANDLER, hinj.eq_iff]

/-- C33: let distinct command macros have distinct values, none of them zero. Then
the rows that `akvcam_ioctl_new` counts are all the rows before the end marker,
and for each of `VIDIOC_ENUMOUTPUT`, `VIDIOC_G_OUTPUT` and `VIDIOC_S_OUTPUT`, which
the table lists with a handler and later without one, the first row that matches
is the handler row. So `akvcam_ioctl_do` with a payload that is not NULL copies in
the size declared in the handler row, `-EIO` without a handler call if that copy
fails, and otherwise calls the handler of that row and copies the same size out;
its trace is never empty, as it is on the `-ENOTTY` path of a row without a
handler. -/
theorem akvcam_ioctl_do_first_match (u : Uapi) (hinj : Function.Injective u.code)
    (hnz : ∀ c, u.code c ≠ 0) (c : Ioctl) (p : akvcam_proc_t) (ty : CType)
    (hc : (c = .VIDIOC_ENUMOUTPUT ∧ p = .enumoutput ∧ ty = .v4l2_output)
      ∨ (c = .VIDIOC_G_OUTPUT ∧ p = .g_output ∧ ty = .c_int)
      ∨ (c = .VIDIOC_S_OUTPUT ∧ p = .s_output ∧ ty = .c_int)) :
    (akvcam_ioctls_private u).take (akvcam_ioctl_new u).n_ioctls
      = akvcam_ioctls_handlers u ++ akvcam_ioctls_ignored u ∧
    AKVCAM_HANDLER u c p ty ∈ akvcam_ioctls_handlers u ∧
    AKVCAM_HANDLER_IGNORE u c ∈ akvcam_ioctls_ignored u ∧
    ((akvcam_ioctls_private u).take (akvcam_ioctl_new u).n_ioctls).find?
        (fun e => e.cmd == u.code c) = some (AKVCAM_HANDLER u c p ty) ∧
    ∀ (ua : Uaccess U) (invoke : akvcam_proc_t → N → List Nat → W → Int × List Nat × W)
      (node : N) (arg : Nat) (w : W) (us : U), arg ≠ 0 →
      ((ua.copy_from_user us arg (u.sizeof ty)).1 ≠ 0 →
        akvcam_ioctl_do u ua invoke (akvcam_ioctl_new u) node (u.code c) arg w us
          = ⟨- EIO, w, us, [.copy_from_user arg (u.sizeof ty)]⟩) ∧
      ((ua.copy_from_user us arg (u.sizeof ty)).1 = 0 →
        akvcam_ioctl_do u ua invoke (akvcam_ioctl_new u) node (u.code c) arg w us
          = ⟨if (ua.copy_to_user us arg
                  (invoke p node (ua.copy_from_user us arg (u.sizeof ty)).2 w).2.1
                  (u.sizeof ty)).1 ≠ 0
              then - EIO
              else (invoke p node (ua.copy_from_user us arg (u.sizeof ty)).2 w).1,
             (invoke p node (ua.copy_from_user us arg (u.sizeof ty)).2 w).2.2,
             (ua.copy_to_user us arg
               (invoke p node (ua.copy_from_user us arg (u.sizeof ty)).2 w).2.1
               (u.sizeof ty)).2,
             [.copy_from_user arg (u.sizeof ty),
              .proc p (ua.copy_from_user us arg (u.sizeof ty)).2,
              .copy_to_user arg
                (invoke p node (ua.copy_from_user us arg (u.sizeof ty)).2 w).2.1
                (u.sizeof ty)]⟩) ∧
      (akvcam_ioctl_do u ua invoke (akvcam_ioctl_new u) node (u.code c) arg w us).trace
        ≠ [] := by
  have hcount := akvcam_ioctls_private_counted u hnz
  have hfindh := akvcam_ioctls_handlers_find u hinj c p ty hc
  have hfind : ((akvcam_ioctls_private u).take (akvcam_ioctl_new u).n_ioctls).find?
      (fun e => e.cmd == u.code c) = some (AKVCAM_HANDLER u c p ty) := by
    rw [hcount, List.find?_append, hfindh]
    rfl
  have hmem : c ∈ akvcam_ioctls_ignored_cmds := by
    rcases hc with ⟨h1, _, _⟩ | ⟨h1, _, _⟩ | ⟨h1, _, _⟩ <;> subst h1 <;> decide
  refine ⟨hcount, List.mem_of_find?_eq_some hfindh, ?_, hfind, ?_⟩
  · rw [akvcam_ioctls_ignored_eq]
    exact List.mem_map_of_mem _ hmem
  · intro ua invoke node arg w us harg
    have hdo : akvcam_ioctl_do u ua invoke (akvcam_ioctl_new u) node (u.code c) arg w us
        = akvcam_ioctl_do_loop ua invoke node (u.code c) arg w us [AKVCAM_HANDLER u c p ty] := by
      unfold akvcam_ioctl_do
      exact akvcam_ioctl_do_loop_find ua invoke node (u.code c) arg w us _ _ hfind
    rw [hdo]
    refine ⟨fun hcf => ?_, fun hcf => ?_, ?_⟩
    · simp [akvcam_ioctl_do_loop, AKVCAM_HANDLER, harg, hcf]
    · simp [akvcam_ioctl_do_loop, AKVCAM_HANDLER, harg, hcf]
    · by_cases hcf : (ua.copy_from_user us arg (u.sizeof ty)).1 = 0
      · simp [akvcam_ioctl_do_loop, AKVCAM_HANDLER, harg, hcf]
      · simp [akvcam_ioctl_do_loop, AKVCAM_HANDLER, harg, hcf]

/-- C33 witness: with the sample header values, `akvcam_ioctl_do` for
`VIDIOC_G_OUTPUT` with a payload at address 64 copies 4 bytes in, calls
`akvcam_ioctl_g_output` and copies 4 bytes out. -/
theorem akvcam_ioctl_do_first_match_witness :
    (Function.Injective sample_uapi.code ∧ ∀ c, sample_uapi.code c ≠ 0) ∧
    ((akvcam_ioctls_private sample_uapi).take (akvcam_ioctl_new sample_uapi).n_ioctls).find?
        (fun e => e.cmd == sample_uapi.code .VIDIOC_G_OUTPUT)
      = some (AKVCAM_HANDLER sample_uapi .VIDIOC_G_OUTPUT .g_output .c_int) ∧
    (akvcam_ioctl_do sample_uapi sample_uaccess sample_invoke (akvcam_ioctl_new sample_uapi)
        () (sample_uapi.code .VIDIOC_G_OUTPUT) 64 () (fun _ => 7)).trace
      = [.copy_from_user 64 4, .proc .g_output [7, 7, 7, 7],
         .copy_to_user 64 [7, 7, 7, 7] 4] :=
  ⟨⟨sample_uapi_code_injective, fun c => Nat.succ_ne_zero _⟩,
   by decide,
   congrArg IoctlOutcome.trace
     (((akvcam_ioctl_do_first_match sample_uapi sample_uapi_code_injective
        (fun c => Nat.succ_ne_zero _) .VIDIOC_G_OUTPUT .g_output .c_int
        (Or.inr (Or.inl ⟨rfl, rfl, rfl⟩))).2.2.2.2 sample_uaccess sample_invoke () 64 ()
        (fun _ => 7) (by decide)).2.1 rfl)⟩

end FirstMatch

end Akvcam
